import Mathlib

/-!
# Coordinate transform, range, zoom/pan engine and painters of WT1225A

A shallow embedding of the plotting engine of `src/plottingwidget.cpp` (class
`PlottingWidget`) and `src/plotwindow.cpp` (classes `PlotWindow` and
`DualPlotWindow`).

Conventions of the embedding:

* a C++ `double` that takes part in arithmetic is a real number (`ℝ`): the
  results below are statements of exact real arithmetic, rounding is not
  modelled.  Real-valued definitions are therefore not compiled, they are
  evaluated by rewriting (`norm_num`, `simp`);
* a stored sample can also be NaN or infinite, so sample arrays hold `Sample`s;
* `log10 x` is `Real.logb 10 x` and `pow(10, y)` is `(10:ℝ) ^ y`; the embedding
  of `log10` is faithful for positive arguments, the only ones at which the
  results below use it;
* Qt value types (`QRect`, `QPoint`, `QPointF`) follow the Qt library: a `QRect`
  stores its two corners `x1, y1, x2, y2`, with `width = x2 - x1 + 1`;
* a division by zero is not modelled (in Lean `x / 0 = 0`, in C++ it is an
  infinity or a NaN): the results below are about states in which the divisors of
  the code (plot-area width and height, axis span, zoom factor) are not zero;
* member functions that mutate the object return the new object;
  `updatePlot()` only schedules a repaint and is the identity on the state;
* a painter (`drawCurve`, `drawStepCurve`) returns the primitives it hands to the
  `QPainter`, in the order of the calls; `drawLegend` returns the state with the legend
  rectangle it computes;
* Qt library functions whose result is not fixed by the program (`QRect::normalized()`,
  `QPointF::toPoint()`, the font metrics read by `drawLegend`) are parameters of the
  functions that call them.
-/

noncomputable section

/-- The C library `log10` on positive arguments. -/
def log10 (x : ℝ) : ℝ := Real.logb 10 x

/-- The C library `pow(10, y)`. -/
def pow10 (y : ℝ) : ℝ := (10 : ℝ) ^ y

/-- Axis kinds, `enum class AxisType` of `plottingwidget.h`. -/
inductive AxisType where
  | Linear
  | Logarithmic
  deriving DecidableEq, Repr

/-- Curve kinds, `enum class CurveType` of `plottingwidget.h`. -/
inductive CurveType where
  | Normal
  | Step
  deriving DecidableEq, Repr

/-- Qt `QPoint`: integer pixel coordinates. -/
structure QPoint where
  x : ℤ
  y : ℤ
  deriving DecidableEq, Repr

/-- Qt `QPointF`: a point with `double` coordinates. -/
structure QPointF where
  x : ℝ
  y : ℝ

/-- Implicit conversion `QPoint -> QPointF`. -/
def QPoint.toPointF (p : QPoint) : QPointF := ⟨(p.x : ℝ), (p.y : ℝ)⟩

/-- Qt `QRect`: stored as the corners `(x1, y1)` and `(x2, y2)`, both inclusive. -/
structure QRect where
  x1 : ℤ
  y1 : ℤ
  x2 : ℤ
  y2 : ℤ
  deriving DecidableEq, Repr

namespace QRect

/-- Constructor `QRect(int x, int y, int width, int height)`. -/
def ofSize (x y w h : ℤ) : QRect := ⟨x, y, x + w - 1, y + h - 1⟩

/-- Constructor `QRect(const QPoint &topLeft, const QPoint &bottomRight)`. -/
def ofCorners (tl br : QPoint) : QRect := ⟨tl.x, tl.y, br.x, br.y⟩

def left (r : QRect) : ℤ := r.x1

def top (r : QRect) : ℤ := r.y1

def right (r : QRect) : ℤ := r.x2

def bottom (r : QRect) : ℤ := r.y2

def width (r : QRect) : ℤ := r.x2 - r.x1 + 1

def height (r : QRect) : ℤ := r.y2 - r.y1 + 1

def topLeft (r : QRect) : QPoint := ⟨r.x1, r.y1⟩

def bottomRight (r : QRect) : QPoint := ⟨r.x2, r.y2⟩

/-- Qt `QRect::isEmpty()`: `x1 > x2 || y1 > y2`. -/
def isEmpty (r : QRect) : Bool := decide (r.x1 > r.x2) || decide (r.y1 > r.y2)

/-- Qt `QRect::contains(const QPoint &)` for a rectangle of non-negative width and
height (`x2 ≥ x1 - 1`, `y2 ≥ y1 - 1`), the only rectangles it is applied to here. -/
def contains (r : QRect) (p : QPoint) : Bool :=
  decide (r.x1 ≤ p.x) && decide (p.x ≤ r.x2) && decide (r.y1 ≤ p.y) && decide (p.y ≤ r.y2)

end QRect

/-- A stored `double` sample: a finite value, or NaN / ±infinity
(`qIsFinite` is false exactly on the latter). -/
inductive Sample where
  | finite (v : ℝ)
  | nonFinite

/-- The fields of `struct CurveData` (`plottingwidget.h`) the engine reads. -/
structure CurveData where
  xData : List Sample
  yData : List Sample
  visible : Bool
  lineWidth : ℤ
  pointSize : ℤ
  xAxisType : AxisType
  yAxisType : AxisType
  drawType : CurveType

/-- The fields of `struct PlotSettings` (`plottingwidget.h`) the engine reads. -/
structure PlotSettings where
  xMin : ℝ
  xMax : ℝ
  yMin : ℝ
  yMax : ℝ
  xAxisType : AxisType
  yAxisType : AxisType
  showGrid : Bool
  showLegend : Bool
  yAxisTitle : String

/-- The state of a `PlottingWidget` that the engine reads or writes.
`widgetRect` is `ui->widget_plot->rect()`. -/
structure PlottingWidget where
  m_plotSettings : PlotSettings
  m_plotArea : QRect
  widgetRect : QRect
  m_curves : List CurveData
  m_isDragging : Bool
  m_isSelecting : Bool
  m_isPanning : Bool
  m_isDraggingLegend : Bool
  m_selectionStart : QPoint
  m_selectionRect : QRect
  m_lastMousePos : QPoint
  m_legendArea : QRect
  m_legendDragStart : QPoint
  m_legendOffset : QPoint

namespace PlottingWidget

/-- `PlottingWidget::dataToPixel` (plottingwidget.cpp:1510). -/
def dataToPixel (w : PlottingWidget) (dataPoint : QPointF) : QPointF :=
  let s := w.m_plotSettings
  let a := w.m_plotArea
  let x : ℝ :=
    if s.xAxisType = AxisType.Logarithmic ∧ dataPoint.x > 0 ∧ s.xMin > 0 then
      let normalizedX := (log10 dataPoint.x - log10 s.xMin) / (log10 s.xMax - log10 s.xMin)
      (a.left : ℝ) + normalizedX * (a.width : ℝ)
    else if s.xMax > s.xMin then
      (a.left : ℝ) + (dataPoint.x - s.xMin) / (s.xMax - s.xMin) * (a.width : ℝ)
    else
      (a.left : ℝ)
  let y : ℝ :=
    if s.yAxisType = AxisType.Logarithmic ∧ dataPoint.y > 0 ∧ s.yMin > 0 then
      let normalizedY := (log10 dataPoint.y - log10 s.yMin) / (log10 s.yMax - log10 s.yMin)
      (a.bottom : ℝ) - normalizedY * (a.height : ℝ)
    else if s.yMax > s.yMin then
      (a.bottom : ℝ) - (dataPoint.y - s.yMin) / (s.yMax - s.yMin) * (a.height : ℝ)
    else
      (a.bottom : ℝ)
  ⟨x, y⟩

/-- `PlottingWidget::pixelToData` (plottingwidget.cpp:1546). -/
def pixelToData (w : PlottingWidget) (pixelPoint : QPointF) : QPointF :=
  let s := w.m_plotSettings
  let a := w.m_plotArea
  let x : ℝ :=
    if s.xAxisType = AxisType.Logarithmic ∧ s.xMin > 0 ∧ s.xMax > 0 then
      let normalizedX := (pixelPoint.x - (a.left : ℝ)) / (a.width : ℝ)
      pow10 (log10 s.xMin + normalizedX * (log10 s.xMax - log10 s.xMin))
    else
      s.xMin + (pixelPoint.x - (a.left : ℝ)) / (a.width : ℝ) * (s.xMax - s.xMin)
  let y : ℝ :=
    if s.yAxisType = AxisType.Logarithmic ∧ s.yMin > 0 ∧ s.yMax > 0 then
      let normalizedY := ((a.bottom : ℝ) - pixelPoint.y) / (a.height : ℝ)
      pow10 (log10 s.yMin + normalizedY * (log10 s.yMax - log10 s.yMin))
    else
      s.yMin + ((a.bottom : ℝ) - pixelPoint.y) / (a.height : ℝ) * (s.yMax - s.yMin)
  ⟨x, y⟩

end PlottingWidget


/-- Component-wise `QPointF` subtraction (`operator-`). -/
def QPointF.sub (p q : QPointF) : QPointF := ⟨p.x - q.x, p.y - q.y⟩

/-- The values an `int` loop variable takes in `for (int k = lo; k <= hi; ++k)`. -/
def intRange (lo hi : ℤ) : List ℤ :=
  (List.range (hi + 1 - lo).toNat).map (fun (k : ℕ) => lo + (k : ℤ))

/-- The values of `value` in `for (double value = start; value <= bound; value += step)`
for a positive `step`: `start + k * step` for `k = 0 .. ⌊(bound - start) / step⌋`. -/
def doubleLoopValues (start bound step : ℝ) : List ℝ :=
  if start ≤ bound then
    (List.range (⌊(bound - start) / step⌋.toNat + 1)).map
      (fun (k : ℕ) => start + (k : ℝ) * step)
  else []

/-- `std::sort` on a vector of doubles (ascending). -/
def stdSort (l : List ℝ) : List ℝ := l.insertionSort (fun a b => a ≤ b)

/-- The scan of `std::unique`: `last` is the element kept last; an element equivalent
to it is dropped, any other one is kept and becomes `last`. -/
def stdUniqueFrom (eqv : ℝ → ℝ → Bool) (last : ℝ) : List ℝ → List ℝ
  | [] => []
  | v :: rest =>
    if eqv last v then stdUniqueFrom eqv last rest else v :: stdUniqueFrom eqv v rest

/-- `std::unique` with a binary predicate, followed by the `erase` of the tail. -/
def stdUnique (eqv : ℝ → ℝ → Bool) : List ℝ → List ℝ
  | [] => []
  | v :: rest => v :: stdUniqueFrom eqv v rest

/-- The de-duplication predicate of the tick generators: `qAbs(a - b) < 1e-10`. -/
def tickClose (a b : ℝ) : Bool := decide (|a - b| < 1e-10)

/-- The running extrema of `calculateDataBounds`. -/
structure BoundsScan where
  minX : ℝ
  maxX : ℝ
  minY : ℝ
  maxY : ℝ
  hasValidData : Bool

/-- One iteration of the sample loop of `calculateDataBounds`
(plottingwidget.cpp:1585-1600). -/
def scanSample (xAxisType yAxisType : AxisType) (b : BoundsScan) (p : Sample × Sample) :
    BoundsScan :=
  match p with
  | (Sample.finite x, Sample.finite y) =>
    if xAxisType = AxisType.Logarithmic ∧ x ≤ 0 then b
    else if yAxisType = AxisType.Logarithmic ∧ y ≤ 0 then b
    else ⟨min b.minX x, max b.maxX x, min b.minY y, max b.maxY y, true⟩
  | _ => b

/-- One iteration of the curve loop of `calculateDataBounds`
(plottingwidget.cpp:1580-1601); indices run to `qMin(xData.size(), yData.size())`. -/
def scanCurve (xAxisType yAxisType : AxisType) (b : BoundsScan) (curve : CurveData) :
    BoundsScan :=
  if !curve.visible || curve.xData.isEmpty || curve.yData.isEmpty then b
  else (List.zip curve.xData curve.yData).foldl (scanSample xAxisType yAxisType) b

/-- The extrema scan of `calculateDataBounds`, from `1e10 / -1e10`. -/
def scanCurves (xAxisType yAxisType : AxisType) (curves : List CurveData) : BoundsScan :=
  curves.foldl (scanCurve xAxisType yAxisType) ⟨1e10, -1e10, 1e10, -1e10, false⟩

namespace PlottingWidget

/-- `PlottingWidget::calculateOptimalRange` (plottingwidget.cpp:1615). -/
def calculateOptimalRange (min max : ℝ) (isLog : Bool) : ℝ × ℝ :=
  if max ≤ min then (min, max)
  else if isLog then
    let min : ℝ := if min ≤ 0 then 1e-10 else min
    let max : ℝ := if max ≤ 0 then 1 else max
    let logMin := log10 min
    let logMax := log10 max
    let rangeMin := pow10 (⌊logMin⌋ : ℝ)
    let rangeMax := pow10 (⌈logMax⌉ : ℝ)
    if rangeMax / rangeMin < 10 then (rangeMin / 10, rangeMax * 10)
    else (rangeMin, rangeMax)
  else
    let range := max - min
    if range = 0 then (min - 1, max + 1)
    else
      let orderOfMagnitude := pow10 (⌊log10 range⌋ : ℝ)
      let normalizedRange := range / orderOfMagnitude
      let tickInterval : ℝ :=
        if normalizedRange ≤ 1.5 then orderOfMagnitude * 0.2
        else if normalizedRange ≤ 3 then orderOfMagnitude * 0.5
        else if normalizedRange ≤ 7 then orderOfMagnitude
        else orderOfMagnitude * 2
      let rangeMin0 : ℝ := (⌊min / tickInterval⌋ : ℝ) * tickInterval
      let rangeMax0 : ℝ := (⌈max / tickInterval⌉ : ℝ) * tickInterval
      let margin := (rangeMax0 - rangeMin0) * 0.05
      let rangeMin1 := rangeMin0 - margin
      let rangeMax1 := rangeMax0 + margin
      let aligned : ℝ × ℝ :=
        if rangeMin1 < 0 ∧ rangeMax1 > 0 then
          ((⌊rangeMin1 / tickInterval⌋ : ℝ) * tickInterval,
            (⌈rangeMax1 / tickInterval⌉ : ℝ) * tickInterval)
        else (rangeMin1, rangeMax1)
      if min > 0 ∧ aligned.1 < 0 ∧ min < range * 0.2 then (0, aligned.2)
      else aligned

/-- `PlottingWidget::calculateDataBounds` (plottingwidget.cpp:1572). -/
def calculateDataBounds (w : PlottingWidget) : PlottingWidget :=
  if w.m_curves.isEmpty then w
  else
    let s := w.m_plotSettings
    let b := scanCurves s.xAxisType s.yAxisType w.m_curves
    if b.hasValidData = true ∧ b.minX < b.maxX ∧ b.minY < b.maxY then
      let xRange := calculateOptimalRange b.minX b.maxX (decide (s.xAxisType = AxisType.Logarithmic))
      let yRange := calculateOptimalRange b.minY b.maxY (decide (s.yAxisType = AxisType.Logarithmic))
      { w with m_plotSettings :=
          { s with xMin := xRange.1, xMax := xRange.2, yMin := yRange.1, yMax := yRange.2 } }
    else w

/-- `PlottingWidget::generateOptimizedAxisLabels` (plottingwidget.cpp:1691). -/
def generateOptimizedAxisLabels (min max : ℝ) (axisType : AxisType) : List ℝ :=
  if max ≤ min then []
  else if axisType = AxisType.Logarithmic then
    let min : ℝ := if min ≤ 0 then 1e-10 else min
    let max : ℝ := if max ≤ 0 then 1 else max
    let startPower : ℤ := ⌊log10 min⌋
    let endPower : ℤ := ⌈log10 max⌉
    let major : List ℝ :=
      ((intRange startPower endPower).map (fun (power : ℤ) => pow10 (power : ℝ))).filter
        (fun value => decide (value ≥ min * 0.999 ∧ value ≤ max * 1.001))
    let showMinorTicks : Bool := decide (endPower - startPower ≤ 3)
    let minor : List ℝ :=
      if showMinorTicks then
        (((intRange startPower (endPower - 1)).map (fun (power : ℤ) =>
          ([2, 3, 5] : List ℝ).map (fun mult => mult * pow10 (power : ℝ)))).flatten).filter
            (fun value => decide (value > min ∧ value < max))
      else []
    stdUnique tickClose (stdSort (major ++ minor))
  else
    let range := max - min
    let magnitude : ℤ := ⌊log10 range⌋
    let step0 := pow10 (magnitude : ℝ)
    let labelCount := range / step0
    let step : ℝ :=
      if labelCount < 4 then step0 / 5
      else if labelCount < 6 then step0 / 2
      else if labelCount > 10 then step0 * 2
      else step0
    let startValue0 : ℝ := (⌊min / step⌋ : ℝ) * step
    let startValue : ℝ := if startValue0 < min then startValue0 + step else startValue0
    let zero : List ℝ := if min ≤ 0 ∧ max ≥ 0 then [0] else []
    let ticks : List ℝ :=
      (doubleLoopValues startValue (max + step * 0.001) step).filter
        (fun value => decide (value ≥ min ∧ value ≤ max ∧ |value| > 1e-10))
    stdUnique tickClose (stdSort (zero ++ ticks))

/-- `PlottingWidget::mousePressEvent` (plottingwidget.cpp:1781); `plotPos` is the
event position mapped to the plot widget, `leftButton` is
`event->button() == Qt::LeftButton`, `ctrl` is the Control modifier. -/
def mousePressEvent (w : PlottingWidget) (plotPos : QPoint) (leftButton ctrl : Bool) :
    PlottingWidget :=
  if !w.widgetRect.contains plotPos then w
  else
    let w1 := { w with m_lastMousePos := plotPos }
    if w1.m_legendArea.contains plotPos && leftButton then
      { w1 with m_isDraggingLegend := true, m_legendDragStart := plotPos }
    else if !w1.m_plotArea.contains plotPos then w1
    else if leftButton then
      if ctrl then
        { w1 with m_isSelecting := true, m_selectionStart := plotPos,
                  m_selectionRect := QRect.ofCorners plotPos plotPos }
      else { w1 with m_isDragging := true, m_isPanning := true }
    else w1

/-- `PlottingWidget::mouseReleaseEvent` (plottingwidget.cpp:1846). -/
def mouseReleaseEvent (w : PlottingWidget) : PlottingWidget :=
  if w.m_isDraggingLegend then { w with m_isDraggingLegend := false }
  else
    let w1 :=
      if w.m_isSelecting && !w.m_selectionRect.isEmpty then
        let topLeft := w.pixelToData w.m_selectionRect.topLeft.toPointF
        let bottomRight := w.pixelToData w.m_selectionRect.bottomRight.toPointF
        { w with m_plotSettings :=
            { w.m_plotSettings with
              xMin := min topLeft.x bottomRight.x, xMax := max topLeft.x bottomRight.x,
              yMin := min topLeft.y bottomRight.y, yMax := max topLeft.y bottomRight.y } }
      else w
    { w1 with m_isDragging := false, m_isSelecting := false, m_isPanning := false }

/-- `PlottingWidget::zoomXIn` (plottingwidget.cpp:1933). -/
def zoomXIn (w : PlottingWidget) : PlottingWidget :=
  let s := w.m_plotSettings
  if s.xAxisType = AxisType.Logarithmic ∧ s.xMin > 0 ∧ s.xMax > 0 then
    let logMin := log10 s.xMin
    let logMax := log10 s.xMax
    let logRange := logMax - logMin
    let newLogRange := logRange / 1.25
    let logCenter := (logMin + logMax) / 2
    { w with m_plotSettings :=
        { s with xMin := pow10 (logCenter - newLogRange / 2),
                 xMax := pow10 (logCenter + newLogRange / 2) } }
  else
    let xRange := s.xMax - s.xMin
    let newXRange := xRange / 1.25
    let centerX := (s.xMin + s.xMax) / 2
    { w with m_plotSettings :=
        { s with xMin := centerX - newXRange / 2, xMax := centerX + newXRange / 2 } }

/-- `PlottingWidget::zoomXOut` (plottingwidget.cpp:1954). -/
def zoomXOut (w : PlottingWidget) : PlottingWidget :=
  let s := w.m_plotSettings
  if s.xAxisType = AxisType.Logarithmic ∧ s.xMin > 0 ∧ s.xMax > 0 then
    let logMin := log10 s.xMin
    let logMax := log10 s.xMax
    let logRange := logMax - logMin
    let newLogRange := logRange * 1.25
    let logCenter := (logMin + logMax) / 2
    { w with m_plotSettings :=
        { s with xMin := pow10 (logCenter - newLogRange / 2),
                 xMax := pow10 (logCenter + newLogRange / 2) } }
  else
    let xRange := s.xMax - s.xMin
    let newXRange := xRange * 1.25
    let centerX := (s.xMin + s.xMax) / 2
    { w with m_plotSettings :=
        { s with xMin := centerX - newXRange / 2, xMax := centerX + newXRange / 2 } }

/-- `PlottingWidget::zoomYIn` (plottingwidget.cpp:1975). -/
def zoomYIn (w : PlottingWidget) : PlottingWidget :=
  let s := w.m_plotSettings
  if s.yAxisType = AxisType.Logarithmic ∧ s.yMin > 0 ∧ s.yMax > 0 then
    let logMin := log10 s.yMin
    let logMax := log10 s.yMax
    let logRange := logMax - logMin
    let newLogRange := logRange / 1.25
    let logCenter := (logMin + logMax) / 2
    { w with m_plotSettings :=
        { s with yMin := pow10 (logCenter - newLogRange / 2),
                 yMax := pow10 (logCenter + newLogRange / 2) } }
  else
    let yRange := s.yMax - s.yMin
    let newYRange := yRange / 1.25
    let centerY := (s.yMin + s.yMax) / 2
    { w with m_plotSettings :=
        { s with yMin := centerY - newYRange / 2, yMax := centerY + newYRange / 2 } }

/-- `PlottingWidget::zoomYOut` (plottingwidget.cpp:1996). -/
def zoomYOut (w : PlottingWidget) : PlottingWidget :=
  let s := w.m_plotSettings
  if s.yAxisType = AxisType.Logarithmic ∧ s.yMin > 0 ∧ s.yMax > 0 then
    let logMin := log10 s.yMin
    let logMax := log10 s.yMax
    let logRange := logMax - logMin
    let newLogRange := logRange * 1.25
    let logCenter := (logMin + logMax) / 2
    { w with m_plotSettings :=
        { s with yMin := pow10 (logCenter - newLogRange / 2),
                 yMax := pow10 (logCenter + newLogRange / 2) } }
  else
    let yRange := s.yMax - s.yMin
    let newYRange := yRange * 1.25
    let centerY := (s.yMin + s.yMax) / 2
    { w with m_plotSettings :=
        { s with yMin := centerY - newYRange / 2, yMax := centerY + newYRange / 2 } }

/-- The X-axis assignment of `PlottingWidget::zoomAtPoint`
(plottingwidget.cpp:2021-2036): the new `(xMin, xMax)`; the Y-axis assignment
(2038-2053) is the same text on the Y fields. -/
def zoomAxis (t : AxisType) (lo hi point factor : ℝ) : ℝ × ℝ :=
  if t = AxisType.Logarithmic ∧ lo > 0 ∧ hi > 0 ∧ point > 0 then
    let logMin := log10 lo
    let logMax := log10 hi
    let logPoint := log10 point
    let logRange := logMax - logMin
    let newLogRange := logRange / factor
    (pow10 (logPoint - newLogRange * (logPoint - logMin) / logRange),
      pow10 (logPoint + newLogRange * (logMax - logPoint) / logRange))
  else
    let range := hi - lo
    let newRange := range / factor
    (point - newRange * (point - lo) / range, point + newRange * (hi - point) / range)

/-- `PlottingWidget::zoomAtPoint` (plottingwidget.cpp:2017). -/
def zoomAtPoint (w : PlottingWidget) (point : QPointF) (factor : ℝ) : PlottingWidget :=
  let s := w.m_plotSettings
  let dataPoint := w.pixelToData point
  let xr := zoomAxis s.xAxisType s.xMin s.xMax dataPoint.x factor
  let yr := zoomAxis s.yAxisType s.yMin s.yMax dataPoint.y factor
  { w with m_plotSettings := { s with xMin := xr.1, xMax := xr.2, yMin := yr.1, yMax := yr.2 } }

/-- The X half of `PlottingWidget::panView` (plottingwidget.cpp:2060-2072). -/
def panViewX (w : PlottingWidget) (delta : QPointF) : PlottingWidget :=
  let s := w.m_plotSettings
  if s.xAxisType = AxisType.Logarithmic ∧ s.xMin > 0 ∧ s.xMax > 0 then
    let logMin := log10 s.xMin
    let logMax := log10 s.xMax
    let logRange := logMax - logMin
    let logDelta := -delta.x / (w.m_plotArea.width : ℝ) * logRange
    { w with m_plotSettings :=
        { s with xMin := pow10 (logMin + logDelta), xMax := pow10 (logMax + logDelta) } }
  else
    let dataDelta := (w.pixelToData delta).sub (w.pixelToData ⟨0, 0⟩)
    { w with m_plotSettings := { s with xMin := s.xMin - dataDelta.x, xMax := s.xMax - dataDelta.x } }

/-- The Y half of `PlottingWidget::panView` (plottingwidget.cpp:2074-2086). -/
def panViewY (w : PlottingWidget) (delta : QPointF) : PlottingWidget :=
  let s := w.m_plotSettings
  if s.yAxisType = AxisType.Logarithmic ∧ s.yMin > 0 ∧ s.yMax > 0 then
    let logMin := log10 s.yMin
    let logMax := log10 s.yMax
    let logRange := logMax - logMin
    let logDelta := delta.y / (w.m_plotArea.height : ℝ) * logRange
    { w with m_plotSettings :=
        { s with yMin := pow10 (logMin + logDelta), yMax := pow10 (logMax + logDelta) } }
  else
    let dataDelta := (w.pixelToData delta).sub (w.pixelToData ⟨0, 0⟩)
    { w with m_plotSettings := { s with yMin := s.yMin - dataDelta.y, yMax := s.yMax - dataDelta.y } }

/-- `PlottingWidget::panView` (plottingwidget.cpp:2058): the X half, then the Y half
on the state the X half left. -/
def panView (w : PlottingWidget) (delta : QPointF) : PlottingWidget :=
  (w.panViewX delta).panViewY delta

end PlottingWidget

/-- The state of a `PlotWindow` that the engine reads or writes. -/
structure PlotWindow where
  m_plotSettings : PlotSettings
  m_plotArea : QRect
  m_curves : List CurveData
  m_isDragging : Bool
  m_isSelecting : Bool
  m_isPanning : Bool
  m_isDraggingLegend : Bool
  m_selectionStart : QPoint
  m_selectionRect : QRect
  m_lastMousePos : QPoint
  m_legendArea : QRect
  m_legendOffset : QPoint

namespace PlotWindow

/-- `PlotWindow::pixelToData` (plotwindow.cpp:628). -/
def pixelToData (w : PlotWindow) (pixelPoint : QPointF) : QPointF :=
  let s := w.m_plotSettings
  let a := w.m_plotArea
  let x : ℝ :=
    if s.xAxisType = AxisType.Logarithmic ∧ s.xMin > 0 ∧ s.xMax > 0 then
      let normalizedX := (pixelPoint.x - (a.left : ℝ)) / (a.width : ℝ)
      pow10 (log10 s.xMin + normalizedX * (log10 s.xMax - log10 s.xMin))
    else
      s.xMin + (pixelPoint.x - (a.left : ℝ)) / (a.width : ℝ) * (s.xMax - s.xMin)
  let y : ℝ :=
    if s.yAxisType = AxisType.Logarithmic ∧ s.yMin > 0 ∧ s.yMax > 0 then
      let normalizedY := ((a.bottom : ℝ) - pixelPoint.y) / (a.height : ℝ)
      pow10 (log10 s.yMin + normalizedY * (log10 s.yMax - log10 s.yMin))
    else
      s.yMin + ((a.bottom : ℝ) - pixelPoint.y) / (a.height : ℝ) * (s.yMax - s.yMin)
  ⟨x, y⟩

/-- `PlotWindow::zoomAtPoint` (plotwindow.cpp:779). -/
def zoomAtPoint (w : PlotWindow) (point : QPointF) (factor : ℝ) : PlotWindow :=
  let s := w.m_plotSettings
  let dataPoint := w.pixelToData point
  let xRange := s.xMax - s.xMin
  let yRange := s.yMax - s.yMin
  let newXRange := xRange / factor
  let newYRange := yRange / factor
  { w with m_plotSettings :=
      { s with xMin := dataPoint.x - newXRange * (dataPoint.x - s.xMin) / xRange,
               xMax := dataPoint.x + newXRange * (s.xMax - dataPoint.x) / xRange,
               yMin := dataPoint.y - newYRange * (dataPoint.y - s.yMin) / yRange,
               yMax := dataPoint.y + newYRange * (s.yMax - dataPoint.y) / yRange } }

/-- `PlotWindow::panView` (plotwindow.cpp:797). -/
def panView (w : PlotWindow) (delta : QPointF) : PlotWindow :=
  let s := w.m_plotSettings
  let dataDelta := (w.pixelToData delta).sub (w.pixelToData ⟨0, 0⟩)
  { w with m_plotSettings :=
      { s with xMin := s.xMin - dataDelta.x, xMax := s.xMax - dataDelta.x,
               yMin := s.yMin - dataDelta.y, yMax := s.yMax - dataDelta.y } }

end PlotWindow

/-- The state of a `DualPlotWindow` that the engine reads or writes. -/
structure DualPlotWindow where
  m_pressureSettings : PlotSettings
  m_productionSettings : PlotSettings
  m_pressurePlotArea : QRect
  m_productionPlotArea : QRect
  m_pressureCurves : List CurveData
  m_productionCurves : List CurveData
  m_syncZoom : Bool
  m_syncPan : Bool
  m_pressureDragging : Bool
  m_productionDragging : Bool
  m_pressureSelecting : Bool
  m_productionSelecting : Bool
  m_pressurePanning : Bool
  m_productionPanning : Bool
  m_lastPressureMousePos : QPoint
  m_lastProductionMousePos : QPoint
  m_pressureSelectionStart : QPoint
  m_productionSelectionStart : QPoint
  m_pressureSelectionRect : QRect
  m_productionSelectionRect : QRect

namespace DualPlotWindow

/-- `DualPlotWindow::pixelToPressureData` (plotwindow.cpp:2242). -/
def pixelToPressureData (w : DualPlotWindow) (pixelPoint : QPointF) : QPointF :=
  let s := w.m_pressureSettings
  let a := w.m_pressurePlotArea
  let x : ℝ :=
    if s.xAxisType = AxisType.Logarithmic ∧ s.xMin > 0 ∧ s.xMax > 0 then
      let normalizedX := (pixelPoint.x - (a.left : ℝ)) / (a.width : ℝ)
      pow10 (log10 s.xMin + normalizedX * (log10 s.xMax - log10 s.xMin))
    else
      s.xMin + (pixelPoint.x - (a.left : ℝ)) / (a.width : ℝ) * (s.xMax - s.xMin)
  let y : ℝ :=
    if s.yAxisType = AxisType.Logarithmic ∧ s.yMin > 0 ∧ s.yMax > 0 then
      let normalizedY := ((a.bottom : ℝ) - pixelPoint.y) / (a.height : ℝ)
      pow10 (log10 s.yMin + normalizedY * (log10 s.yMax - log10 s.yMin))
    else
      s.yMin + ((a.bottom : ℝ) - pixelPoint.y) / (a.height : ℝ) * (s.yMax - s.yMin)
  ⟨x, y⟩

/-- `DualPlotWindow::zoomPressureAtPoint` (plotwindow.cpp:2322). -/
def zoomPressureAtPoint (w : DualPlotWindow) (point : QPointF) (factor : ℝ) : DualPlotWindow :=
  let s := w.m_pressureSettings
  let dataPoint := w.pixelToPressureData point
  let xRange := s.xMax - s.xMin
  let yRange := s.yMax - s.yMin
  let newXRange := xRange / factor
  let newYRange := yRange / factor
  { w with m_pressureSettings :=
      { s with xMin := dataPoint.x - newXRange * (dataPoint.x - s.xMin) / xRange,
               xMax := dataPoint.x + newXRange * (s.xMax - dataPoint.x) / xRange,
               yMin := dataPoint.y - newYRange * (dataPoint.y - s.yMin) / yRange,
               yMax := dataPoint.y + newYRange * (s.yMax - dataPoint.y) / yRange } }

/-- `DualPlotWindow::panPressureView` (plotwindow.cpp:2358). -/
def panPressureView (w : DualPlotWindow) (delta : QPointF) : DualPlotWindow :=
  let s := w.m_pressureSettings
  let dataDelta := (w.pixelToPressureData delta).sub (w.pixelToPressureData ⟨0, 0⟩)
  { w with m_pressureSettings :=
      { s with xMin := s.xMin - dataDelta.x, xMax := s.xMax - dataDelta.x,
               yMin := s.yMin - dataDelta.y, yMax := s.yMax - dataDelta.y } }

end DualPlotWindow

/-- Qt `QString::contains(const QString &)`: `sub` occurs in `s` as a substring. -/
def qContains (s sub : String) : Bool := decide (sub.toList <:+: s.toList)

/-- Component-wise `QPoint` subtraction (`operator-`). -/
def QPoint.sub (p q : QPoint) : QPoint := ⟨p.x - q.x, p.y - q.y⟩

/-- `PlottingWidget::isValidDataPoint` (plottingwidget.cpp:2267):
`!qIsNaN(x) && !qIsNaN(y) && qIsFinite(x) && qIsFinite(y)`. -/
def PlottingWidget.isValidDataPoint (x y : Sample) : Bool :=
  match x, y with
  | Sample.finite _, Sample.finite _ => true
  | _, _ => false

/-- The loop state of `createStepProductionCurve`: the accumulated time and the sample
arrays of the curve built so far. -/
structure StepScan where
  currentTime : ℝ
  xData : List Sample
  yData : List Sample

/-- One iteration of the row loop of `createStepProductionCurve`
(plottingwidget.cpp:766-781): a row that fails `isValidDataPoint` is skipped; a valid
row appends the samples `(currentTime, production)` and `(nextTime, production)` and
advances `currentTime` to `nextTime = currentTime + duration`. -/
def stepRow (st : StepScan) (row : Sample × Sample) : StepScan :=
  match row with
  | (Sample.finite duration, Sample.finite production) =>
    let nextTime := st.currentTime + duration
    { currentTime := nextTime,
      xData := st.xData ++ [Sample.finite st.currentTime, Sample.finite nextTime],
      yData := st.yData ++ [Sample.finite production, Sample.finite production] }
  | _ => st

/-- `PlottingWidget::createStepProductionCurve` (plottingwidget.cpp:743); `timeData` and
`productionData` are the table columns `m_tableData.columns[timeIndex]` and
`m_tableData.columns[productionIndex]`, rows run to `qMin` of their sizes. -/
def PlottingWidget.createStepProductionCurve (timeData productionData : List Sample)
    (timeAxisType productionAxisType : AxisType) (lineWidth pointSize : ℤ) : CurveData :=
  let st := (List.zip timeData productionData).foldl stepRow ⟨0.0, [], []⟩
  { xData := st.xData, yData := st.yData, visible := true,
    lineWidth := lineWidth, pointSize := pointSize,
    xAxisType := timeAxisType, yAxisType := productionAxisType,
    drawType := CurveType.Step }

namespace PlotWindow

/-- `PlotWindow::calculateOptimalRange` (plotwindow.cpp:708). -/
def calculateOptimalRange (min max : ℝ) (isLog : Bool) : ℝ × ℝ :=
  if max ≤ min then (min, max)
  else if isLog then
    let min : ℝ := if min ≤ 0 then 1e-10 else min
    let max : ℝ := if max ≤ 0 then 1 else max
    let logMin := log10 min
    let logMax := log10 max
    let rangeMin := pow10 (⌊logMin⌋ : ℝ)
    let rangeMax := pow10 (⌈logMax⌉ : ℝ)
    if rangeMax / rangeMin < 10 then (rangeMin / 10, rangeMax * 10)
    else (rangeMin, rangeMax)
  else
    let range := max - min
    if range = 0 then (min - 1, max + 1)
    else
      let orderOfMagnitude := pow10 (⌊log10 range⌋ : ℝ)
      let normalizedRange := range / orderOfMagnitude
      let tickInterval : ℝ :=
        if normalizedRange ≤ 1.5 then orderOfMagnitude * 0.2
        else if normalizedRange ≤ 3 then orderOfMagnitude * 0.5
        else if normalizedRange ≤ 7 then orderOfMagnitude
        else orderOfMagnitude * 2
      let rangeMin0 : ℝ := (⌊min / tickInterval⌋ : ℝ) * tickInterval
      let rangeMax0 : ℝ := (⌈max / tickInterval⌉ : ℝ) * tickInterval
      let margin := (rangeMax0 - rangeMin0) * 0.05
      let rangeMin1 := rangeMin0 - margin
      let rangeMax1 := rangeMax0 + margin
      if rangeMin1 < 0 ∧ rangeMax1 > 0 then
        ((⌊rangeMin1 / tickInterval⌋ : ℝ) * tickInterval,
          (⌈rangeMax1 / tickInterval⌉ : ℝ) * tickInterval)
      else (rangeMin1, rangeMax1)

/-- `PlotWindow::calculateDataBounds` (plotwindow.cpp:654); its sample loop is the one
of `PlottingWidget::calculateDataBounds`. -/
def calculateDataBounds (w : PlotWindow) : PlotWindow :=
  if w.m_curves.isEmpty then w
  else
    let s := w.m_plotSettings
    let b := scanCurves s.xAxisType s.yAxisType w.m_curves
    if b.hasValidData = true ∧ b.minX < b.maxX ∧ b.minY < b.maxY then
      let xRange := calculateOptimalRange b.minX b.maxX (decide (s.xAxisType = AxisType.Logarithmic))
      let isProductionData : Bool := qContains s.yAxisTitle "产量" || qContains s.yAxisTitle "mÂ³"
      let yRange :=
        if isProductionData = true ∧ s.yAxisType = AxisType.Linear then
          calculateOptimalRange 0 b.maxY false
        else calculateOptimalRange b.minY b.maxY (decide (s.yAxisType = AxisType.Logarithmic))
      { w with m_plotSettings :=
          { s with xMin := xRange.1, xMax := xRange.2, yMin := yRange.1, yMax := yRange.2 } }
    else w

end PlotWindow

/-- The running X extrema of `DualPlotWindow::synchronizeXAxis`. -/
structure XScan where
  minX : ℝ
  maxX : ℝ
  hasValidData : Bool

/-- One iteration of a sample loop of `synchronizeXAxis` (plotwindow.cpp:2391-2398):
only a finite, positive `x` is taken. -/
def scanX (b : XScan) (x : Sample) : XScan :=
  match x with
  | Sample.finite v => if v > 0 then ⟨min b.minX v, max b.maxX v, true⟩ else b
  | Sample.nonFinite => b

/-- A curve loop of `synchronizeXAxis` (plotwindow.cpp:2390-2399, 2402-2411). -/
def scanXCurves (b : XScan) (curves : List CurveData) : XScan :=
  curves.foldl (fun acc curve => curve.xData.foldl scanX acc) b

namespace DualPlotWindow

/-- `DualPlotWindow::pixelToProductionData` (plotwindow.cpp:2298). -/
def pixelToProductionData (w : DualPlotWindow) (pixelPoint : QPointF) : QPointF :=
  let s := w.m_productionSettings
  let a := w.m_productionPlotArea
  let x : ℝ :=
    if s.xAxisType = AxisType.Logarithmic ∧ s.xMin > 0 ∧ s.xMax > 0 then
      let normalizedX := (pixelPoint.x - (a.left : ℝ)) / (a.width : ℝ)
      pow10 (log10 s.xMin + normalizedX * (log10 s.xMax - log10 s.xMin))
    else
      s.xMin + (pixelPoint.x - (a.left : ℝ)) / (a.width : ℝ) * (s.xMax - s.xMin)
  let y : ℝ :=
    if s.yAxisType = AxisType.Logarithmic ∧ s.yMin > 0 ∧ s.yMax > 0 then
      let normalizedY := ((a.bottom : ℝ) - pixelPoint.y) / (a.height : ℝ)
      pow10 (log10 s.yMin + normalizedY * (log10 s.yMax - log10 s.yMin))
    else
      s.yMin + ((a.bottom : ℝ) - pixelPoint.y) / (a.height : ℝ) * (s.yMax - s.yMin)
  ⟨x, y⟩

/-- `DualPlotWindow::zoomProductionAtPoint` (plotwindow.cpp:2340). -/
def zoomProductionAtPoint (w : DualPlotWindow) (point : QPointF) (factor : ℝ) :
    DualPlotWindow :=
  let s := w.m_productionSettings
  let dataPoint := w.pixelToProductionData point
  let xRange := s.xMax - s.xMin
  let yRange := s.yMax - s.yMin
  let newXRange := xRange / factor
  let newYRange := yRange / factor
  { w with m_productionSettings :=
      { s with xMin := dataPoint.x - newXRange * (dataPoint.x - s.xMin) / xRange,
               xMax := dataPoint.x + newXRange * (s.xMax - dataPoint.x) / xRange,
               yMin := dataPoint.y - newYRange * (dataPoint.y - s.yMin) / yRange,
               yMax := dataPoint.y + newYRange * (s.yMax - dataPoint.y) / yRange } }

/-- `DualPlotWindow::panProductionView` (plotwindow.cpp:2370). -/
def panProductionView (w : DualPlotWindow) (delta : QPointF) : DualPlotWindow :=
  let s := w.m_productionSettings
  let dataDelta := (w.pixelToProductionData delta).sub (w.pixelToProductionData ⟨0, 0⟩)
  { w with m_productionSettings :=
      { s with xMin := s.xMin - dataDelta.x, xMax := s.xMax - dataDelta.x,
               yMin := s.yMin - dataDelta.y, yMax := s.yMax - dataDelta.y } }

/-- `DualPlotWindow::onPressureMousePress` (plotwindow.cpp:2044); `pos` is
`event->pos()`, `leftButton` is `event->button() == Qt::LeftButton`, `ctrl` is the
Control modifier. -/
def onPressureMousePress (w : DualPlotWindow) (pos : QPoint) (leftButton ctrl : Bool) :
    DualPlotWindow :=
  let w1 := { w with m_lastPressureMousePos := pos }
  if !w1.m_pressurePlotArea.contains pos then w1
  else if leftButton then
    if ctrl then
      { w1 with m_pressureSelecting := true, m_pressureSelectionStart := pos,
                m_pressureSelectionRect := QRect.ofCorners pos pos }
    else { w1 with m_pressureDragging := true, m_pressurePanning := true }
  else w1

/-- `DualPlotWindow::onPressureMouseMove` (plotwindow.cpp:2065); `normalized` is the Qt
library function `QRect::normalized()`. -/
def onPressureMouseMove (normalized : QRect → QRect) (w : DualPlotWindow) (pos : QPoint) :
    DualPlotWindow :=
  if w.m_pressureSelecting then
    { w with m_pressureSelectionRect :=
        normalized (QRect.ofCorners w.m_pressureSelectionStart pos) }
  else if w.m_pressureDragging && w.m_pressurePanning then
    let delta : QPointF := (pos.sub w.m_lastPressureMousePos).toPointF
    let w1 := w.panPressureView delta
    let w2 := if w1.m_syncPan then w1.panProductionView delta else w1
    { w2 with m_lastPressureMousePos := pos }
  else w

/-- `DualPlotWindow::onPressureMouseRelease` (plotwindow.cpp:2084). -/
def onPressureMouseRelease (w : DualPlotWindow) : DualPlotWindow :=
  let w1 :=
    if w.m_pressureSelecting && !w.m_pressureSelectionRect.isEmpty then
      let topLeft := w.pixelToPressureData w.m_pressureSelectionRect.topLeft.toPointF
      let bottomRight := w.pixelToPressureData w.m_pressureSelectionRect.bottomRight.toPointF
      let ps : PlotSettings :=
        { w.m_pressureSettings with
          xMin := min topLeft.x bottomRight.x, xMax := max topLeft.x bottomRight.x,
          yMin := min topLeft.y bottomRight.y, yMax := max topLeft.y bottomRight.y }
      if w.m_syncZoom then
        { w with m_pressureSettings := ps,
                 m_productionSettings :=
                   { w.m_productionSettings with xMin := ps.xMin, xMax := ps.xMax } }
      else { w with m_pressureSettings := ps }
    else w
  { w1 with m_pressureDragging := false, m_pressureSelecting := false,
            m_pressurePanning := false }

/-- `DualPlotWindow::onPressureWheel` (plotwindow.cpp:2109); `pos` is
`event->position().toPoint()`, `angleDeltaY` is `event->angleDelta().y()`. -/
def onPressureWheel (w : DualPlotWindow) (pos : QPoint) (angleDeltaY : ℤ) : DualPlotWindow :=
  if w.m_pressurePlotArea.contains pos then
    let w1 := w.zoomPressureAtPoint pos.toPointF (1.0 + (angleDeltaY : ℝ) / 1200.0)
    if w1.m_syncZoom then
      { w1 with m_productionSettings :=
          { w1.m_productionSettings with
            xMin := w1.m_pressureSettings.xMin, xMax := w1.m_pressureSettings.xMax } }
    else w1
  else w

/-- `DualPlotWindow::onProductionMousePress` (plotwindow.cpp:2126). -/
def onProductionMousePress (w : DualPlotWindow) (pos : QPoint) (leftButton ctrl : Bool) :
    DualPlotWindow :=
  let w1 := { w with m_lastProductionMousePos := pos }
  if !w1.m_productionPlotArea.contains pos then w1
  else if leftButton then
    if ctrl then
      { w1 with m_productionSelecting := true, m_productionSelectionStart := pos,
                m_productionSelectionRect := QRect.ofCorners pos pos }
    else { w1 with m_productionDragging := true, m_productionPanning := true }
  else w1

/-- `DualPlotWindow::onProductionMouseMove` (plotwindow.cpp:2147); `normalized` is the
Qt library function `QRect::normalized()`. -/
def onProductionMouseMove (normalized : QRect → QRect) (w : DualPlotWindow) (pos : QPoint) :
    DualPlotWindow :=
  if w.m_productionSelecting then
    { w with m_productionSelectionRect :=
        normalized (QRect.ofCorners w.m_productionSelectionStart pos) }
  else if w.m_productionDragging && w.m_productionPanning then
    let delta : QPointF := (pos.sub w.m_lastProductionMousePos).toPointF
    let w1 := w.panProductionView delta
    let w2 := if w1.m_syncPan then w1.panPressureView delta else w1
    { w2 with m_lastProductionMousePos := pos }
  else w

/-- `DualPlotWindow::onProductionMouseRelease` (plotwindow.cpp:2166). -/
def onProductionMouseRelease (w : DualPlotWindow) : DualPlotWindow :=
  let w1 :=
    if w.m_productionSelecting && !w.m_productionSelectionRect.isEmpty then
      let topLeft := w.pixelToProductionData w.m_productionSelectionRect.topLeft.toPointF
      let bottomRight :=
        w.pixelToProductionData w.m_productionSelectionRect.bottomRight.toPointF
      let ps : PlotSettings :=
        { w.m_productionSettings with
          xMin := min topLeft.x bottomRight.x, xMax := max topLeft.x bottomRight.x,
          yMin := min topLeft.y bottomRight.y, yMax := max topLeft.y bottomRight.y }
      if w.m_syncZoom then
        { w with m_productionSettings := ps,
                 m_pressureSettings :=
                   { w.m_pressureSettings with xMin := ps.xMin, xMax := ps.xMax } }
      else { w with m_productionSettings := ps }
    else w
  { w1 with m_productionDragging := false, m_productionSelecting := false,
            m_productionPanning := false }

/-- `DualPlotWindow::onProductionWheel` (plotwindow.cpp:2191). -/
def onProductionWheel (w : DualPlotWindow) (pos : QPoint) (angleDeltaY : ℤ) :
    DualPlotWindow :=
  if w.m_productionPlotArea.contains pos then
    let w1 := w.zoomProductionAtPoint pos.toPointF (1.0 + (angleDeltaY : ℝ) / 1200.0)
    if w1.m_syncZoom then
      { w1 with m_pressureSettings :=
          { w1.m_pressureSettings with
            xMin := w1.m_productionSettings.xMin, xMax := w1.m_productionSettings.xMax } }
    else w1
  else w

/-- The X range `synchronizeXAxis` computes from the scanned extrema
(plotwindow.cpp:2415-2439). -/
def sharedXRange (xAxisType : AxisType) (minX maxX : ℝ) : ℝ × ℝ :=
  if xAxisType = AxisType.Logarithmic then
    let logMin := log10 minX
    let logMax := log10 maxX
    let xMin := pow10 (⌊logMin⌋ : ℝ)
    let xMax := pow10 (⌈logMax⌉ : ℝ)
    if xMax / xMin < 10 then (xMin / 10, xMax * 10) else (xMin, xMax)
  else
    let range := maxX - minX
    let orderOfMagnitude := pow10 (⌊log10 range⌋ : ℝ)
    let minTick : ℝ := (⌊minX / orderOfMagnitude⌋ : ℝ) * orderOfMagnitude
    let maxTick : ℝ := (⌈maxX / orderOfMagnitude⌉ : ℝ) * orderOfMagnitude
    let margin := (maxTick - minTick) * 0.05
    (minTick - margin, maxTick + margin)

/-- `DualPlotWindow::synchronizeXAxis` (plotwindow.cpp:2383). -/
def synchronizeXAxis (w : DualPlotWindow) : DualPlotWindow :=
  let b := scanXCurves (scanXCurves ⟨1e10, -1e10, false⟩ w.m_pressureCurves)
    w.m_productionCurves
  if b.hasValidData = true ∧ b.minX < b.maxX then
    let xr := sharedXRange w.m_pressureSettings.xAxisType b.minX b.maxX
    { w with
      m_pressureSettings := { w.m_pressureSettings with xMin := xr.1, xMax := xr.2 },
      m_productionSettings := { w.m_productionSettings with xMin := xr.1, xMax := xr.2 } }
  else w

/-- The state the constructor `DualPlotWindow::DualPlotWindow` (plotwindow.cpp:1145)
leaves, with the settings of `initializePlotSettings` (plotwindow.cpp:1346): no curves,
null rectangles, `m_syncZoom(true)`, `m_syncPan(false)`. -/
def constructed : DualPlotWindow :=
  { m_pressureSettings :=
      { xMin := 0.1, xMax := 1000, yMin := 1, yMax := 100,
        xAxisType := AxisType.Linear, yAxisType := AxisType.Linear,
        showGrid := true, showLegend := true, yAxisTitle := "压力 (MPa)" },
    m_productionSettings :=
      { xMin := 0.1, xMax := 1000, yMin := 0, yMax := 100,
        xAxisType := AxisType.Linear, yAxisType := AxisType.Linear,
        showGrid := true, showLegend := true, yAxisTitle := "产量 (m³/d)" },
    m_pressurePlotArea := ⟨0, 0, -1, -1⟩,
    m_productionPlotArea := ⟨0, 0, -1, -1⟩,
    m_pressureCurves := [], m_productionCurves := [],
    m_syncZoom := true, m_syncPan := false,
    m_pressureDragging := false, m_productionDragging := false,
    m_pressureSelecting := false, m_productionSelecting := false,
    m_pressurePanning := false, m_productionPanning := false,
    m_lastPressureMousePos := ⟨0, 0⟩, m_lastProductionMousePos := ⟨0, 0⟩,
    m_pressureSelectionStart := ⟨0, 0⟩, m_productionSelectionStart := ⟨0, 0⟩,
    m_pressureSelectionRect := ⟨0, 0, -1, -1⟩, m_productionSelectionRect := ⟨0, 0, -1, -1⟩ }

end DualPlotWindow

/-- The running Y extrema of `calculatePressureBounds` and `calculateProductionBounds`. -/
structure YScan where
  minY : ℝ
  maxY : ℝ
  hasValidData : Bool

/-- One iteration of the sample loop of `calculatePressureBounds` /
`calculateProductionBounds` (plotwindow.cpp:2454-2461, 2507-2514): only a finite,
positive `y` is taken. -/
def scanY (b : YScan) (y : Sample) : YScan :=
  match y with
  | Sample.finite v => if v > 0 then ⟨min b.minY v, max b.maxY v, true⟩ else b
  | Sample.nonFinite => b

/-- The curve loop of `calculatePressureBounds` / `calculateProductionBounds`, from
`1e10 / -1e10`. -/
def scanYCurves (curves : List CurveData) : YScan :=
  curves.foldl (fun acc curve => curve.yData.foldl scanY acc) ⟨1e10, -1e10, false⟩

/-- `DualPlotWindow::calculatePressureBounds` (plotwindow.cpp:2446). -/
def DualPlotWindow.calculatePressureBounds (w : DualPlotWindow) : DualPlotWindow :=
  if w.m_pressureCurves.isEmpty then w
  else
    let b := scanYCurves w.m_pressureCurves
    if b.hasValidData = true ∧ b.minY < b.maxY then
      let s := w.m_pressureSettings
      let yRange : ℝ × ℝ :=
        if s.yAxisType = AxisType.Logarithmic then
          let yMin := pow10 (⌊log10 b.minY⌋ : ℝ)
          let yMax := pow10 (⌈log10 b.maxY⌉ : ℝ)
          if yMax / yMin < 10 then (yMin / 10, yMax * 10) else (yMin, yMax)
        else
          let range := b.maxY - b.minY
          let orderOfMagnitude := pow10 (⌊log10 range⌋ : ℝ)
          let minTick : ℝ := (⌊b.minY / orderOfMagnitude⌋ : ℝ) * orderOfMagnitude
          let maxTick : ℝ := (⌈b.maxY / orderOfMagnitude⌉ : ℝ) * orderOfMagnitude
          let margin := (maxTick - minTick) * 0.05
          let yMin := minTick - margin
          let yMax := maxTick + margin
          if yMin < 0 ∧ yMax > 0 then
            ((⌊yMin / orderOfMagnitude⌋ : ℝ) * orderOfMagnitude,
              (⌈yMax / orderOfMagnitude⌉ : ℝ) * orderOfMagnitude)
          else (yMin, yMax)
      { w with m_pressureSettings := { s with yMin := yRange.1, yMax := yRange.2 } }
    else w

/-- `DualPlotWindow::calculateProductionBounds` (plotwindow.cpp:2499). -/
def DualPlotWindow.calculateProductionBounds (w : DualPlotWindow) : DualPlotWindow :=
  if w.m_productionCurves.isEmpty then w
  else
    let b := scanYCurves w.m_productionCurves
    if b.hasValidData = true ∧ b.minY < b.maxY then
      let s := w.m_productionSettings
      let yRange : ℝ × ℝ :=
        if s.yAxisType = AxisType.Logarithmic then
          let yMin := pow10 (⌊log10 b.minY⌋ : ℝ)
          let yMax := pow10 (⌈log10 b.maxY⌉ : ℝ)
          if yMax / yMin < 10 then (yMin / 10, yMax * 10) else (yMin, yMax)
        else
          let range := b.maxY - 0
          let orderOfMagnitude := pow10 (⌊log10 range⌋ : ℝ)
          let maxTick : ℝ := (⌈b.maxY / orderOfMagnitude⌉ : ℝ) * orderOfMagnitude
          let margin := maxTick * 0.05
          (0, maxTick + margin)
      { w with m_productionSettings := { s with yMin := yRange.1, yMax := yRange.2 } }
    else w

/-- `DualPlotWindow::addPressureCurve` (plotwindow.cpp:1417); the flags `logScaleX`,
`logScaleY` it also sets are not part of the embedded `PlotSettings`, and
`updatePlots()` only schedules repaints. -/
def DualPlotWindow.addPressureCurve (w : DualPlotWindow) (curve : CurveData) :
    DualPlotWindow :=
  let modifiedCurve : CurveData :=
    match w.m_pressureCurves.head? with
    | some first => { curve with xAxisType := first.xAxisType, yAxisType := first.yAxisType }
    | none => curve
  let w1 : DualPlotWindow :=
    { w with
      m_pressureCurves := w.m_pressureCurves ++ [modifiedCurve],
      m_pressureSettings :=
        { w.m_pressureSettings with
          xAxisType := modifiedCurve.xAxisType, yAxisType := modifiedCurve.yAxisType } }
  w1.calculatePressureBounds.synchronizeXAxis

/-- `DualPlotWindow::addProductionCurve` (plotwindow.cpp:1440). -/
def DualPlotWindow.addProductionCurve (w : DualPlotWindow) (curve : CurveData) :
    DualPlotWindow :=
  let modifiedCurve : CurveData :=
    match w.m_productionCurves.head? with
    | some first => { curve with xAxisType := first.xAxisType, yAxisType := first.yAxisType }
    | none => curve
  let w1 : DualPlotWindow :=
    { w with
      m_productionCurves := w.m_productionCurves ++ [modifiedCurve],
      m_productionSettings :=
        { w.m_productionSettings with
          xAxisType := modifiedCurve.xAxisType, yAxisType := modifiedCurve.yAxisType } }
  w1.calculateProductionBounds.synchronizeXAxis

/-- `QPoint::operator+=`. -/
def QPoint.add (p q : QPoint) : QPoint := ⟨p.x + q.x, p.y + q.y⟩

/-- `PlottingWidget::mouseMoveEvent` (plottingwidget.cpp:1815); `plotPos` is the event
position mapped to the plot widget, `normalized` is the Qt library function
`QRect::normalized()`.  The signal `dataPointClicked` it emits is not part of the
state. -/
def PlottingWidget.mouseMoveEvent (normalized : QRect → QRect) (w : PlottingWidget)
    (plotPos : QPoint) : PlottingWidget :=
  if w.m_isDraggingLegend then
    let delta : QPoint := plotPos.sub w.m_legendDragStart
    { w with m_legendOffset := w.m_legendOffset.add delta, m_legendDragStart := plotPos }
  else
    let w1 := { w with m_lastMousePos := plotPos }
    if w1.m_isSelecting then
      { w1 with m_selectionRect := normalized (QRect.ofCorners w1.m_selectionStart plotPos) }
    else if w1.m_isDragging && w1.m_isPanning then
      let delta : QPointF := (plotPos.sub w1.m_lastMousePos).toPointF
      let w2 := w1.panView delta
      { w2 with m_lastMousePos := plotPos }
    else w1

/-- `PlotWindow::mouseMoveEvent` (plotwindow.cpp:1017); `plotPos` is the event position
mapped to the plot widget, `normalized` is the Qt library function
`QRect::normalized()`. -/
def PlotWindow.mouseMoveEvent (normalized : QRect → QRect) (w : PlotWindow)
    (plotPos : QPoint) : PlotWindow :=
  if w.m_isDraggingLegend then
    let delta : QPoint := plotPos.sub w.m_lastMousePos
    { w with m_legendOffset := w.m_legendOffset.add delta, m_lastMousePos := plotPos }
  else
    let w1 := { w with m_lastMousePos := plotPos }
    if w1.m_isSelecting then
      { w1 with m_selectionRect := normalized (QRect.ofCorners w1.m_selectionStart plotPos) }
    else if w1.m_isDragging && w1.m_isPanning then
      let delta : QPointF := (plotPos.sub w1.m_lastMousePos).toPointF
      let w2 := w1.panView delta
      { w2 with m_lastMousePos := plotPos }
    else w1

/-- The counting loop of `drawLegend` (plottingwidget.cpp:1197-1202,
plotwindow.cpp:502-507): the number of visible curves. -/
def visibleCurveCount (curves : List CurveData) : ℤ :=
  curves.foldl (fun (count : ℤ) curve => if curve.visible then count + 1 else count) 0

/-- The width loop of `drawLegend` (plottingwidget.cpp:1213-1218, plotwindow.cpp:518-523):
the largest `fm.horizontalAdvance(curve.name) + pad` over the visible curves, from `0`;
`textAdvance curve` is `fm.horizontalAdvance(curve.name)`. -/
def legendTextWidth (pad : ℤ) (textAdvance : CurveData → ℤ) (curves : List CurveData) : ℤ :=
  curves.foldl
    (fun (legendWidth : ℤ) curve =>
      if curve.visible then max legendWidth (textAdvance curve + pad) else legendWidth) 0

/-- The legend placement of `PlottingWidget::drawLegend` (plottingwidget.cpp:1193-1227):
the state after `m_legendArea` is assigned; the painting that follows does not change
the state.  `fmHeight` is `fm.height()` and `textAdvance curve` is
`fm.horizontalAdvance(curve.name)` of the Qt font metrics. -/
def PlottingWidget.drawLegend (fmHeight : ℤ) (textAdvance : CurveData → ℤ)
    (w : PlottingWidget) : PlottingWidget :=
  if w.m_curves.isEmpty then w
  else if visibleCurveCount w.m_curves = 0 then w
  else
    let lineHeight := fmHeight + 4
    let legendHeight := visibleCurveCount w.m_curves * lineHeight + 20
    let legendWidth := legendTextWidth 50 textAdvance w.m_curves + 20
    let legendX0 := w.m_plotArea.right - legendWidth - 10 + w.m_legendOffset.x
    let legendY0 := w.m_plotArea.top + 10 + w.m_legendOffset.y
    let legendX := max (w.m_plotArea.left + 10) (min legendX0 (w.m_plotArea.right - legendWidth - 10))
    let legendY := max (w.m_plotArea.top + 10) (min legendY0 (w.m_plotArea.bottom - legendHeight - 10))
    { w with m_legendArea := QRect.ofSize legendX legendY legendWidth legendHeight }

/-- The legend placement of `PlotWindow::drawLegend` (plotwindow.cpp:498-529): the state
after `m_legendArea` is assigned. -/
def PlotWindow.drawLegend (fmHeight : ℤ) (textAdvance : CurveData → ℤ) (w : PlotWindow) :
    PlotWindow :=
  if w.m_curves.isEmpty then w
  else if visibleCurveCount w.m_curves = 0 then w
  else
    let lineHeight := fmHeight + 4
    let legendHeight := visibleCurveCount w.m_curves * lineHeight + 16
    let legendWidth := legendTextWidth 40 textAdvance w.m_curves + 20
    let legendX := w.m_plotArea.right - legendWidth - 10 + w.m_legendOffset.x
    let legendY := w.m_plotArea.top + 10 + w.m_legendOffset.y
    { w with m_legendArea := QRect.ofSize legendX legendY legendWidth legendHeight }

/-- `PlotWindow::dataToPixel` (plotwindow.cpp:601). -/
def PlotWindow.dataToPixel (w : PlotWindow) (dataPoint : QPointF) : QPointF :=
  let s := w.m_plotSettings
  let a := w.m_plotArea
  let x : ℝ :=
    if s.xAxisType = AxisType.Logarithmic ∧ dataPoint.x > 0 ∧ s.xMin > 0 then
      let normalizedX := (log10 dataPoint.x - log10 s.xMin) / (log10 s.xMax - log10 s.xMin)
      (a.left : ℝ) + normalizedX * (a.width : ℝ)
    else
      (a.left : ℝ) + (dataPoint.x - s.xMin) / (s.xMax - s.xMin) * (a.width : ℝ)
  let y : ℝ :=
    if s.yAxisType = AxisType.Logarithmic ∧ dataPoint.y > 0 ∧ s.yMin > 0 then
      let normalizedY := (log10 dataPoint.y - log10 s.yMin) / (log10 s.yMax - log10 s.yMin)
      (a.bottom : ℝ) - normalizedY * (a.height : ℝ)
    else
      (a.bottom : ℝ) - (dataPoint.y - s.yMin) / (s.yMax - s.yMin) * (a.height : ℝ)
  ⟨x, y⟩

/-- What a curve painter hands to the `QPainter`: `lines` are the `drawLine` calls of
the polyline of a Normal curve or of the horizontal segments of a Step curve,
`connectors` the `drawLine` calls of the vertical connectors of a Step curve, `ellipses`
the centres of the `drawEllipse` calls (the markers), each in the order of the calls. -/
structure Painted where
  lines : List (QPointF × QPointF)
  connectors : List (QPointF × QPointF)
  ellipses : List QPointF

/-- The 50 pixel margin test of `drawCurve` (plottingwidget.cpp:1107-1108,
plotwindow.cpp:427-428). -/
def nearPlotArea (a : QRect) (pixelPoint : QPointF) : Bool :=
  decide (pixelPoint.x ≥ (a.left : ℝ) - 50 ∧ pixelPoint.x ≤ (a.right : ℝ) + 50 ∧
    pixelPoint.y ≥ (a.top : ℝ) - 50 ∧ pixelPoint.y ≤ (a.bottom : ℝ) + 50)

/-- One iteration of the point loop of `PlottingWidget::drawCurve`
(plottingwidget.cpp:1096-1111): the pixel point appended to `points`, if any. -/
def PlottingWidget.curvePoint (w : PlottingWidget) (p : Sample × Sample) : Option QPointF :=
  match p with
  | (Sample.finite x, Sample.finite y) =>
    if w.m_plotSettings.xAxisType = AxisType.Logarithmic ∧ x ≤ 0 then none
    else if w.m_plotSettings.yAxisType = AxisType.Logarithmic ∧ y ≤ 0 then none
    else
      let pixelPoint := w.dataToPixel ⟨x, y⟩
      if nearPlotArea w.m_plotArea pixelPoint then some pixelPoint else none
  | _ => none

/-- The horizontal segment and the vertical connector one iteration of the first loop of
`PlottingWidget::drawStepCurve` draws (plottingwidget.cpp:1144-1175): `p0`, `p1` are the
samples `i`, `i + 1`, and `rest` the samples from `i + 2` on, so that
`i + 2 < dataSize && i + 3 < dataSize` says that `rest` has two elements at least. -/
def PlottingWidget.stepPair (w : PlottingWidget) (p0 p1 : Sample × Sample)
    (rest : List (Sample × Sample)) : List (QPointF × QPointF) × List (QPointF × QPointF) :=
  match p0, p1 with
  | (Sample.finite x0, Sample.finite y0), (Sample.finite x1, Sample.finite y1) =>
    if w.m_plotSettings.xAxisType = AxisType.Logarithmic ∧ (x0 ≤ 0 ∨ x1 ≤ 0) then ([], [])
    else if w.m_plotSettings.yAxisType = AxisType.Logarithmic ∧ (y0 ≤ 0 ∨ y1 ≤ 0) then ([], [])
    else
      let segmentStart := w.dataToPixel ⟨x0, y0⟩
      let segmentEnd := w.dataToPixel ⟨x1, y1⟩
      let connector : List (QPointF × QPointF) :=
        match rest with
        | (Sample.finite x2, Sample.finite y2) :: _ :: _ =>
          if w.m_plotSettings.xAxisType = AxisType.Logarithmic ∧ x2 ≤ 0 then []
          else if w.m_plotSettings.yAxisType = AxisType.Logarithmic ∧ y2 ≤ 0 then []
          else
            let nextSegmentStart := w.dataToPixel ⟨x2, y2⟩
            [(segmentEnd, ⟨segmentEnd.x, nextSegmentStart.y⟩)]
        | _ => []
      ([(segmentStart, segmentEnd)], connector)
  | _, _ => ([], [])

/-- The first loop of `PlottingWidget::drawStepCurve`,
`for (int i = 0; i < dataSize - 1; i += 2)`, on the samples from `i` on. -/
def PlottingWidget.stepSegments (w : PlottingWidget) :
    List (Sample × Sample) → List (QPointF × QPointF) × List (QPointF × QPointF)
  | p0 :: p1 :: rest =>
    ((w.stepPair p0 p1 rest).1 ++ (PlottingWidget.stepSegments w rest).1,
      (w.stepPair p0 p1 rest).2 ++ (PlottingWidget.stepSegments w rest).2)
  | _ => ([], [])

/-- The marker one iteration of the second loop of `PlottingWidget::drawStepCurve`
draws (plottingwidget.cpp:1181-1190); `toPoint` is the Qt library function
`QPointF::toPoint()`. -/
def PlottingWidget.stepMarker (toPoint : QPointF → QPoint) (w : PlottingWidget)
    (p : Sample × Sample) : List QPointF :=
  match p with
  | (Sample.finite x, Sample.finite y) =>
    if w.m_plotSettings.xAxisType = AxisType.Logarithmic ∧ x ≤ 0 then []
    else if w.m_plotSettings.yAxisType = AxisType.Logarithmic ∧ y ≤ 0 then []
    else
      let pixelPoint := w.dataToPixel ⟨x, y⟩
      if w.m_plotArea.contains (toPoint pixelPoint) then [pixelPoint] else []
  | _ => []

/-- The second loop of `PlottingWidget::drawStepCurve`,
`for (int i = 0; i < dataSize; i += 2)`, on the samples from `i` on. -/
def PlottingWidget.stepMarkers (toPoint : QPointF → QPoint) (w : PlottingWidget) :
    List (Sample × Sample) → List QPointF
  | [] => []
  | [p] => w.stepMarker toPoint p
  | p :: _ :: rest => w.stepMarker toPoint p ++ PlottingWidget.stepMarkers toPoint w rest

/-- `PlottingWidget::drawStepCurve` (plottingwidget.cpp:1129); the samples are the
index pairs below `dataSize = qMin(xData.size(), yData.size())`. -/
def PlottingWidget.drawStepCurve (toPoint : QPointF → QPoint) (w : PlottingWidget)
    (curve : CurveData) : Painted :=
  if curve.xData.isEmpty || curve.yData.isEmpty then ⟨[], [], []⟩
  else
    let samples := List.zip curve.xData curve.yData
    { lines := (w.stepSegments samples).1,
      connectors := (w.stepSegments samples).2,
      ellipses := w.stepMarkers toPoint samples }

/-- `PlottingWidget::drawCurve` (plottingwidget.cpp:1078): `points` collects the pixel
points of the accepted samples, the polyline joins `points[i]` and `points[i + 1]`, and a
marker is drawn at every point inside the plot area. -/
def PlottingWidget.drawCurve (toPoint : QPointF → QPoint) (w : PlottingWidget)
    (curve : CurveData) : Painted :=
  if curve.drawType = CurveType.Step then w.drawStepCurve toPoint curve
  else if curve.xData.isEmpty || curve.yData.isEmpty then ⟨[], [], []⟩
  else
    let points := (List.zip curve.xData curve.yData).filterMap w.curvePoint
    { lines := if points.length > 1 then List.zip points points.tail else [],
      connectors := [],
      ellipses := points.filter (fun point => w.m_plotArea.contains (toPoint point)) }

/-- One iteration of the point loop of `PlotWindow::drawCurve` (plotwindow.cpp:419-431):
the pixel point appended to `points`, if any. -/
def PlotWindow.curvePoint (w : PlotWindow) (p : Sample × Sample) : Option QPointF :=
  match p with
  | (Sample.finite x, Sample.finite y) =>
    let pixelPoint := w.dataToPixel ⟨x, y⟩
    if nearPlotArea w.m_plotArea pixelPoint then some pixelPoint else none
  | _ => none

/-- The horizontal segment and the vertical connector one iteration of the first loop of
`PlotWindow::drawStepCurve` draws (plotwindow.cpp:462-483): `p0`, `p1` are the samples
`i`, `i + 1`, and `rest` the samples from `i + 2` on. -/
def PlotWindow.stepPair (w : PlotWindow) (p0 p1 : Sample × Sample)
    (rest : List (Sample × Sample)) : List (QPointF × QPointF) × List (QPointF × QPointF) :=
  match p0, p1 with
  | (Sample.finite x0, Sample.finite y0), (Sample.finite x1, Sample.finite y1) =>
    let segmentStart := w.dataToPixel ⟨x0, y0⟩
    let segmentEnd := w.dataToPixel ⟨x1, y1⟩
    let connector : List (QPointF × QPointF) :=
      match rest with
      | (Sample.finite x2, Sample.finite y2) :: _ :: _ =>
        let nextSegmentStart := w.dataToPixel ⟨x2, y2⟩
        [(segmentEnd, ⟨segmentEnd.x, nextSegmentStart.y⟩)]
      | _ => []
    ([(segmentStart, segmentEnd)], connector)
  | _, _ => ([], [])

/-- The first loop of `PlotWindow::drawStepCurve`,
`for (int i = 0; i < dataSize - 1; i += 2)`, on the samples from `i` on. -/
def PlotWindow.stepSegments (w : PlotWindow) :
    List (Sample × Sample) → List (QPointF × QPointF) × List (QPointF × QPointF)
  | p0 :: p1 :: rest =>
    ((w.stepPair p0 p1 rest).1 ++ (PlotWindow.stepSegments w rest).1,
      (w.stepPair p0 p1 rest).2 ++ (PlotWindow.stepSegments w rest).2)
  | _ => ([], [])

/-- The marker one iteration of the second loop of `PlotWindow::drawStepCurve` draws
(plotwindow.cpp:488-495); `toPoint` is the Qt library function `QPointF::toPoint()`. -/
def PlotWindow.stepMarker (toPoint : QPointF → QPoint) (w : PlotWindow)
    (p : Sample × Sample) : List QPointF :=
  match p with
  | (Sample.finite x, Sample.finite y) =>
    let pixelPoint := w.dataToPixel ⟨x, y⟩
    if w.m_plotArea.contains (toPoint pixelPoint) then [pixelPoint] else []
  | _ => []

/-- The second loop of `PlotWindow::drawStepCurve`,
`for (int i = 0; i < dataSize; i += 2)`, on the samples from `i` on. -/
def PlotWindow.stepMarkers (toPoint : QPointF → QPoint) (w : PlotWindow) :
    List (Sample × Sample) → List QPointF
  | [] => []
  | [p] => w.stepMarker toPoint p
  | p :: _ :: rest => w.stepMarker toPoint p ++ PlotWindow.stepMarkers toPoint w rest

/-- `PlotWindow::drawStepCurve` (plotwindow.cpp:449). -/
def PlotWindow.drawStepCurve (toPoint : QPointF → QPoint) (w : PlotWindow)
    (curve : CurveData) : Painted :=
  if curve.xData.isEmpty || curve.yData.isEmpty then ⟨[], [], []⟩
  else
    let samples := List.zip curve.xData curve.yData
    { lines := (w.stepSegments samples).1,
      connectors := (w.stepSegments samples).2,
      ellipses := w.stepMarkers toPoint samples }

/-- `PlotWindow::drawCurve` (plotwindow.cpp:402). -/
def PlotWindow.drawCurve (toPoint : QPointF → QPoint) (w : PlotWindow)
    (curve : CurveData) : Painted :=
  if curve.drawType = CurveType.Step then w.drawStepCurve toPoint curve
  else if curve.xData.isEmpty || curve.yData.isEmpty then ⟨[], [], []⟩
  else
    let points := (List.zip curve.xData curve.yData).filterMap w.curvePoint
    { lines := if points.length > 1 then List.zip points points.tail else [],
      connectors := [],
      ellipses := points.filter (fun point => w.m_plotArea.contains (toPoint point)) }

/-- `PlotWindow::generateOptimizedAxisLabels` (plotwindow.cpp:827).  The Linear loop
`for (int i = 0; i < maxTicks; ++i)` leaves at the first `value > max` (`takeWhile`) and
appends the values `>= min` (`filter`). -/
def PlotWindow.generateOptimizedAxisLabels (min max : ℝ) (axisType : AxisType) : List ℝ :=
  if max ≤ min then []
  else if axisType = AxisType.Logarithmic then
    let min : ℝ := if min ≤ 0 then 1e-10 else min
    let max : ℝ := if max ≤ 0 then 1 else max
    let startPower : ℤ := ⌊log10 min⌋
    let endPower : ℤ := ⌈log10 max⌉
    let major : List ℝ :=
      ((intRange startPower endPower).map (fun (power : ℤ) => pow10 (power : ℝ))).filter
        (fun value => decide (value ≥ min * 0.999 ∧ value ≤ max * 1.001))
    let showMinorTicks : Bool := decide (endPower - startPower ≤ 3)
    let minor : List ℝ :=
      if showMinorTicks then
        (((intRange startPower (endPower - 1)).map (fun (power : ℤ) =>
          ([2, 3, 5] : List ℝ).map (fun mult => mult * pow10 (power : ℝ)))).flatten).filter
            (fun value => decide (value > min ∧ value < max))
      else []
    stdUnique tickClose (stdSort (major ++ minor))
  else
    let range := max - min
    let orderOfMagnitude := pow10 (⌊log10 range⌋ : ℝ)
    let normalizedRange := range / orderOfMagnitude
    let tickInterval : ℝ :=
      if normalizedRange ≤ 1.5 then orderOfMagnitude * 0.2
      else if normalizedRange ≤ 3 then orderOfMagnitude * 0.5
      else if normalizedRange ≤ 7 then orderOfMagnitude
      else orderOfMagnitude * 2
    let maxTicks : ℕ :=
      if normalizedRange ≤ 1.5 then 8
      else if normalizedRange ≤ 3 then 7
      else if normalizedRange ≤ 7 then 8
      else 6
    let firstTick : ℝ := (⌈min / tickInterval⌉ : ℝ) * tickInterval
    let labels : List ℝ :=
      (((List.range maxTicks).map (fun (i : ℕ) => firstTick + (i : ℝ) * tickInterval)).takeWhile
        (fun value => decide (value ≤ max))).filter (fun value => decide (value ≥ min))
    if min ≤ 0 ∧ max ≥ 0 ∧ (0 : ℝ) ∉ labels then stdSort (labels ++ [0]) else labels

/-! ## Predicates used in the statements -/

/-- An axis on which the transform is well defined: Linear with `min < max`, or
Logarithmic with `0 < min < max`. -/
def AxisOk (t : AxisType) (lo hi : ℝ) : Prop :=
  lo < hi ∧ (t = AxisType.Logarithmic → 0 < lo)

/-- The span of an axis: `max - min` on a Linear axis, `log10 max - log10 min` on a
Logarithmic one. -/
def axisSpan (t : AxisType) (lo hi : ℝ) : ℝ :=
  if t = AxisType.Logarithmic then log10 hi - log10 lo else hi - lo

/-- The per-axis expression of `pixelToData` at the normalized position `n`
(plottingwidget.cpp:1551-1557 with `n = (pixel - left) / width`, and 1560-1566 with
`n = (bottom - pixel) / height`). -/
def axisValue (t : AxisType) (lo hi n : ℝ) : ℝ :=
  if t = AxisType.Logarithmic ∧ lo > 0 ∧ hi > 0 then
    pow10 (log10 lo + n * (log10 hi - log10 lo))
  else lo + n * (hi - lo)

/-- The settings `PlottingWidget` and `PlotWindow` start with
(`initializePlotSettings`): `[0,100] x [0,100]`, Linear/Linear; the Y title is the one
of `PlotWindow` (plotwindow.cpp:191). -/
def defaultSettings : PlotSettings :=
  { xMin := 0, xMax := 100, yMin := 0, yMax := 100,
    xAxisType := AxisType.Linear, yAxisType := AxisType.Linear,
    showGrid := true, showLegend := true, yAxisTitle := "Y轴" }

/-- Settings of a log-log pane showing `[1,100] x [1,100]`. -/
def logLogSettings : PlotSettings :=
  { xMin := 1, xMax := 100, yMin := 1, yMax := 100,
    xAxisType := AxisType.Logarithmic, yAxisType := AxisType.Logarithmic,
    showGrid := true, showLegend := true, yAxisTitle := "Y轴" }

/-- A `PlottingWidget` on a 320 x 260 plot widget, so that
`m_plotArea = QRect(80, 50, 160, 160)` (plottingwidget.cpp:880), idle, without curves
and with the null legend area `QRect()`. -/
def idleWidget (s : PlotSettings) : PlottingWidget :=
  { m_plotSettings := s,
    m_plotArea := QRect.ofSize 80 50 160 160,
    widgetRect := QRect.ofSize 0 0 320 260,
    m_curves := [],
    m_isDragging := false, m_isSelecting := false, m_isPanning := false,
    m_isDraggingLegend := false,
    m_selectionStart := ⟨0, 0⟩,
    m_selectionRect := ⟨0, 0, -1, -1⟩,
    m_lastMousePos := ⟨0, 0⟩,
    m_legendArea := ⟨0, 0, -1, -1⟩,
    m_legendDragStart := ⟨0, 0⟩,
    m_legendOffset := ⟨0, 0⟩ }

/-- A `PlotWindow` on a 320 x 260 plot widget, so that
`m_plotArea = QRect(80, 50, 160, 160)` (plotwindow.cpp:252), idle, without curves and
with the null legend area `QRect()`. -/
def idlePlotWindow (s : PlotSettings) : PlotWindow :=
  { m_plotSettings := s, m_plotArea := QRect.ofSize 80 50 160 160, m_curves := [],
    m_isDragging := false, m_isSelecting := false, m_isPanning := false,
    m_isDraggingLegend := false,
    m_selectionStart := ⟨0, 0⟩,
    m_selectionRect := ⟨0, 0, -1, -1⟩,
    m_lastMousePos := ⟨0, 0⟩,
    m_legendArea := ⟨0, 0, -1, -1⟩,
    m_legendOffset := ⟨0, 0⟩ }

/-- A `DualPlotWindow` whose panes are 320 x 240, so that both plot areas are
`QRect(80, 40, 160, 160)` (plotwindow.cpp:1495, 1537), with the given settings on both
panes, without curves, and with the sync flags of the constructor. -/
def idleDualPlotWindow (s : PlotSettings) : DualPlotWindow :=
  { m_pressureSettings := s, m_productionSettings := s,
    m_pressurePlotArea := QRect.ofSize 80 40 160 160,
    m_productionPlotArea := QRect.ofSize 80 40 160 160,
    m_pressureCurves := [], m_productionCurves := [],
    m_syncZoom := true, m_syncPan := false,
    m_pressureDragging := false, m_productionDragging := false,
    m_pressureSelecting := false, m_productionSelecting := false,
    m_pressurePanning := false, m_productionPanning := false,
    m_lastPressureMousePos := ⟨0, 0⟩, m_lastProductionMousePos := ⟨0, 0⟩,
    m_pressureSelectionStart := ⟨0, 0⟩, m_productionSelectionStart := ⟨0, 0⟩,
    m_pressureSelectionRect := ⟨0, 0, -1, -1⟩, m_productionSelectionRect := ⟨0, 0, -1, -1⟩ }

/-- The default widget during a rectangle selection from the pixel `(100, 100)` to the
pixel `(150, 140)`. -/
def selectingWidget : PlottingWidget :=
  { idleWidget defaultSettings with
    m_isSelecting := true, m_selectionStart := ⟨100, 100⟩,
    m_selectionRect := ⟨100, 100, 150, 140⟩ }

/-- A visible Normal curve with finite samples `xs`, `ys` and the fields of the
`CurveData()` constructor otherwise. -/
def curveOf (xs ys : List ℝ) (xAxisType yAxisType : AxisType) : CurveData :=
  { xData := xs.map Sample.finite, yData := ys.map Sample.finite, visible := true,
    lineWidth := 2, pointSize := 4, xAxisType := xAxisType, yAxisType := yAxisType,
    drawType := CurveType.Normal }

/-- The scenario widget of the zero range: the curve `x = [0,50,100]`, `y = [5,5,5]` on
Linear/Linear axes, with the default range. -/
def flatWidget : PlottingWidget :=
  { idleWidget defaultSettings with
    m_curves := [curveOf [0, 50, 100] [5, 5, 5] AxisType.Linear AxisType.Linear] }

/-- The tick interval of the linear auto-range as a function of the span
(plottingwidget.cpp:1652-1664, plotwindow.cpp:745-757). -/
def linearTickInterval (range : ℝ) : ℝ :=
  let orderOfMagnitude := pow10 (⌊log10 range⌋ : ℝ)
  let normalizedRange := range / orderOfMagnitude
  if normalizedRange ≤ 1.5 then orderOfMagnitude * 0.2
  else if normalizedRange ≤ 3 then orderOfMagnitude * 0.5
  else if normalizedRange ≤ 7 then orderOfMagnitude
  else orderOfMagnitude * 2

/-- The linear auto-range after the tick alignment, the 5% margin and the re-alignment
of a range that contains zero (plottingwidget.cpp:1667-1679, plotwindow.cpp:760-772). -/
def alignedRange (min max tickInterval : ℝ) : ℝ × ℝ :=
  let rangeMin0 : ℝ := (⌊min / tickInterval⌋ : ℝ) * tickInterval
  let rangeMax0 : ℝ := (⌈max / tickInterval⌉ : ℝ) * tickInterval
  let margin := (rangeMax0 - rangeMin0) * 0.05
  let rangeMin1 := rangeMin0 - margin
  let rangeMax1 := rangeMax0 + margin
  if rangeMin1 < 0 ∧ rangeMax1 > 0 then
    ((⌊rangeMin1 / tickInterval⌋ : ℝ) * tickInterval,
      (⌈rangeMax1 / tickInterval⌉ : ℝ) * tickInterval)
  else (rangeMin1, rangeMax1)

/-- A production `PlotWindow` as `createPlotWindow` sets it up (Linear/Linear, Y title
`产量`, plottingwidget.cpp:797) with the one visible curve `x = [1, 2]`,
`y = [50, 100]`. -/
def productionWindow : PlotWindow :=
  { idlePlotWindow { defaultSettings with yAxisTitle := "产量" } with
    m_curves := [curveOf [1, 2] [50, 100] AxisType.Linear AxisType.Linear] }

/-- The X samples the row loop of `createStepProductionCurve` appends for finite rows
`(duration, production)`, starting at the accumulated time `t`. -/
def stepXs (t : ℝ) : List (ℝ × ℝ) → List Sample
  | [] => []
  | r :: rest => Sample.finite t :: Sample.finite (t + r.1) :: stepXs (t + r.1) rest

/-- The Y samples the row loop of `createStepProductionCurve` appends for finite rows
`(duration, production)`. -/
def stepYs : List (ℝ × ℝ) → List Sample
  | [] => []
  | r :: rest => Sample.finite r.2 :: Sample.finite r.2 :: stepYs rest

/-- A dual window with Logarithmic axes whose only curve is a pressure curve with the
X samples `[1e11, 1e12]`. -/
def highDualWindow : DualPlotWindow :=
  { idleDualPlotWindow logLogSettings with
    m_pressureCurves := [curveOf [1e11, 1e12] [1, 2] AxisType.Logarithmic AxisType.Logarithmic] }

/-- The scenario of the shared X range: Logarithmic X, a pressure curve with
`x = [1, 500]` and a production curve with `x = [2, 800]`. -/
def unionDualWindow : DualPlotWindow :=
  { idleDualPlotWindow logLogSettings with
    m_pressureCurves := [curveOf [1, 500] [1, 2] AxisType.Logarithmic AxisType.Logarithmic],
    m_productionCurves := [curveOf [2, 800] [1, 2] AxisType.Logarithmic AxisType.Logarithmic] }

/-- Two settings have the same Y range. -/
def SameYRange (a b : PlotSettings) : Prop := a.yMin = b.yMin ∧ a.yMax = b.yMax

/-- A dual window on the default range with `syncPan` switched on, after a plain left
press at the pixel `(100, 100)` of the pressure pane (a pan drag has started). -/
def syncPanDragWindow : DualPlotWindow :=
  ({ idleDualPlotWindow defaultSettings with m_syncPan := true }).onPressureMousePress
    ⟨100, 100⟩ true false

/-- An axis is Linear, or Logarithmic with positive bounds. -/
def AxisDomainOk (t : AxisType) (lo hi : ℝ) : Prop :=
  t = AxisType.Logarithmic → 0 < lo ∧ 0 < hi

/-- The per-axis assignment of `panView` for the shift `s` in units of the span
(plottingwidget.cpp:2060-2072 with `s = -delta.x / width`, 2074-2086 with
`s = delta.y / height`): log-space bounds are shifted by `s * logRange`, linear bounds
by `s * (max - min)`. -/
def shiftAxis (t : AxisType) (lo hi s : ℝ) : ℝ × ℝ :=
  if t = AxisType.Logarithmic ∧ lo > 0 ∧ hi > 0 then
    (pow10 (log10 lo + s * (log10 hi - log10 lo)), pow10 (log10 hi + s * (log10 hi - log10 lo)))
  else (lo + s * (hi - lo), hi + s * (hi - lo))

/-- The centre of an axis: `(min + max) / 2` on a Linear axis,
`(log10 min + log10 max) / 2` on a Logarithmic one. -/
def axisCentre (t : AxisType) (lo hi : ℝ) : ℝ :=
  if t = AxisType.Logarithmic then (log10 lo + log10 hi) / 2 else (lo + hi) / 2

/-- The per-axis assignment of `zoomXIn`, `zoomXOut`, `zoomYIn`, `zoomYOut`
(plottingwidget.cpp:1935-1950 and the three copies of it): the new bounds lie at half
the new span on each side of the centre, in log space on a Logarithmic axis with
positive bounds; `scale` maps the span to the new span (`/ 1.25` or `* 1.25`). -/
def centreZoomAxis (t : AxisType) (lo hi : ℝ) (scale : ℝ → ℝ) : ℝ × ℝ :=
  if t = AxisType.Logarithmic ∧ lo > 0 ∧ hi > 0 then
    (pow10 ((log10 lo + log10 hi) / 2 - scale (log10 hi - log10 lo) / 2),
      pow10 ((log10 lo + log10 hi) / 2 + scale (log10 hi - log10 lo) / 2))
  else ((lo + hi) / 2 - scale (hi - lo) / 2, (lo + hi) / 2 + scale (hi - lo) / 2)

/-- Settings of a log-log pane whose ranges are inverted, `xMin = 100 > xMax = 1` and
`yMin = 100 > yMax = 1`: the state `zoomAtPoint` with the factor `-1` at the centre
leaves from `[1,100] x [1,100]`. -/
def invertedLogSettings : PlotSettings :=
  { logLogSettings with xMin := 100, xMax := 1, yMin := 100, yMax := 1 }

/-- The point `(x, y)` is strictly positive on every Logarithmic axis. -/
def InLogDomain (xAxisType yAxisType : AxisType) (x y : ℝ) : Prop :=
  (xAxisType = AxisType.Logarithmic → 0 < x) ∧ (yAxisType = AxisType.Logarithmic → 0 < y)

/-- The pair `(x, y)` is a valid sample of a visible curve of the widget: some visible
curve holds the finite values `x` and `y` at one index of its two arrays, and the point
is strictly positive on every Logarithmic axis of the widget. -/
def PlottingWidget.IsValidSample (w : PlottingWidget) (x y : ℝ) : Prop :=
  ∃ c ∈ w.m_curves, c.visible = true ∧
    (Sample.finite x, Sample.finite y) ∈ List.zip c.xData c.yData ∧
    InLogDomain w.m_plotSettings.xAxisType w.m_plotSettings.yAxisType x y

/-- A widget on the default range with one visible curve `x = [0, NaN]`, `y = [NaN, 5]`
(no index holds two finite values) and one invisible curve `x = [1, 2]`, `y = [3, 4]`. -/
def noDataWidget : PlottingWidget :=
  { idleWidget defaultSettings with
    m_curves :=
      [{ curveOf [] [] AxisType.Linear AxisType.Linear with
          xData := [Sample.finite 0, Sample.nonFinite],
          yData := [Sample.nonFinite, Sample.finite 5] },
       { curveOf [1, 2] [3, 4] AxisType.Linear AxisType.Linear with visible := false }] }

/-- The default widget after a plain left press at the pixel `(100, 100)` of the plot
area: a pan drag has started and the last recorded position is `(100, 100)`. -/
def panDragWidget : PlottingWidget :=
  (idleWidget defaultSettings).mousePressEvent ⟨100, 100⟩ true false

/-- The default `PlotWindow` during a pan drag (the state a plain left press at the
pixel `(100, 100)` of the plot area leaves, plotwindow.cpp:984): dragging and
panning set, last recorded position `(100, 100)`. -/
def panDragPlotWindow : PlotWindow :=
  { idlePlotWindow defaultSettings with
    m_isDragging := true, m_isPanning := true, m_lastMousePos := ⟨100, 100⟩ }

/-- The rectangle `inner` lies within the rectangle `outer` (what Qt
`outer.contains(inner)` tests on rectangles of positive size). -/
def QRect.Within (inner outer : QRect) : Prop :=
  outer.left ≤ inner.left ∧ inner.right ≤ outer.right ∧
    outer.top ≤ inner.top ∧ inner.bottom ≤ outer.bottom

/-- The default `PlotWindow` with one visible curve while the legend is dragged, the
last recorded pointer position being the pixel `(180, 70)`. -/
def legendDragPlotWindow : PlotWindow :=
  { idlePlotWindow defaultSettings with
    m_curves := [curveOf [1, 2] [1, 2] AxisType.Linear AxisType.Linear],
    m_isDraggingLegend := true, m_lastMousePos := ⟨180, 70⟩ }

/-- The default `PlottingWidget` with one visible curve. -/
def legendWidget : PlottingWidget :=
  { idleWidget defaultSettings with
    m_curves := [curveOf [1, 2] [1, 2] AxisType.Linear AxisType.Linear] }

/-- The rounding of `QPointF::toPoint()` used at concrete inputs: each coordinate is
rounded to the nearest integer, a half upwards (`qRound`). -/
def qRoundPoint (p : QPointF) : QPoint := ⟨⌊p.x + 0.5⌋, ⌊p.y + 0.5⌋⟩

/-- A Normal curve whose middle sample is not finite: `x = [0, 50, 100]`,
`y = [0, NaN, 100]`. -/
def gapCurve : CurveData :=
  { curveOf [0, 50, 100] [] AxisType.Linear AxisType.Linear with
    yData := [Sample.finite 0, Sample.nonFinite, Sample.finite 100] }

/-- Settings with a Logarithmic X axis showing `[1, 100]` and a Linear Y axis showing
`[0, 100]`. -/
def logXSettings : PlotSettings :=
  { defaultSettings with xMin := 1, xAxisType := AxisType.Logarithmic }

/-- The Step curve `createStepProductionCurve` builds from the one table row
(duration `10`, production `50`) for a Logarithmic time axis: its samples are `(0, 50)`
and `(10, 50)`. -/
def logStepCurve : CurveData :=
  PlottingWidget.createStepProductionCurve [Sample.finite 10] [Sample.finite 50]
    AxisType.Logarithmic AxisType.Linear 2 4

/-- A Normal curve with the samples `(0, 50)` and `(10, 50)`; the first one is outside
the domain of a Logarithmic X axis. -/
def zeroStartCurve : CurveData :=
  curveOf [0, 10] [50, 50] AxisType.Logarithmic AxisType.Linear

theorem pow10_pos (y : ℝ) : 0 < pow10 y :=
  Real.rpow_pos_of_pos (by norm_num) y

theorem pow10_log10 {x : ℝ} (hx : 0 < x) : pow10 (log10 x) = x :=
  Real.rpow_logb (by norm_num) (by norm_num) hx

theorem log10_pow10 (y : ℝ) : log10 (pow10 y) = y :=
  Real.logb_rpow (by norm_num) (by norm_num)

theorem pow10_lt_pow10 {a b : ℝ} : pow10 a < pow10 b ↔ a < b :=
  Real.rpow_lt_rpow_left_iff (by norm_num)

theorem pow10_le_pow10 {a b : ℝ} : pow10 a ≤ pow10 b ↔ a ≤ b :=
  Real.rpow_le_rpow_left_iff (by norm_num)

theorem log10_lt_log10 {a b : ℝ} (ha : 0 < a) (hab : a < b) : log10 a < log10 b :=
  Real.logb_lt_logb (by norm_num) ha hab

theorem log10_le_log10 {a b : ℝ} (ha : 0 < a) (hab : a ≤ b) : log10 a ≤ log10 b :=
  (Real.logb_le_logb (by norm_num) ha (lt_of_lt_of_le ha hab)).2 hab

theorem pow10_zero : pow10 0 = 1 := by
  simp [pow10]

theorem pow10_one : pow10 1 = 10 := by
  simp [pow10]

theorem pow10_add (a b : ℝ) : pow10 (a + b) = pow10 a * pow10 b :=
  Real.rpow_add (by norm_num) a b

theorem pow10_intCast (n : ℤ) : pow10 (n : ℝ) = (10 : ℝ) ^ n :=
  Real.rpow_intCast 10 n

theorem pow10_natCast (n : ℕ) : pow10 (n : ℝ) = (10 : ℝ) ^ n :=
  Real.rpow_natCast 10 n

theorem log10_one : log10 1 = 0 := by
  simp [log10]

theorem log10_zpow (n : ℤ) : log10 ((10 : ℝ) ^ n) = n := by
  rw [← pow10_intCast, log10_pow10]

/-! ## Round trip of the coordinate transform -/

theorem norm_x_cancel (l n : ℝ) {wd : ℝ} (hw : wd ≠ 0) : (l + n * wd - l) / wd = n := by
  field_simp

theorem norm_y_cancel (b n : ℝ) {h : ℝ} (hh : h ≠ 0) : (b - (b - n * h)) / h = n := by
  field_simp

theorem linear_axis_inverse {lo hi : ℝ} (v : ℝ) (h : lo < hi) :
    lo + (v - lo) / (hi - lo) * (hi - lo) = v := by
  have h1 : hi - lo ≠ 0 := sub_ne_zero.mpr (ne_of_gt h)
  field_simp

theorem log_axis_inverse {lo hi v : ℝ} (h0 : 0 < lo) (h : lo < hi) (hv : 0 < v) :
    pow10 (log10 lo + (log10 v - log10 lo) / (log10 hi - log10 lo) *
      (log10 hi - log10 lo)) = v := by
  rw [linear_axis_inverse (log10 v) (log10_lt_log10 h0 h), pow10_log10 hv]

/-! ## The per-axis zoom step -/

theorem scale_cancel {r : ℝ} (f d : ℝ) (hr : r ≠ 0) : r / f * d / r = d / f := by
  by_cases hf : f = 0
  · simp [hf]
  · field_simp
    ring

theorem PlottingWidget.pixelToData_x (w : PlottingWidget) (p : QPointF) :
    (w.pixelToData p).x = axisValue w.m_plotSettings.xAxisType w.m_plotSettings.xMin
      w.m_plotSettings.xMax ((p.x - (w.m_plotArea.left : ℝ)) / (w.m_plotArea.width : ℝ)) :=
  rfl

theorem PlottingWidget.pixelToData_y (w : PlottingWidget) (p : QPointF) :
    (w.pixelToData p).y = axisValue w.m_plotSettings.yAxisType w.m_plotSettings.yMin
      w.m_plotSettings.yMax (((w.m_plotArea.bottom : ℝ) - p.y) / (w.m_plotArea.height : ℝ)) :=
  rfl

theorem axisValue_log {lo hi : ℝ} (n : ℝ) (h0 : 0 < lo) (h1 : 0 < hi) :
    axisValue AxisType.Logarithmic lo hi n = pow10 (log10 lo + n * (log10 hi - log10 lo)) := by
  simp [axisValue, h0, h1]

theorem axisValue_linear {t : AxisType} (lo hi n : ℝ) (ht : t ≠ AxisType.Logarithmic) :
    axisValue t lo hi n = lo + n * (hi - lo) := by
  simp [axisValue, ht]

theorem axisValue_pos {t : AxisType} {lo hi : ℝ} (n : ℝ) (hax : AxisOk t lo hi)
    (ht : t = AxisType.Logarithmic) : 0 < axisValue t lo hi n := by
  subst ht
  have h0 := hax.2 rfl
  rw [axisValue_log n h0 (lt_trans h0 hax.1)]
  exact pow10_pos _

theorem zoomAxis_log {lo hi v f : ℝ} (h0 : 0 < lo) (h : lo < hi) (hv : 0 < v) :
    PlottingWidget.zoomAxis AxisType.Logarithmic lo hi v f =
      (pow10 (log10 v - (log10 v - log10 lo) / f),
        pow10 (log10 v + (log10 hi - log10 v) / f)) := by
  have h1 : 0 < hi := lt_trans h0 h
  have hr : log10 hi - log10 lo ≠ 0 := sub_ne_zero.mpr (ne_of_gt (log10_lt_log10 h0 h))
  have e1 := scale_cancel f (log10 v - log10 lo) hr
  have e2 := scale_cancel f (log10 hi - log10 v) hr
  simp only [PlottingWidget.zoomAxis, h0, h1, hv, gt_iff_lt, and_self, if_true, e1, e2]

theorem zoomAxis_linear {t : AxisType} {lo hi : ℝ} (v f : ℝ)
    (ht : t ≠ AxisType.Logarithmic) (h : lo < hi) :
    PlottingWidget.zoomAxis t lo hi v f = (v - (v - lo) / f, v + (hi - v) / f) := by
  have hr : hi - lo ≠ 0 := sub_ne_zero.mpr (ne_of_gt h)
  have e1 := scale_cancel f (v - lo) hr
  have e2 := scale_cancel f (hi - v) hr
  simp only [PlottingWidget.zoomAxis, ht, false_and, if_false, e1, e2]

/-- The zoom step divides the span of the axis by the factor. -/
theorem zoomAxis_span {t : AxisType} {lo hi v : ℝ} (f : ℝ) (hax : AxisOk t lo hi)
    (hv : t = AxisType.Logarithmic → 0 < v) :
    axisSpan t (PlottingWidget.zoomAxis t lo hi v f).1 (PlottingWidget.zoomAxis t lo hi v f).2 = axisSpan t lo hi / f := by
  by_cases ht : t = AxisType.Logarithmic
  · subst ht
    rw [zoomAxis_log (hax.2 rfl) hax.1 (hv rfl)]
    simp only [axisSpan, if_true, log10_pow10]
    ring
  · rw [zoomAxis_linear v f ht hax.1]
    simp only [axisSpan, ht, if_false]
    ring

/-- The zoom step with a positive factor keeps the axis well formed. -/
theorem zoomAxis_ok {t : AxisType} {lo hi v f : ℝ} (hax : AxisOk t lo hi) (hf : 0 < f)
    (hv : t = AxisType.Logarithmic → 0 < v) :
    AxisOk t (PlottingWidget.zoomAxis t lo hi v f).1 (PlottingWidget.zoomAxis t lo hi v f).2 := by
  by_cases ht : t = AxisType.Logarithmic
  · subst ht
    have h0 := hax.2 rfl
    rw [zoomAxis_log h0 hax.1 (hv rfl)]
    refine ⟨pow10_lt_pow10.mpr ?_, fun _ => pow10_pos _⟩
    have hr : 0 < (log10 hi - log10 lo) / f := div_pos (sub_pos.mpr (log10_lt_log10 h0 hax.1)) hf
    have e : log10 v + (log10 hi - log10 v) / f - (log10 v - (log10 v - log10 lo) / f)
        = (log10 hi - log10 lo) / f := by ring
    linarith
  · rw [zoomAxis_linear v f ht hax.1]
    refine ⟨?_, fun h => absurd h ht⟩
    have hr : 0 < (hi - lo) / f := div_pos (sub_pos.mpr hax.1) hf
    have e : v + (hi - v) / f - (v - (v - lo) / f) = (hi - lo) / f := by ring
    show v - (v - lo) / f < v + (hi - v) / f
    linarith

/-- The value at a fixed normalized position is not moved by the zoom step anchored
at that value. -/
theorem zoomAxis_anchor {t : AxisType} {lo hi f : ℝ} (n : ℝ) (hax : AxisOk t lo hi)
    (hf : f ≠ 0) :
    axisValue t (PlottingWidget.zoomAxis t lo hi (axisValue t lo hi n) f).1
      (PlottingWidget.zoomAxis t lo hi (axisValue t lo hi n) f).2 n = axisValue t lo hi n := by
  by_cases ht : t = AxisType.Logarithmic
  · subst ht
    have h0 := hax.2 rfl
    have h1 : 0 < hi := lt_trans h0 hax.1
    have hv : 0 < axisValue AxisType.Logarithmic lo hi n := axisValue_pos n hax rfl
    rw [zoomAxis_log h0 hax.1 hv]
    rw [axisValue_log n (pow10_pos _) (pow10_pos _)]
    simp only [log10_pow10]
    rw [axisValue_log n h0 h1, log10_pow10]
    congr 1
    field_simp
    ring
  · rw [zoomAxis_linear _ f ht hax.1]
    simp only [axisValue_linear _ _ _ ht]
    field_simp
    ring

/-- Zooming by `f` and then by `1 / f` at the same anchor value restores the axis. -/
theorem zoomAxis_recip {t : AxisType} {lo hi v f : ℝ} (hax : AxisOk t lo hi) (hf : 0 < f)
    (hv : t = AxisType.Logarithmic → 0 < v) :
    PlottingWidget.zoomAxis t (PlottingWidget.zoomAxis t lo hi v f).1 (PlottingWidget.zoomAxis t lo hi v f).2 v (1 / f) = (lo, hi) := by
  have hok := zoomAxis_ok hax hf hv
  have hf0 : f ≠ 0 := ne_of_gt hf
  by_cases ht : t = AxisType.Logarithmic
  · subst ht
    have h0 := hax.2 rfl
    have h1 : 0 < hi := lt_trans h0 hax.1
    rw [zoomAxis_log (hok.2 rfl) hok.1 (hv rfl)]
    rw [zoomAxis_log h0 hax.1 (hv rfl)]
    simp only [log10_pow10]
    have e1 : log10 v - (log10 v - (log10 v - (log10 v - log10 lo) / f)) / (1 / f) = log10 lo := by
      field_simp
    have e2 : log10 v + (log10 v + (log10 hi - log10 v) / f - log10 v) / (1 / f) = log10 hi := by
      field_simp
      ring
    rw [e1, e2, pow10_log10 h0, pow10_log10 h1]
  · rw [zoomAxis_linear v (1 / f) ht hok.1]
    rw [zoomAxis_linear v f ht hax.1]
    have e1 : v - (v - (v - (v - lo) / f)) / (1 / f) = lo := by
      field_simp
    have e2 : v + (v + (hi - v) / f - v) / (1 / f) = hi := by
      field_simp
      ring
    simp only [e1, e2]

/-- C1. Coordinate round trip of `PlottingWidget`: on a plot area of positive width and
height, if each axis is Linear with `min < max`, or Logarithmic with `0 < min < max`
and the matching coordinate of `v` positive, then `pixelToData (dataToPixel v) = v`. -/
theorem PlottingWidget.pixelToData_dataToPixel (w : PlottingWidget) (v : QPointF)
    (hw : 0 < w.m_plotArea.width) (hh : 0 < w.m_plotArea.height)
    (hx : AxisOk w.m_plotSettings.xAxisType w.m_plotSettings.xMin w.m_plotSettings.xMax)
    (hy : AxisOk w.m_plotSettings.yAxisType w.m_plotSettings.yMin w.m_plotSettings.yMax)
    (hvx : w.m_plotSettings.xAxisType = AxisType.Logarithmic → 0 < v.x)
    (hvy : w.m_plotSettings.yAxisType = AxisType.Logarithmic → 0 < v.y) :
    w.pixelToData (w.dataToPixel v) = v := by
  obtain ⟨vx, vy⟩ := v
  obtain ⟨hx1, hx2⟩ := hx
  obtain ⟨hy1, hy2⟩ := hy
  have hw0 : ((w.m_plotArea.width : ℤ) : ℝ) ≠ 0 := by exact_mod_cast ne_of_gt hw
  have hh0 : ((w.m_plotArea.height : ℤ) : ℝ) ≠ 0 := by exact_mod_cast ne_of_gt hh
  simp only [PlottingWidget.pixelToData, PlottingWidget.dataToPixel, QPointF.mk.injEq] at *
  constructor
  · by_cases hlx : w.m_plotSettings.xAxisType = AxisType.Logarithmic
    · have h0 := hx2 hlx
      have hv := hvx hlx
      have h1 : 0 < w.m_plotSettings.xMax := lt_trans h0 hx1
      simp only [hlx, hv, h0, h1, gt_iff_lt, and_self, if_true]
      rw [norm_x_cancel _ _ hw0]
      exact log_axis_inverse h0 hx1 hv
    · simp only [hlx, false_and, if_false, gt_iff_lt, hx1, if_true]
      rw [norm_x_cancel _ _ hw0]
      exact linear_axis_inverse vx hx1
  · by_cases hly : w.m_plotSettings.yAxisType = AxisType.Logarithmic
    · have h0 := hy2 hly
      have hv := hvy hly
      have h1 : 0 < w.m_plotSettings.yMax := lt_trans h0 hy1
      simp only [hly, hv, h0, h1, gt_iff_lt, and_self, if_true]
      rw [norm_y_cancel _ _ hh0]
      exact log_axis_inverse h0 hy1 hv
    · simp only [hly, false_and, if_false, gt_iff_lt, hy1, if_true]
      rw [norm_y_cancel _ _ hh0]
      exact linear_axis_inverse vy hy1

/-- C1 at a concrete input: the point `(10, 2)` on the log-log widget. -/
theorem PlottingWidget.pixelToData_dataToPixel_witness :
    (idleWidget logLogSettings).pixelToData ((idleWidget logLogSettings).dataToPixel ⟨10, 2⟩)
      = ⟨10, 2⟩ :=
  PlottingWidget.pixelToData_dataToPixel (idleWidget logLogSettings) ⟨10, 2⟩
    (by decide) (by decide)
    ⟨by norm_num [idleWidget, logLogSettings], fun _ => by norm_num [idleWidget, logLogSettings]⟩
    ⟨by norm_num [idleWidget, logLogSettings], fun _ => by norm_num [idleWidget, logLogSettings]⟩
    (fun _ => by norm_num) (fun _ => by norm_num)

/-! ## Zoom at a point -/

theorem QPointF.eq_of_components {p q : QPointF} (hx : p.x = q.x) (hy : p.y = q.y) : p = q := by
  cases p
  cases q
  simp_all

theorem PlottingWidget.zoomAtPoint_anchor (w : PlottingWidget) (p : QPointF) {f : ℝ}
    (hf : f ≠ 0)
    (hx : AxisOk w.m_plotSettings.xAxisType w.m_plotSettings.xMin w.m_plotSettings.xMax)
    (hy : AxisOk w.m_plotSettings.yAxisType w.m_plotSettings.yMin w.m_plotSettings.yMax) :
    (w.zoomAtPoint p f).pixelToData p = w.pixelToData p := by
  apply QPointF.eq_of_components
  · rw [PlottingWidget.pixelToData_x, PlottingWidget.pixelToData_x]
    exact zoomAxis_anchor _ hx hf
  · rw [PlottingWidget.pixelToData_y, PlottingWidget.pixelToData_y]
    exact zoomAxis_anchor _ hy hf

/-- C2. `PlottingWidget::zoomAtPoint(p, f)` keeps the anchor fixed and divides the span
by `f`: for `f` in `(0, 10]`, a plot area of positive size and axes that are Linear with
`min < max` or Logarithmic with `0 < min < max`, `pixelToData(p)` is the same data point
after the call as before, and on each axis the new span is the old span divided by `f`. -/
theorem PlottingWidget.zoomAtPoint_anchor_span (w : PlottingWidget) (p : QPointF) (f : ℝ)
    (hf0 : 0 < f) (_hf10 : f ≤ 10)
    (_hw : 0 < w.m_plotArea.width) (_hh : 0 < w.m_plotArea.height)
    (hx : AxisOk w.m_plotSettings.xAxisType w.m_plotSettings.xMin w.m_plotSettings.xMax)
    (hy : AxisOk w.m_plotSettings.yAxisType w.m_plotSettings.yMin w.m_plotSettings.yMax) :
    (w.zoomAtPoint p f).pixelToData p = w.pixelToData p ∧
    axisSpan w.m_plotSettings.xAxisType (w.zoomAtPoint p f).m_plotSettings.xMin
        (w.zoomAtPoint p f).m_plotSettings.xMax
      = axisSpan w.m_plotSettings.xAxisType w.m_plotSettings.xMin w.m_plotSettings.xMax / f ∧
    axisSpan w.m_plotSettings.yAxisType (w.zoomAtPoint p f).m_plotSettings.yMin
        (w.zoomAtPoint p f).m_plotSettings.yMax
      = axisSpan w.m_plotSettings.yAxisType w.m_plotSettings.yMin w.m_plotSettings.yMax / f := by
  refine ⟨PlottingWidget.zoomAtPoint_anchor w p (ne_of_gt hf0) hx hy, ?_, ?_⟩
  · exact zoomAxis_span f hx (fun h => by
      rw [PlottingWidget.pixelToData_x]
      exact axisValue_pos _ hx h)
  · exact zoomAxis_span f hy (fun h => by
      rw [PlottingWidget.pixelToData_y]
      exact axisValue_pos _ hy h)

/-- C2 at a concrete input: zooming the log-log widget by 2 at the pixel `(160, 129)`. -/
theorem PlottingWidget.zoomAtPoint_anchor_span_witness :
    ((idleWidget logLogSettings).zoomAtPoint ⟨160, 129⟩ 2).pixelToData ⟨160, 129⟩
      = (idleWidget logLogSettings).pixelToData ⟨160, 129⟩ :=
  (PlottingWidget.zoomAtPoint_anchor_span (idleWidget logLogSettings) ⟨160, 129⟩ 2
    (by norm_num) (by norm_num) (by decide) (by decide)
    ⟨by norm_num [idleWidget, logLogSettings], fun _ => by norm_num [idleWidget, logLogSettings]⟩
    ⟨by norm_num [idleWidget, logLogSettings],
      fun _ => by norm_num [idleWidget, logLogSettings]⟩).1

/-- C3. Zoom reciprocity of `PlottingWidget`: for `f` in `(0, 10]` and axes that are
Linear with `min < max` or Logarithmic with `0 < min < max`, `zoomAtPoint(p, f)`
followed by `zoomAtPoint(p, 1/f)` restores `xMin`, `xMax`, `yMin` and `yMax`. -/
theorem PlottingWidget.zoomAtPoint_reciprocal (w : PlottingWidget) (p : QPointF) (f : ℝ)
    (hf0 : 0 < f) (_hf10 : f ≤ 10)
    (hx : AxisOk w.m_plotSettings.xAxisType w.m_plotSettings.xMin w.m_plotSettings.xMax)
    (hy : AxisOk w.m_plotSettings.yAxisType w.m_plotSettings.yMin w.m_plotSettings.yMax) :
    ((w.zoomAtPoint p f).zoomAtPoint p (1 / f)).m_plotSettings.xMin = w.m_plotSettings.xMin ∧
    ((w.zoomAtPoint p f).zoomAtPoint p (1 / f)).m_plotSettings.xMax = w.m_plotSettings.xMax ∧
    ((w.zoomAtPoint p f).zoomAtPoint p (1 / f)).m_plotSettings.yMin = w.m_plotSettings.yMin ∧
    ((w.zoomAtPoint p f).zoomAtPoint p (1 / f)).m_plotSettings.yMax = w.m_plotSettings.yMax := by
  have ha := PlottingWidget.zoomAtPoint_anchor w p (ne_of_gt hf0) hx hy
  have hvx : w.m_plotSettings.xAxisType = AxisType.Logarithmic → 0 < (w.pixelToData p).x :=
    fun h => by
      rw [PlottingWidget.pixelToData_x]
      exact axisValue_pos _ hx h
  have hvy : w.m_plotSettings.yAxisType = AxisType.Logarithmic → 0 < (w.pixelToData p).y :=
    fun h => by
      rw [PlottingWidget.pixelToData_y]
      exact axisValue_pos _ hy h
  have ex := zoomAxis_recip hx hf0 hvx
  have ey := zoomAxis_recip hy hf0 hvy
  have hX : PlottingWidget.zoomAxis w.m_plotSettings.xAxisType
      (w.zoomAtPoint p f).m_plotSettings.xMin (w.zoomAtPoint p f).m_plotSettings.xMax
      ((w.zoomAtPoint p f).pixelToData p).x (1 / f)
      = (w.m_plotSettings.xMin, w.m_plotSettings.xMax) := by
    rw [ha]
    exact ex
  have hY : PlottingWidget.zoomAxis w.m_plotSettings.yAxisType
      (w.zoomAtPoint p f).m_plotSettings.yMin (w.zoomAtPoint p f).m_plotSettings.yMax
      ((w.zoomAtPoint p f).pixelToData p).y (1 / f)
      = (w.m_plotSettings.yMin, w.m_plotSettings.yMax) := by
    rw [ha]
    exact ey
  exact ⟨congrArg Prod.fst hX, congrArg Prod.snd hX, congrArg Prod.fst hY, congrArg Prod.snd hY⟩

/-- C3 at a concrete input: zooming the default widget by 4 and then by 1/4 at the
pixel `(100, 100)`. -/
theorem PlottingWidget.zoomAtPoint_reciprocal_witness :
    (((idleWidget defaultSettings).zoomAtPoint ⟨100, 100⟩ 4).zoomAtPoint ⟨100, 100⟩
      (1 / 4)).m_plotSettings.xMin = 0 :=
  (PlottingWidget.zoomAtPoint_reciprocal (idleWidget defaultSettings) ⟨100, 100⟩ 4
    (by norm_num) (by norm_num)
    ⟨by norm_num [idleWidget, defaultSettings], fun h => by simp [idleWidget, defaultSettings] at h⟩
    ⟨by norm_num [idleWidget, defaultSettings],
      fun h => by simp [idleWidget, defaultSettings] at h⟩).1

/-! ## The range invariant under zoom and pan -/

theorem PlottingWidget.panViewX_y (w : PlottingWidget) (delta : QPointF) :
    (w.panViewX delta).m_plotSettings.yAxisType = w.m_plotSettings.yAxisType ∧
    (w.panViewX delta).m_plotSettings.yMin = w.m_plotSettings.yMin ∧
    (w.panViewX delta).m_plotSettings.yMax = w.m_plotSettings.yMax := by
  unfold PlottingWidget.panViewX
  simp only []
  split_ifs <;> exact ⟨rfl, rfl, rfl⟩

theorem PlottingWidget.panViewY_x (w : PlottingWidget) (delta : QPointF) :
    (w.panViewY delta).m_plotSettings.xAxisType = w.m_plotSettings.xAxisType ∧
    (w.panViewY delta).m_plotSettings.xMin = w.m_plotSettings.xMin ∧
    (w.panViewY delta).m_plotSettings.xMax = w.m_plotSettings.xMax := by
  unfold PlottingWidget.panViewY
  simp only []
  split_ifs <;> exact ⟨rfl, rfl, rfl⟩

theorem log10_hundred : log10 100 = 2 := by
  have h : (100 : ℝ) = (10 : ℝ) ^ (2 : ℤ) := by norm_num
  rw [h, log10_zpow]
  norm_num

theorem pow10_neg_one : pow10 (-1) = 1 / 10 := by
  have h := pow10_intCast (-1)
  norm_num at h
  rw [h]

/-- C5 (evaluation of the code). On a pane whose X axis is Logarithmic with
`xMin = 1`, `xMax = 100` and whose plot area is `QRect(80, _, 160, 160)`, zooming out by
the factor `0.5` at the pixel `x = 160` (inside the plot area) sets `xMin = -8`, and
panning by `160` pixels sets `xMin = -8.9`, in `PlotWindow` and in `DualPlotWindow`:
the lower bound of the Logarithmic axis does not stay positive. -/
theorem PlotWindow.log_axis_zoom_pan_negative :
    ((idlePlotWindow logLogSettings).zoomAtPoint ⟨160, 130⟩ 0.5).m_plotSettings.xMin = -8 ∧
    ((idleDualPlotWindow logLogSettings).zoomPressureAtPoint ⟨160, 130⟩ 0.5).m_pressureSettings.xMin
      = -8 ∧
    ((idlePlotWindow logLogSettings).panView ⟨160, 0⟩).m_plotSettings.xMin = -8.9 ∧
    ((idleDualPlotWindow logLogSettings).panPressureView ⟨160, 0⟩).m_pressureSettings.xMin
      = -8.9 := by
  refine ⟨?_, ?_, ?_, ?_⟩
  · norm_num [PlotWindow.zoomAtPoint, PlotWindow.pixelToData, idlePlotWindow, logLogSettings,
      QRect.ofSize, QRect.left, QRect.width, log10_one, log10_hundred, pow10_one]
  · norm_num [DualPlotWindow.zoomPressureAtPoint, DualPlotWindow.pixelToPressureData,
      idleDualPlotWindow, logLogSettings, QRect.ofSize, QRect.left, QRect.width, log10_one,
      log10_hundred, pow10_one]
  · norm_num [PlotWindow.panView, PlotWindow.pixelToData, idlePlotWindow, logLogSettings,
      QPointF.sub, QRect.ofSize, QRect.left, QRect.width, log10_one, log10_hundred, pow10_one,
      pow10_neg_one]
  · norm_num [DualPlotWindow.panPressureView, DualPlotWindow.pixelToPressureData,
      idleDualPlotWindow, logLogSettings, QPointF.sub, QRect.ofSize, QRect.left, QRect.width,
      log10_one, log10_hundred, pow10_one, pow10_neg_one]

/-! ## Zoom with a factor that is not positive -/

theorem linear_axis_lt {lo hi n1 n2 : ℝ} (h : lo < hi) (hn : n1 < n2) :
    lo + n1 * (hi - lo) < lo + n2 * (hi - lo) := by
  have h2 : 0 < hi - lo := sub_pos.mpr h
  nlinarith

/-- C7 (evaluation of the code). On the default widget (`[0,100] x [0,100]`, Linear/Linear,
plot area `QRect(80, 50, 160, 160)`), a Ctrl+press at the pixel `(100, 100)` followed by
the release, with no move in between: the selection rectangle `QRect(p, p)` is not
empty, and the release installs `xMin = xMax = 12.5` and `yMin = yMax = 68.125`. -/
theorem PlottingWidget.ctrl_click_collapses_range :
    ((idleWidget defaultSettings).mousePressEvent ⟨100, 100⟩ true true).m_selectionRect.isEmpty
      = false ∧
    (((idleWidget defaultSettings).mousePressEvent ⟨100, 100⟩ true true).mouseReleaseEvent
      ).m_plotSettings.xMin = 12.5 ∧
    (((idleWidget defaultSettings).mousePressEvent ⟨100, 100⟩ true true).mouseReleaseEvent
      ).m_plotSettings.xMax = 12.5 ∧
    (((idleWidget defaultSettings).mousePressEvent ⟨100, 100⟩ true true).mouseReleaseEvent
      ).m_plotSettings.yMin = 68.125 ∧
    (((idleWidget defaultSettings).mousePressEvent ⟨100, 100⟩ true true).mouseReleaseEvent
      ).m_plotSettings.yMax = 68.125 := by
  refine ⟨by decide, ?_, ?_, ?_, ?_⟩ <;>
    norm_num [PlottingWidget.mousePressEvent, PlottingWidget.mouseReleaseEvent,
      PlottingWidget.pixelToData, idleWidget, defaultSettings, QRect.contains, QRect.isEmpty,
      QRect.ofSize, QRect.ofCorners, QRect.topLeft, QRect.bottomRight, QRect.left,
      QRect.bottom, QRect.width, QRect.height, QPoint.toPointF]

/-- Rectangle selection in `PlottingWidget`: from a state with Linear axes,
`xMax > xMin`, `yMax > yMin` and a plot area of positive size, `mouseReleaseEvent` on a
non-empty selection rectangle installs as the new range the pairwise min/max of `pixelToData` of
the rectangle's `topLeft` and `bottomRight` corners; the installed range satisfies
`xMax > xMin` exactly when the rectangle has `left < right`, and `yMax > yMin` exactly
when it has `top < bottom`. -/
theorem PlottingWidget.mouseReleaseEvent_selection (w : PlottingWidget)
    (hsel : w.m_isSelecting = true) (hleg : w.m_isDraggingLegend = false)
    (hne : w.m_selectionRect.isEmpty = false)
    (hlx : w.m_plotSettings.xAxisType = AxisType.Linear)
    (hly : w.m_plotSettings.yAxisType = AxisType.Linear)
    (hx : w.m_plotSettings.xMax > w.m_plotSettings.xMin)
    (hy : w.m_plotSettings.yMax > w.m_plotSettings.yMin)
    (hw : 0 < w.m_plotArea.width) (hh : 0 < w.m_plotArea.height) :
    w.mouseReleaseEvent.m_plotSettings.xMin
      = min (w.pixelToData w.m_selectionRect.topLeft.toPointF).x
          (w.pixelToData w.m_selectionRect.bottomRight.toPointF).x ∧
    w.mouseReleaseEvent.m_plotSettings.xMax
      = max (w.pixelToData w.m_selectionRect.topLeft.toPointF).x
          (w.pixelToData w.m_selectionRect.bottomRight.toPointF).x ∧
    w.mouseReleaseEvent.m_plotSettings.yMin
      = min (w.pixelToData w.m_selectionRect.topLeft.toPointF).y
          (w.pixelToData w.m_selectionRect.bottomRight.toPointF).y ∧
    w.mouseReleaseEvent.m_plotSettings.yMax
      = max (w.pixelToData w.m_selectionRect.topLeft.toPointF).y
          (w.pixelToData w.m_selectionRect.bottomRight.toPointF).y ∧
    (w.mouseReleaseEvent.m_plotSettings.xMax > w.mouseReleaseEvent.m_plotSettings.xMin ↔
      w.m_selectionRect.left < w.m_selectionRect.right) ∧
    (w.mouseReleaseEvent.m_plotSettings.yMax > w.mouseReleaseEvent.m_plotSettings.yMin ↔
      w.m_selectionRect.top < w.m_selectionRect.bottom) := by
  have hw0 : (0 : ℝ) < (w.m_plotArea.width : ℝ) := by exact_mod_cast hw
  have hh0 : (0 : ℝ) < (w.m_plotArea.height : ℝ) := by exact_mod_cast hh
  have hrel : w.mouseReleaseEvent.m_plotSettings =
      { w.m_plotSettings with
        xMin := min (w.pixelToData w.m_selectionRect.topLeft.toPointF).x
          (w.pixelToData w.m_selectionRect.bottomRight.toPointF).x,
        xMax := max (w.pixelToData w.m_selectionRect.topLeft.toPointF).x
          (w.pixelToData w.m_selectionRect.bottomRight.toPointF).x,
        yMin := min (w.pixelToData w.m_selectionRect.topLeft.toPointF).y
          (w.pixelToData w.m_selectionRect.bottomRight.toPointF).y,
        yMax := max (w.pixelToData w.m_selectionRect.topLeft.toPointF).y
          (w.pixelToData w.m_selectionRect.bottomRight.toPointF).y } := by
    simp [PlottingWidget.mouseReleaseEvent, hsel, hleg, hne]
  have hxv : ∀ q : QPoint, (w.pixelToData q.toPointF).x = w.m_plotSettings.xMin +
      (((q.x : ℝ) - (w.m_plotArea.left : ℝ)) / (w.m_plotArea.width : ℝ)) *
        (w.m_plotSettings.xMax - w.m_plotSettings.xMin) := by
    intro q
    simp [PlottingWidget.pixelToData, hlx, QPoint.toPointF]
  have hyv : ∀ q : QPoint, (w.pixelToData q.toPointF).y = w.m_plotSettings.yMin +
      (((w.m_plotArea.bottom : ℝ) - (q.y : ℝ)) / (w.m_plotArea.height : ℝ)) *
        (w.m_plotSettings.yMax - w.m_plotSettings.yMin) := by
    intro q
    simp [PlottingWidget.pixelToData, hly, QPoint.toPointF]
  have hle : w.m_selectionRect.x1 ≤ w.m_selectionRect.x2 ∧
      w.m_selectionRect.y1 ≤ w.m_selectionRect.y2 := by
    simpa [QRect.isEmpty] using hne
  rw [hrel]
  refine ⟨rfl, rfl, rfl, rfl, ?_, ?_⟩
  · show min _ _ < max _ _ ↔ _
    rw [min_lt_max, hxv, hxv]
    simp only [QRect.topLeft, QRect.bottomRight, QRect.left, QRect.right]
    constructor
    · intro hne2
      rcases lt_or_eq_of_le hle.1 with h | h
      · exact h
      · exact absurd (by rw [h]) hne2
    · intro hlt
      apply ne_of_lt
      apply linear_axis_lt hx
      apply div_lt_div_of_pos_right _ hw0
      have : (w.m_selectionRect.x1 : ℝ) < (w.m_selectionRect.x2 : ℝ) := by exact_mod_cast hlt
      linarith
  · show min _ _ < max _ _ ↔ _
    rw [min_lt_max, hyv, hyv]
    simp only [QRect.topLeft, QRect.bottomRight, QRect.top, QRect.bottom]
    constructor
    · intro hne2
      rcases lt_or_eq_of_le hle.2 with h | h
      · exact h
      · exact absurd (by rw [h]) hne2
    · intro hlt
      apply ne_of_gt
      apply linear_axis_lt hy
      apply div_lt_div_of_pos_right _ hh0
      have : (w.m_selectionRect.y1 : ℝ) < (w.m_selectionRect.y2 : ℝ) := by exact_mod_cast hlt
      linarith

/-- The selection from `(100, 100)` to `(150, 140)` installs a range with `xMax > xMin`. -/
theorem PlottingWidget.mouseReleaseEvent_selection_witness :
    selectingWidget.mouseReleaseEvent.m_plotSettings.xMax >
      selectingWidget.mouseReleaseEvent.m_plotSettings.xMin :=
  (PlottingWidget.mouseReleaseEvent_selection selectingWidget rfl rfl (by decide) rfl rfl
    (by norm_num [selectingWidget, idleWidget, defaultSettings])
    (by norm_num [selectingWidget, idleWidget, defaultSettings])
    (by decide) (by decide)).2.2.2.2.1.mpr (by decide)

/-! ## The logarithmic auto-range -/

theorem floor_log10_lt_ceil_log10 {lo hi : ℝ} (h0 : 0 < lo) (h : lo < hi) :
    ⌊log10 lo⌋ + 1 ≤ ⌈log10 hi⌉ := by
  have h1 : ((⌊log10 lo⌋ : ℤ) : ℝ) ≤ log10 lo := Int.floor_le _
  have h2 : log10 hi ≤ ((⌈log10 hi⌉ : ℤ) : ℝ) := Int.le_ceil _
  have h3 := log10_lt_log10 h0 h
  have h4 : ((⌊log10 lo⌋ : ℤ) : ℝ) < ((⌈log10 hi⌉ : ℤ) : ℝ) := by linarith
  have h5 : ⌊log10 lo⌋ < ⌈log10 hi⌉ := by exact_mod_cast h4
  omega

theorem decade_ratio_ge_ten {lo hi : ℝ} (h0 : 0 < lo) (h : lo < hi) :
    10 ≤ pow10 (⌈log10 hi⌉ : ℝ) / pow10 (⌊log10 lo⌋ : ℝ) := by
  have h1 : ((⌊log10 lo⌋ : ℤ) : ℝ) + 1 ≤ ((⌈log10 hi⌉ : ℤ) : ℝ) := by
    exact_mod_cast floor_log10_lt_ceil_log10 h0 h
  rw [le_div_iff₀ (pow10_pos _)]
  calc 10 * pow10 (⌊log10 lo⌋ : ℝ) = pow10 ((⌊log10 lo⌋ : ℝ) + 1) := by
        rw [pow10_add, pow10_one, mul_comm]
    _ ≤ pow10 (⌈log10 hi⌉ : ℝ) := pow10_le_pow10.mpr h1

theorem calculateOptimalRange_log_eq {lo hi : ℝ} (h0 : 0 < lo) (h : lo < hi) :
    PlottingWidget.calculateOptimalRange lo hi true =
      (pow10 (⌊log10 lo⌋ : ℝ), pow10 (⌈log10 hi⌉ : ℝ)) := by
  have h1 : 0 < hi := lt_trans h0 h
  have hr := decade_ratio_ge_ten h0 h
  simp only [PlottingWidget.calculateOptimalRange, not_le.mpr h, not_le.mpr h0, not_le.mpr h1,
    not_lt.mpr hr, if_false, if_true]

theorem decade_floor_le {lo : ℝ} (h0 : 0 < lo) : pow10 (⌊log10 lo⌋ : ℝ) ≤ lo := by
  calc pow10 (⌊log10 lo⌋ : ℝ) ≤ pow10 (log10 lo) := pow10_le_pow10.mpr (Int.floor_le _)
    _ = lo := pow10_log10 h0

theorem le_decade_ceil {hi : ℝ} (h1 : 0 < hi) : hi ≤ pow10 (⌈log10 hi⌉ : ℝ) := by
  calc hi = pow10 (log10 hi) := (pow10_log10 h1).symm
    _ ≤ pow10 (⌈log10 hi⌉ : ℝ) := pow10_le_pow10.mpr (Int.le_ceil _)

theorem mem_of_mem_stdUniqueFrom (eqv : ℝ → ℝ → Bool) {v : ℝ} :
    ∀ (l : List ℝ) (last : ℝ), v ∈ stdUniqueFrom eqv last l → v ∈ l := by
  intro l
  induction l with
  | nil => intro last h; simp [stdUniqueFrom] at h
  | cons a rest ih =>
    intro last h
    unfold stdUniqueFrom at h
    split_ifs at h with hc
    · exact List.mem_cons_of_mem _ (ih last h)
    · rcases List.mem_cons.mp h with h1 | h1
      · exact h1 ▸ List.mem_cons_self _ _
      · exact List.mem_cons_of_mem _ (ih a h1)

theorem mem_of_mem_stdUnique (eqv : ℝ → ℝ → Bool) {v : ℝ} {l : List ℝ}
    (h : v ∈ stdUnique eqv l) : v ∈ l := by
  cases l with
  | nil => simp [stdUnique] at h
  | cons a rest =>
    unfold stdUnique at h
    rcases List.mem_cons.mp h with h1 | h1
    · exact h1 ▸ List.mem_cons_self _ _
    · exact List.mem_cons_of_mem _ (mem_of_mem_stdUniqueFrom eqv rest a h1)

theorem mem_of_mem_ite_nil {c : Prop} [Decidable c] {l : List ℝ} {v : ℝ}
    (h : v ∈ (if c then l else [])) : v ∈ l := by
  split_ifs at h
  · exact h
  · simp at h

theorem mem_stdSort {v : ℝ} {l : List ℝ} : v ∈ stdSort l ↔ v ∈ l :=
  (List.perm_insertionSort _ l).mem_iff

theorem calculateOptimalRange_log_pos {lo hi : ℝ} (h : lo < hi) :
    0 < (PlottingWidget.calculateOptimalRange lo hi true).1 ∧
    0 < (PlottingWidget.calculateOptimalRange lo hi true).2 := by
  simp only [PlottingWidget.calculateOptimalRange, not_le.mpr h, if_false, if_true]
  split_ifs <;> constructor <;>
    first
    | exact pow10_pos _
    | exact div_pos (pow10_pos _) (by norm_num)
    | exact mul_pos (pow10_pos _) (by norm_num)

theorem generateOptimizedAxisLabels_log_pos (lo hi : ℝ) :
    ∀ v ∈ PlottingWidget.generateOptimizedAxisLabels lo hi AxisType.Logarithmic, 0 < v := by
  intro v hv
  unfold PlottingWidget.generateOptimizedAxisLabels at hv
  by_cases hle : hi ≤ lo
  · simp [hle] at hv
  · simp only [hle, if_false, if_true] at hv
    have hm := mem_stdSort.mp (mem_of_mem_stdUnique _ hv)
    rcases List.mem_append.mp hm with h1 | h1
    · obtain ⟨h2, -⟩ := List.mem_filter.mp h1
      obtain ⟨k, -, rfl⟩ := List.mem_map.mp h2
      exact pow10_pos _
    · obtain ⟨h2, -⟩ := List.mem_filter.mp (mem_of_mem_ite_nil h1)
      obtain ⟨l, hl, hvl⟩ := List.mem_flatten.mp h2
      obtain ⟨k, -, rfl⟩ := List.mem_map.mp hl
      obtain ⟨m, hm2, rfl⟩ := List.mem_map.mp hvl
      have hmpos : (0 : ℝ) < m := by
        simp only [List.mem_cons, List.mem_singleton, List.not_mem_nil, or_false] at hm2
        rcases hm2 with rfl | rfl | rfl <;> norm_num
      exact mul_pos hmpos (pow10_pos _)

/-- C9 (counterexample). With `max <= min` the inputs are returned as they are:
`calculateOptimalRange(-1, -2, isLog = true)` is `(-1, -2)`, whose components are not
`> 0`. -/
theorem PlottingWidget.calculateOptimalRange_log_nonpositive :
    PlottingWidget.calculateOptimalRange (-1) (-2) true = (-1, -2) := by
  norm_num [PlottingWidget.calculateOptimalRange]

/-- C9 (amended). For every pair of inputs with `min < max`, positive or not, both
components of `calculateOptimalRange(min, max, isLog = true)` are `> 0` (for
`max < min` the pair `(min, max)` is returned unchanged); and for every pair of inputs,
in either order, every value in the list returned by
`generateOptimizedAxisLabels(min, max, Logarithmic)` is `> 0`. -/
theorem PlottingWidget.log_range_and_labels_positive (min max : ℝ) :
    (min < max → 0 < (PlottingWidget.calculateOptimalRange min max true).1 ∧
      0 < (PlottingWidget.calculateOptimalRange min max true).2) ∧
    (max < min → PlottingWidget.calculateOptimalRange min max true = (min, max)) ∧
    ∀ v ∈ PlottingWidget.generateOptimizedAxisLabels min max AxisType.Logarithmic, 0 < v :=
  ⟨calculateOptimalRange_log_pos,
    fun h => by simp [PlottingWidget.calculateOptimalRange, le_of_lt h],
    generateOptimizedAxisLabels_log_pos min max⟩

/-- C9 (amended) at a concrete input: the non-positive lower input `-5` with `max = 3`. -/
theorem PlottingWidget.log_range_and_labels_positive_witness :
    0 < (PlottingWidget.calculateOptimalRange (-5) 3 true).1 ∧
      0 < (PlottingWidget.calculateOptimalRange (-5) 3 true).2 :=
  (PlottingWidget.log_range_and_labels_positive (-5) 3).1 (by norm_num)

/-! ## The zero-range rule of the linear auto-range -/

theorem scanCurves_flatWidget :
    scanCurves flatWidget.m_plotSettings.xAxisType flatWidget.m_plotSettings.yAxisType
      flatWidget.m_curves = ⟨0, 100, 5, 5, true⟩ := by
  have hne : AxisType.Linear ≠ AxisType.Logarithmic := by decide
  norm_num [scanCurves, scanCurve, scanSample, flatWidget, curveOf, idleWidget,
    defaultSettings, hne]

/-- C10 (evaluation of the code). `calculateOptimalRange(c, c, false)` returns `(c, c)`:
the first test `max <= min` returns the inputs before the `range == 0` expansion is
reached.  And `calculateDataBounds` on the curve `x = [0,50,100]`, `y = [5,5,5]`
(Linear/Linear) finds `minY = maxY = 5`, fails its test `minY < maxY` and leaves the
range at its previous value, here `yMin = 0`, `yMax = 100`, not `[4, 6]`. -/
theorem PlottingWidget.zero_range_not_expanded :
    (∀ c : ℝ, PlottingWidget.calculateOptimalRange c c false = (c, c)) ∧
    PlottingWidget.calculateOptimalRange 5 5 false ≠ (4, 6) ∧
    flatWidget.calculateDataBounds.m_plotSettings.yMin = 0 ∧
    flatWidget.calculateDataBounds.m_plotSettings.yMax = 100 := by
  have hc : flatWidget.m_curves.isEmpty = false := rfl
  have hb := scanCurves_flatWidget
  refine ⟨fun c => by simp [PlottingWidget.calculateOptimalRange], ?_, ?_, ?_⟩
  · norm_num [PlottingWidget.calculateOptimalRange]
  · simp only [PlottingWidget.calculateDataBounds, hc, hb]
    norm_num [flatWidget, idleWidget, defaultSettings]
  · simp only [PlottingWidget.calculateDataBounds, hc, hb]
    norm_num [flatWidget, idleWidget, defaultSettings]

/-! ## The linear auto-range -/

theorem PlottingWidget.calculateOptimalRange_linear_eq {lo hi : ℝ} (h : lo < hi) :
    PlottingWidget.calculateOptimalRange lo hi false =
      if lo > 0 ∧ (alignedRange lo hi (linearTickInterval (hi - lo))).1 < 0 ∧
          lo < (hi - lo) * 0.2 then
        (0, (alignedRange lo hi (linearTickInterval (hi - lo))).2)
      else alignedRange lo hi (linearTickInterval (hi - lo)) := by
  have hr : hi - lo ≠ 0 := sub_ne_zero.mpr (ne_of_gt h)
  unfold PlottingWidget.calculateOptimalRange
  rw [if_neg (not_le.mpr h), if_neg (by simp), if_neg hr]
  rfl

theorem PlotWindow.calculateOptimalRange_linear_aligned {lo hi : ℝ} (h : lo < hi) :
    PlotWindow.calculateOptimalRange lo hi false =
      alignedRange lo hi (linearTickInterval (hi - lo)) := by
  have hr : hi - lo ≠ 0 := sub_ne_zero.mpr (ne_of_gt h)
  unfold PlotWindow.calculateOptimalRange
  rw [if_neg (not_le.mpr h), if_neg (by simp), if_neg hr]
  rfl

theorem linearTickInterval_bounds (range : ℝ) :
    0 < linearTickInterval range ∧
      0.2 * pow10 (⌊log10 range⌋ : ℝ) ≤ linearTickInterval range := by
  have hp := pow10_pos (⌊log10 range⌋ : ℝ)
  unfold linearTickInterval
  simp only []
  split_ifs <;> constructor <;> norm_num <;> linarith

theorem alignedRange_fst_neg {lo hi t : ℝ} (ht : 0 < t) (h0 : 0 ≤ lo) (hlt : lo < t)
    (h : lo < hi) : (alignedRange lo hi t).1 < 0 := by
  have hf : ⌊lo / t⌋ = 0 :=
    Int.floor_eq_zero_iff.mpr ⟨div_nonneg h0 (le_of_lt ht), (div_lt_one ht).mpr hlt⟩
  have hc : hi ≤ (⌈hi / t⌉ : ℝ) * t := by
    have h1 : hi / t ≤ (⌈hi / t⌉ : ℝ) := Int.le_ceil _
    calc hi = hi / t * t := by field_simp
      _ ≤ (⌈hi / t⌉ : ℝ) * t := mul_le_mul_of_nonneg_right h1 (le_of_lt ht)
  have hpos : 0 < (⌈hi / t⌉ : ℝ) * t := lt_of_le_of_lt h0 (lt_of_lt_of_le h hc)
  have hm : 0 < ((⌈hi / t⌉ : ℝ) * t - ((0 : ℤ) : ℝ) * t) * 0.05 := by
    norm_num
    linarith
  unfold alignedRange
  simp only [hf]
  rw [if_pos ⟨by linarith, by linarith⟩]
  have hneg : (((0 : ℤ) : ℝ) * t - ((⌈hi / t⌉ : ℝ) * t - ((0 : ℤ) : ℝ) * t) * 0.05) / t < 0 :=
    div_neg_of_neg_of_pos (by linarith) ht
  have hfl : ((⌊(((0 : ℤ) : ℝ) * t - ((⌈hi / t⌉ : ℝ) * t - ((0 : ℤ) : ℝ) * t) * 0.05) / t⌋ : ℤ) : ℝ)
      < 0 := lt_of_le_of_lt (Int.floor_le _) hneg
  exact mul_neg_of_neg_of_pos hfl ht

theorem floor_log10_of_mem_decade {x : ℝ} {k : ℤ} (h1 : (10 : ℝ) ^ k ≤ x)
    (h2 : x < (10 : ℝ) ^ (k + 1)) : ⌊log10 x⌋ = k := by
  have hk : (0 : ℝ) < (10 : ℝ) ^ k := zpow_pos (by norm_num) k
  have hx : 0 < x := lt_of_lt_of_le hk h1
  rw [Int.floor_eq_iff]
  constructor
  · have := log10_le_log10 hk h1
    rwa [log10_zpow] at this
  · have := log10_lt_log10 hx h2
    rw [log10_zpow] at this
    exact_mod_cast this

theorem linearTickInterval_three_halves : linearTickInterval 1.5 = 0.2 := by
  have hf : ⌊log10 1.5⌋ = 0 := floor_log10_of_mem_decade (by norm_num) (by norm_num)
  unfold linearTickInterval
  simp only [hf]
  norm_num [pow10_zero]

theorem alignedRange_quarter : alignedRange 0.25 1.75 0.2 = (0.12, 1.88) := by
  have hf : ⌊(0.25 : ℝ) / 0.2⌋ = 1 := by
    rw [Int.floor_eq_iff]
    norm_num
  have hc : ⌈(1.75 : ℝ) / 0.2⌉ = 9 := by
    rw [Int.ceil_eq_iff]
    norm_num
  unfold alignedRange
  simp only [hf, hc]
  norm_num

/-- C11 (counterexample). For `min = 0.25`, `max = 1.75` (so `0 < min < max` and
`min < 0.2 * (max - min) = 0.3`) the tick interval is `0.2`, the aligned lower bound is
`0.2`, the margin is `0.08`, and `calculateOptimalRange(0.25, 1.75, false)` returns
`(0.12, 1.88)`: `rangeMin` is not `0`. -/
theorem PlottingWidget.calculateOptimalRange_no_snap :
    PlottingWidget.calculateOptimalRange 0.25 1.75 false = (0.12, 1.88) := by
  rw [PlottingWidget.calculateOptimalRange_linear_eq (by norm_num)]
  have e : (1.75 : ℝ) - 0.25 = 1.5 := by norm_num
  rw [e, linearTickInterval_three_halves, alignedRange_quarter]
  norm_num

/-- C11 (amended). For every `0 < min < max` with `min < 0.2 * (max - min)`,
`PlottingWidget::calculateOptimalRange(min, max, isLog = false)` returns a
`rangeMin >= 0`, and it returns `rangeMin = 0` whenever
`min < 0.2 * 10^floor(log10(max - min))`, that is whenever `min` is below the smallest
tick interval of the span. -/
theorem PlottingWidget.calculateOptimalRange_snap_to_origin (min max : ℝ) (h0 : 0 < min)
    (h : min < max) (hs : min < 0.2 * (max - min)) :
    0 ≤ (PlottingWidget.calculateOptimalRange min max false).1 ∧
    (min < 0.2 * (10 : ℝ) ^ ⌊log10 (max - min)⌋ →
      (PlottingWidget.calculateOptimalRange min max false).1 = 0) := by
  have hs2 : min < (max - min) * 0.2 := by linarith
  rw [PlottingWidget.calculateOptimalRange_linear_eq h]
  constructor
  · by_cases hc : (alignedRange min max (linearTickInterval (max - min))).1 < 0
    · rw [if_pos ⟨h0, hc, hs2⟩]
    · rw [if_neg (fun hh => hc hh.2.1)]
      exact not_lt.mp hc
  · intro hm
    obtain ⟨ht, hb⟩ := linearTickInterval_bounds (max - min)
    rw [pow10_intCast] at hb
    have hc := alignedRange_fst_neg ht (le_of_lt h0) (lt_of_lt_of_le hm hb) h
    rw [if_pos ⟨h0, hc, hs2⟩]

/-- C11 (amended) at a concrete input: `min = 0.1`, `max = 1.6`. -/
theorem PlottingWidget.calculateOptimalRange_snap_to_origin_witness :
    (PlottingWidget.calculateOptimalRange 0.1 1.6 false).1 = 0 :=
  (PlottingWidget.calculateOptimalRange_snap_to_origin 0.1 1.6 (by norm_num) (by norm_num)
    (by norm_num)).2 (by
      have e : (1.6 : ℝ) - 0.1 = 1.5 := by norm_num
      have hf : ⌊log10 1.5⌋ = 0 := floor_log10_of_mem_decade (by norm_num) (by norm_num)
      rw [e, hf]
      norm_num)

/-! ## The production floor of the standalone window -/

theorem PlotWindow.calculateOptimalRange_zero_floor_neg {maxY : ℝ} (h : 0 < maxY) :
    (PlotWindow.calculateOptimalRange 0 maxY false).1 < 0 := by
  rw [PlotWindow.calculateOptimalRange_linear_aligned h]
  exact alignedRange_fst_neg (linearTickInterval_bounds _).1 (le_refl 0)
    (linearTickInterval_bounds _).1 h

theorem linearTickInterval_hundred : linearTickInterval 100 = 20 := by
  have hf : ⌊log10 100⌋ = 2 := by
    rw [log10_hundred]
    exact_mod_cast Int.floor_intCast (2 : ℤ)
  unfold linearTickInterval
  simp only [hf]
  have hp : pow10 ((2 : ℤ) : ℝ) = 100 := by
    rw [pow10_intCast]
    norm_num
  rw [hp]
  norm_num

theorem alignedRange_zero_hundred : alignedRange 0 100 20 = (-20, 120) := by
  have hc : ⌈(100 : ℝ) / 20⌉ = 5 := by
    rw [Int.ceil_eq_iff]
    norm_num
  have hf2 : ⌊((0 : ℝ) - (5 * 20 - 0) * 0.05) / 20⌋ = -1 := by
    rw [Int.floor_eq_iff]
    norm_num
  have hc2 : ⌈((5 : ℝ) * 20 + (5 * 20 - 0) * 0.05) / 20⌉ = 6 := by
    rw [Int.ceil_eq_iff]
    norm_num
  unfold alignedRange
  simp only [zero_div, Int.floor_zero, Int.cast_zero, zero_mul, hc, Int.cast_ofNat, hf2, hc2]
  norm_num

theorem scanCurves_productionWindow :
    scanCurves productionWindow.m_plotSettings.xAxisType
      productionWindow.m_plotSettings.yAxisType productionWindow.m_curves
      = ⟨1, 2, 50, 100, true⟩ := by
  have hne : AxisType.Linear ≠ AxisType.Logarithmic := by decide
  norm_num [scanCurves, scanCurve, scanSample, productionWindow, curveOf, defaultSettings, hne]

/-- C12 (evaluation of the code). On a `PlotWindow` whose Y title is `产量` (production
data), with Linear axes and the visible curve `x = [1, 2]`, `y = [50, 100]` (so
`minX < maxX` and `0 < minY < maxY`), `calculateDataBounds` calls
`calculateOptimalRange(0, 100, false)`, whose margin step (`-5`) and zero re-alignment
(`floor(-5 / 20) * 20`) give `yMin = -20`, not `0`. -/
theorem PlotWindow.production_floor_below_zero :
    qContains productionWindow.m_plotSettings.yAxisTitle "产量" = true ∧
    productionWindow.calculateDataBounds.m_plotSettings.yMin = -20 ∧
    productionWindow.calculateDataBounds.m_plotSettings.yMax = 120 := by
  have hq : qContains productionWindow.m_plotSettings.yAxisTitle "产量" = true := by decide
  have hc : productionWindow.m_curves.isEmpty = false := rfl
  have hy : productionWindow.m_plotSettings.yAxisType = AxisType.Linear := rfl
  have hb := scanCurves_productionWindow
  have hr : PlotWindow.calculateOptimalRange 0 100 false = (-20, 120) := by
    rw [PlotWindow.calculateOptimalRange_linear_aligned (by norm_num)]
    have e : (100 : ℝ) - 0 = 100 := by norm_num
    rw [e, linearTickInterval_hundred, alignedRange_zero_hundred]
  refine ⟨hq, ?_, ?_⟩
  · simp only [PlotWindow.calculateDataBounds, hc, hb]
    simp only [hq, hy, hr]
    norm_num
  · simp only [PlotWindow.calculateDataBounds, hc, hb]
    simp only [hq, hy, hr]
    norm_num

/-! ## Construction of the step production curve -/

theorem foldl_stepRow_finite (rows : List (ℝ × ℝ)) :
    ∀ st : StepScan,
      (rows.map (Prod.map Sample.finite Sample.finite)).foldl stepRow st =
        { currentTime := st.currentTime + (rows.map Prod.fst).sum,
          xData := st.xData ++ stepXs st.currentTime rows,
          yData := st.yData ++ stepYs rows } := by
  induction rows with
  | nil => intro st; simp [stepXs, stepYs]
  | cons r rest ih =>
    intro st
    simp only [List.map_cons, List.foldl_cons, Prod.map, stepRow, ih, List.sum_cons, stepXs,
      stepYs, List.append_assoc, List.cons_append, List.nil_append, add_assoc]

theorem foldl_stepRow_filter (rows : List (Sample × Sample)) :
    ∀ st : StepScan,
      rows.foldl stepRow st =
        (rows.filter (fun r => PlottingWidget.isValidDataPoint r.1 r.2)).foldl stepRow st := by
  induction rows with
  | nil => intro st; rfl
  | cons r rest ih =>
    intro st
    obtain ⟨x, y⟩ := r
    cases x <;> cases y <;>
      simp [List.filter_cons, PlottingWidget.isValidDataPoint, stepRow, ih]

theorem length_stepXs (rows : List (ℝ × ℝ)) : ∀ t, (stepXs t rows).length = 2 * rows.length := by
  induction rows with
  | nil => intro t; rfl
  | cons r rest ih =>
    intro t
    simp only [stepXs, List.length_cons, ih]
    ring

theorem length_stepYs (rows : List (ℝ × ℝ)) : (stepYs rows).length = 2 * rows.length := by
  induction rows with
  | nil => rfl
  | cons r rest ih =>
    simp only [stepYs, List.length_cons, ih]
    ring

theorem getElem?_stepXs (rows : List (ℝ × ℝ)) :
    ∀ (t : ℝ) (i : ℕ) (r : ℝ × ℝ), rows[i]? = some r →
      (stepXs t rows)[2 * i]? = some (Sample.finite (t + ((rows.take i).map Prod.fst).sum)) ∧
      (stepXs t rows)[2 * i + 1]? =
        some (Sample.finite (t + ((rows.take i).map Prod.fst).sum + r.1)) := by
  induction rows with
  | nil => intro t i r h; simp at h
  | cons a rest ih =>
    intro t i r h
    cases i with
    | zero =>
      simp only [List.getElem?_cons_zero, Option.some.injEq] at h
      subst h
      simp [stepXs]
    | succ j =>
      simp only [List.getElem?_cons_succ] at h
      obtain ⟨h1, h2⟩ := ih (t + a.1) j r h
      have e1 : 2 * (j + 1) = (2 * j + 1) + 1 := by ring
      rw [e1]
      simp only [stepXs, List.getElem?_cons_succ, List.take_succ_cons, List.map_cons,
        List.sum_cons]
      rw [h1, h2]
      refine ⟨?_, ?_⟩ <;> (congr 2; ring)

theorem getElem?_stepYs (rows : List (ℝ × ℝ)) :
    ∀ (i : ℕ) (r : ℝ × ℝ), rows[i]? = some r →
      (stepYs rows)[2 * i]? = some (Sample.finite r.2) ∧
      (stepYs rows)[2 * i + 1]? = some (Sample.finite r.2) := by
  induction rows with
  | nil => intro i r h; simp at h
  | cons a rest ih =>
    intro i r h
    cases i with
    | zero =>
      simp only [List.getElem?_cons_zero, Option.some.injEq] at h
      subst h
      simp [stepYs]
    | succ j =>
      simp only [List.getElem?_cons_succ] at h
      obtain ⟨h1, h2⟩ := ih j r h
      have e1 : 2 * (j + 1) = (2 * j + 1) + 1 := by ring
      have e2 : 2 * (j + 1) + 1 = (2 * j + 1 + 1) + 1 := by ring
      simp only [stepYs, e1, e2, List.getElem?_cons_succ, h1, h2]
      exact ⟨trivial, trivial⟩

theorem sum_take_zip_fst (ds ps : List ℝ) :
    ∀ i : ℕ, i ≤ ps.length → (((List.zip ds ps).take i).map Prod.fst).sum = (ds.take i).sum := by
  induction ds generalizing ps with
  | nil => intro i _; simp
  | cons d rest ih =>
    intro i hi
    cases ps with
    | nil =>
      have : i = 0 := by simpa using hi
      subst this
      simp
    | cons q qs =>
      cases i with
      | zero => simp
      | succ j =>
        have hj : j ≤ qs.length := by simpa using hi
        simpa [List.take_succ_cons, List.map_take] using ih qs j hj

theorem createStepProductionCurve_finite (ds ps : List ℝ) (tx ty : AxisType) (lw psz : ℤ) :
    PlottingWidget.createStepProductionCurve (ds.map Sample.finite) (ps.map Sample.finite)
        tx ty lw psz =
      { xData := stepXs 0 (List.zip ds ps), yData := stepYs (List.zip ds ps), visible := true,
        lineWidth := lw, pointSize := psz, xAxisType := tx, yAxisType := ty,
        drawType := CurveType.Step } := by
  unfold PlottingWidget.createStepProductionCurve
  rw [List.zip_map, foldl_stepRow_finite]
  norm_num

theorem createStepProductionCurve_valid_rows (timeData productionData : List Sample)
    (tx ty : AxisType) (lw psz : ℤ) :
    PlottingWidget.createStepProductionCurve timeData productionData tx ty lw psz =
      PlottingWidget.createStepProductionCurve
        (((List.zip timeData productionData).filter
          (fun r => PlottingWidget.isValidDataPoint r.1 r.2)).map Prod.fst)
        (((List.zip timeData productionData).filter
          (fun r => PlottingWidget.isValidDataPoint r.1 r.2)).map Prod.snd) tx ty lw psz := by
  unfold PlottingWidget.createStepProductionCurve
  rw [← List.zip_of_prod rfl rfl, foldl_stepRow_filter]

/-- C13. Step production curve construction: for finite columns of durations `ds` and
productions `ps` (rows run to the shorter column, `m` rows), `createStepProductionCurve`
returns a Step curve with exactly `2m` X and `2m` Y samples where
`x[2i] = d_0 + ... + d_(i-1)`, `x[2i+1] = x[2i] + d_i`, `y[2i] = y[2i+1] = p_i`, hence
`x[2i+2] = x[2i+1]`.  For arbitrary columns the result is the one built from the valid
rows only: a row with a non-finite entry contributes no samples and does not advance
the accumulated time.  For durations `[5,10]` and values `[10,20]` the result is
`x = [0,5,5,15]`, `y = [10,10,20,20]`. -/
theorem PlottingWidget.createStepProductionCurve_samples (ds ps : List ℝ) (tx ty : AxisType)
    (lw psz : ℤ) :
    (PlottingWidget.createStepProductionCurve (ds.map Sample.finite) (ps.map Sample.finite)
      tx ty lw psz).drawType = CurveType.Step ∧
    (PlottingWidget.createStepProductionCurve (ds.map Sample.finite) (ps.map Sample.finite)
      tx ty lw psz).xData.length = 2 * min ds.length ps.length ∧
    (PlottingWidget.createStepProductionCurve (ds.map Sample.finite) (ps.map Sample.finite)
      tx ty lw psz).yData.length = 2 * min ds.length ps.length ∧
    (∀ (i : ℕ) (d p : ℝ), ds[i]? = some d → ps[i]? = some p →
      (PlottingWidget.createStepProductionCurve (ds.map Sample.finite) (ps.map Sample.finite)
        tx ty lw psz).xData[2 * i]? = some (Sample.finite (ds.take i).sum) ∧
      (PlottingWidget.createStepProductionCurve (ds.map Sample.finite) (ps.map Sample.finite)
        tx ty lw psz).xData[2 * i + 1]? = some (Sample.finite ((ds.take i).sum + d)) ∧
      (PlottingWidget.createStepProductionCurve (ds.map Sample.finite) (ps.map Sample.finite)
        tx ty lw psz).yData[2 * i]? = some (Sample.finite p) ∧
      (PlottingWidget.createStepProductionCurve (ds.map Sample.finite) (ps.map Sample.finite)
        tx ty lw psz).yData[2 * i + 1]? = some (Sample.finite p)) ∧
    (∀ i : ℕ, i + 1 < min ds.length ps.length →
      (PlottingWidget.createStepProductionCurve (ds.map Sample.finite) (ps.map Sample.finite)
        tx ty lw psz).xData[2 * i + 2]? =
      (PlottingWidget.createStepProductionCurve (ds.map Sample.finite) (ps.map Sample.finite)
        tx ty lw psz).xData[2 * i + 1]?) ∧
    (∀ timeData productionData : List Sample,
      PlottingWidget.createStepProductionCurve timeData productionData tx ty lw psz =
        PlottingWidget.createStepProductionCurve
          (((List.zip timeData productionData).filter
            (fun r => PlottingWidget.isValidDataPoint r.1 r.2)).map Prod.fst)
          (((List.zip timeData productionData).filter
            (fun r => PlottingWidget.isValidDataPoint r.1 r.2)).map Prod.snd) tx ty lw psz) ∧
    (PlottingWidget.createStepProductionCurve ([5, 10].map Sample.finite)
      ([10, 20].map Sample.finite) tx ty lw psz).xData = [0, 5, 5, 15].map Sample.finite ∧
    (PlottingWidget.createStepProductionCurve ([5, 10].map Sample.finite)
      ([10, 20].map Sample.finite) tx ty lw psz).yData = [10, 10, 20, 20].map Sample.finite := by
  have key : ∀ (i : ℕ) (d p : ℝ), ds[i]? = some d → ps[i]? = some p →
      (stepXs 0 (List.zip ds ps))[2 * i]? = some (Sample.finite (ds.take i).sum) ∧
      (stepXs 0 (List.zip ds ps))[2 * i + 1]? = some (Sample.finite ((ds.take i).sum + d)) ∧
      (stepYs (List.zip ds ps))[2 * i]? = some (Sample.finite p) ∧
      (stepYs (List.zip ds ps))[2 * i + 1]? = some (Sample.finite p) := by
    intro i d p hd hp
    have hz : (List.zip ds ps)[i]? = some (d, p) := List.getElem?_zip_eq_some.mpr ⟨hd, hp⟩
    have hi : i ≤ ps.length := by
      have := (List.getElem?_eq_some_iff.mp hp).1
      omega
    obtain ⟨h1, h2⟩ := getElem?_stepXs _ 0 i (d, p) hz
    obtain ⟨h3, h4⟩ := getElem?_stepYs _ i (d, p) hz
    rw [sum_take_zip_fst ds ps i hi, zero_add] at h1 h2
    exact ⟨h1, h2, h3, h4⟩
  rw [createStepProductionCurve_finite ds ps, createStepProductionCurve_finite [5, 10] [10, 20]]
  refine ⟨rfl, ?_, ?_, key, ?_, fun t q => createStepProductionCurve_valid_rows t q tx ty lw psz,
    ?_, ?_⟩
  · simp [length_stepXs]
  · simp [length_stepYs]
  · intro i hi
    have hid : i < ds.length := by omega
    have hip : i < ps.length := by omega
    have hid1 : i + 1 < ds.length := by omega
    have hip1 : i + 1 < ps.length := by omega
    obtain ⟨-, h2, -, -⟩ := key i ds[i] ps[i] (List.getElem?_eq_getElem hid)
      (List.getElem?_eq_getElem hip)
    obtain ⟨h1, -, -, -⟩ := key (i + 1) ds[i + 1] ps[i + 1] (List.getElem?_eq_getElem hid1)
      (List.getElem?_eq_getElem hip1)
    have e : 2 * (i + 1) = 2 * i + 2 := by ring
    rw [e] at h1
    show (stepXs 0 (List.zip ds ps))[2 * i + 2]? = (stepXs 0 (List.zip ds ps))[2 * i + 1]?
    rw [h1, h2, List.sum_take_succ ds i hid]
  · norm_num [stepXs]
  · norm_num [stepYs]

/-- C13 at a concrete input: the second row of the durations `[5,10]`, values
`[10,20]`. -/
theorem PlottingWidget.createStepProductionCurve_samples_witness :
    (PlottingWidget.createStepProductionCurve ([5, 10].map Sample.finite)
      ([10, 20].map Sample.finite) AxisType.Linear AxisType.Linear 2 4).xData[2 * 1 + 1]?
      = some (Sample.finite ((([5, 10] : List ℝ).take 1).sum + 10)) :=
  ((PlottingWidget.createStepProductionCurve_samples [5, 10] [10, 20] AxisType.Linear
    AxisType.Linear 2 4).2.2.2.1 1 10 20 rfl rfl).2.1

/-! ## The shared X range of the dual-pane window -/

theorem ceil_log10_of_mem_decade {x : ℝ} {k : ℤ} (h1 : (10 : ℝ) ^ k < x)
    (h2 : x ≤ (10 : ℝ) ^ (k + 1)) : ⌈log10 x⌉ = k + 1 := by
  have hk : (0 : ℝ) < (10 : ℝ) ^ k := zpow_pos (by norm_num) k
  have hx : 0 < x := lt_trans hk h1
  rw [Int.ceil_eq_iff]
  constructor
  · have := log10_lt_log10 hk h1
    rw [log10_zpow] at this
    push_cast
    linarith
  · have := log10_le_log10 hx h2
    rwa [log10_zpow] at this

theorem sharedXRange_log {lo hi : ℝ} (h0 : 0 < lo) (h : lo < hi) :
    DualPlotWindow.sharedXRange AxisType.Logarithmic lo hi =
      (pow10 (⌊log10 lo⌋ : ℝ), pow10 (⌈log10 hi⌉ : ℝ)) := by
  have hr := decade_ratio_ge_ten h0 h
  simp only [DualPlotWindow.sharedXRange, not_lt.mpr hr, if_false, if_true]

theorem scanXCurves_highDualWindow :
    scanXCurves (scanXCurves ⟨1e10, -1e10, false⟩ highDualWindow.m_pressureCurves)
      highDualWindow.m_productionCurves = ⟨1e10, 1e12, true⟩ := by
  norm_num [scanXCurves, scanX, highDualWindow, idleDualPlotWindow, curveOf]

theorem scanXCurves_unionDualWindow :
    scanXCurves (scanXCurves ⟨1e10, -1e10, false⟩ unionDualWindow.m_pressureCurves)
      unionDualWindow.m_productionCurves = ⟨1, 800, true⟩ := by
  norm_num [scanXCurves, scanX, unionDualWindow, idleDualPlotWindow, curveOf]

theorem log10_of_zpow {x : ℝ} (k : ℤ) (h : x = (10 : ℝ) ^ k) : log10 x = k := by
  rw [h, log10_zpow]

theorem sharedXRange_high :
    DualPlotWindow.sharedXRange AxisType.Logarithmic 1e10 1e12 = (1e10, 1e12) := by
  rw [sharedXRange_log (by norm_num) (by norm_num),
    log10_of_zpow 10 (by norm_num), log10_of_zpow 12 (by norm_num), Int.floor_intCast,
    Int.ceil_intCast, pow10_intCast, pow10_intCast]
  norm_num

theorem sharedXRange_union :
    DualPlotWindow.sharedXRange AxisType.Logarithmic 1 800 = (1, 1000) := by
  have hc : ⌈log10 800⌉ = 2 + 1 := ceil_log10_of_mem_decade (by norm_num) (by norm_num)
  rw [sharedXRange_log (by norm_num) (by norm_num), log10_one, hc, Int.floor_zero,
    pow10_intCast, pow10_intCast]
  norm_num

/-- The scenario of the shared X range: with a pressure curve `x = [1, 500]` and a
production curve `x = [2, 800]` on a Logarithmic X axis, `synchronizeXAxis` gives both
panes the X range `[1, 1000]`. -/
theorem DualPlotWindow.synchronizeXAxis_union :
    unionDualWindow.synchronizeXAxis.m_pressureSettings.xMin = 1 ∧
    unionDualWindow.synchronizeXAxis.m_pressureSettings.xMax = 1000 ∧
    unionDualWindow.synchronizeXAxis.m_productionSettings.xMin = 1 ∧
    unionDualWindow.synchronizeXAxis.m_productionSettings.xMax = 1000 := by
  have hb := scanXCurves_unionDualWindow
  have ht : unionDualWindow.m_pressureSettings.xAxisType = AxisType.Logarithmic := rfl
  simp only [DualPlotWindow.synchronizeXAxis, hb]
  simp only [ht, sharedXRange_union]
  norm_num

/-- C14 (evaluation of the code). On a dual window with a Logarithmic X axis whose
finite positive X samples are `1e11` and `1e12` (so `m = 1e11 < M = 1e12`), the scan of
`synchronizeXAxis` starts from `minX = 1e10` and ends with `minX = 1e10`, not `m`: both
panes get `xMin = 1e10` and `xMax = 1e12`, whereas `10^floor(log10 m) = 1e11`. -/
theorem DualPlotWindow.synchronizeXAxis_sentinel :
    highDualWindow.synchronizeXAxis.m_pressureSettings.xMin = 1e10 ∧
    highDualWindow.synchronizeXAxis.m_pressureSettings.xMax = 1e12 ∧
    highDualWindow.synchronizeXAxis.m_productionSettings.xMin = 1e10 ∧
    highDualWindow.synchronizeXAxis.m_productionSettings.xMax = 1e12 ∧
    (10 : ℝ) ^ ⌊log10 1e11⌋ = 1e11 := by
  have hb := scanXCurves_highDualWindow
  have ht : highDualWindow.m_pressureSettings.xAxisType = AxisType.Logarithmic := rfl
  have hf : (10 : ℝ) ^ ⌊log10 1e11⌋ = 1e11 := by
    rw [log10_of_zpow 11 (by norm_num), Int.floor_intCast]
    norm_num
  simp only [DualPlotWindow.synchronizeXAxis, hb]
  simp only [ht, sharedXRange_high, hf]
  norm_num

/-- Whenever `synchronizeXAxis` finds valid data with `minX < maxX`, both panes hold the
identical X range afterwards. -/
theorem DualPlotWindow.synchronizeXAxis_identical (w : DualPlotWindow)
    (h : (scanXCurves (scanXCurves ⟨1e10, -1e10, false⟩ w.m_pressureCurves)
        w.m_productionCurves).hasValidData = true ∧
      (scanXCurves (scanXCurves ⟨1e10, -1e10, false⟩ w.m_pressureCurves)
        w.m_productionCurves).minX <
      (scanXCurves (scanXCurves ⟨1e10, -1e10, false⟩ w.m_pressureCurves)
        w.m_productionCurves).maxX) :
    w.synchronizeXAxis.m_pressureSettings.xMin = w.synchronizeXAxis.m_productionSettings.xMin ∧
    w.synchronizeXAxis.m_pressureSettings.xMax = w.synchronizeXAxis.m_productionSettings.xMax := by
  simp only [DualPlotWindow.synchronizeXAxis, h, and_self, if_true]

/-! ## Synchronized zoom of the dual-pane window -/

/-- C15. Synchronized zoom copies the X range: a `DualPlotWindow` is constructed with
`syncZoom` on and `syncPan` off, and while `syncZoom` is on, after a wheel zoom at a
point inside one pane's plot area, or after releasing a non-empty selection rectangle on
one pane, the other pane's `xMin` and `xMax` equal the acting pane's resulting `xMin`
and `xMax`, in both directions. -/
theorem DualPlotWindow.syncZoom_copies_x_range (w : DualPlotWindow)
    (hs : w.m_syncZoom = true) :
    DualPlotWindow.constructed.m_syncZoom = true ∧
    DualPlotWindow.constructed.m_syncPan = false ∧
    (∀ (pos : QPoint) (angleDeltaY : ℤ), w.m_pressurePlotArea.contains pos = true →
      (w.onPressureWheel pos angleDeltaY).m_productionSettings.xMin =
        (w.onPressureWheel pos angleDeltaY).m_pressureSettings.xMin ∧
      (w.onPressureWheel pos angleDeltaY).m_productionSettings.xMax =
        (w.onPressureWheel pos angleDeltaY).m_pressureSettings.xMax) ∧
    (∀ (pos : QPoint) (angleDeltaY : ℤ), w.m_productionPlotArea.contains pos = true →
      (w.onProductionWheel pos angleDeltaY).m_pressureSettings.xMin =
        (w.onProductionWheel pos angleDeltaY).m_productionSettings.xMin ∧
      (w.onProductionWheel pos angleDeltaY).m_pressureSettings.xMax =
        (w.onProductionWheel pos angleDeltaY).m_productionSettings.xMax) ∧
    (w.m_pressureSelecting = true → w.m_pressureSelectionRect.isEmpty = false →
      w.onPressureMouseRelease.m_productionSettings.xMin =
        w.onPressureMouseRelease.m_pressureSettings.xMin ∧
      w.onPressureMouseRelease.m_productionSettings.xMax =
        w.onPressureMouseRelease.m_pressureSettings.xMax) ∧
    (w.m_productionSelecting = true → w.m_productionSelectionRect.isEmpty = false →
      w.onProductionMouseRelease.m_pressureSettings.xMin =
        w.onProductionMouseRelease.m_productionSettings.xMin ∧
      w.onProductionMouseRelease.m_pressureSettings.xMax =
        w.onProductionMouseRelease.m_productionSettings.xMax) := by
  refine ⟨rfl, rfl, ?_, ?_, ?_, ?_⟩
  · intro pos a hc
    have h1 : (w.zoomPressureAtPoint pos.toPointF (1.0 + (a : ℝ) / 1200.0)).m_syncZoom = true := hs
    simp only [DualPlotWindow.onPressureWheel, hc, if_true, h1, and_self]
  · intro pos a hc
    have h1 : (w.zoomProductionAtPoint pos.toPointF (1.0 + (a : ℝ) / 1200.0)).m_syncZoom = true :=
      hs
    simp only [DualPlotWindow.onProductionWheel, hc, if_true, h1, and_self]
  · intro h1 h2
    simp [DualPlotWindow.onPressureMouseRelease, h1, h2, hs]
  · intro h1 h2
    simp [DualPlotWindow.onProductionMouseRelease, h1, h2, hs]

/-- C15 at a concrete input: a wheel step of `120` at the pixel `(160, 130)` of the
pressure pane of a window on the default range. -/
theorem DualPlotWindow.syncZoom_copies_x_range_witness :
    ((idleDualPlotWindow defaultSettings).onPressureWheel ⟨160, 130⟩ 120).m_productionSettings.xMin
      = ((idleDualPlotWindow defaultSettings).onPressureWheel ⟨160, 130⟩ 120).m_pressureSettings.xMin :=
  ((DualPlotWindow.syncZoom_copies_x_range (idleDualPlotWindow defaultSettings) rfl).2.2.1
    ⟨160, 130⟩ 120 (by decide)).1

/-! ## The Y ranges of the two panes -/

theorem DualPlotWindow.pressure_ops_production_y (w : DualPlotWindow)
    (normalized : QRect → QRect) :
    (∀ (pos : QPoint) (leftButton ctrl : Bool),
      SameYRange (w.onPressureMousePress pos leftButton ctrl).m_productionSettings
        w.m_productionSettings) ∧
    SameYRange w.onPressureMouseRelease.m_productionSettings w.m_productionSettings ∧
    (∀ (pos : QPoint) (angleDeltaY : ℤ),
      SameYRange (w.onPressureWheel pos angleDeltaY).m_productionSettings
        w.m_productionSettings) ∧
    (∀ pos : QPoint, w.m_syncPan = false →
      SameYRange (w.onPressureMouseMove normalized pos).m_productionSettings
        w.m_productionSettings) ∧
    (∀ pos : QPoint, w.m_syncPan = true → w.m_pressureSelecting = false →
      w.m_pressureDragging = true → w.m_pressurePanning = true →
      (w.onPressureMouseMove normalized pos).m_productionSettings =
        (w.panProductionView (pos.sub w.m_lastPressureMousePos).toPointF).m_productionSettings) := by
  refine ⟨?_, ?_, ?_, ?_, ?_⟩
  · intro pos lb ctrl
    simp only [DualPlotWindow.onPressureMousePress]
    split_ifs <;> exact ⟨rfl, rfl⟩
  · simp only [DualPlotWindow.onPressureMouseRelease]
    split_ifs <;> exact ⟨rfl, rfl⟩
  · intro pos a
    simp only [DualPlotWindow.onPressureWheel]
    split_ifs <;> exact ⟨rfl, rfl⟩
  · intro pos hp
    have h1 : ∀ d, (w.panPressureView d).m_syncPan = false := fun _ => hp
    simp only [DualPlotWindow.onPressureMouseMove, h1, Bool.false_eq_true, if_false]
    split_ifs <;> exact ⟨rfl, rfl⟩
  · intro pos hp hs hd hpn
    have h1 : ∀ d, (w.panPressureView d).m_syncPan = true := fun _ => hp
    simp only [DualPlotWindow.onPressureMouseMove, hs, hd, hpn, h1, Bool.and_self, if_true,
      Bool.false_eq_true, if_false]
    rfl

theorem DualPlotWindow.production_ops_pressure_y (w : DualPlotWindow)
    (normalized : QRect → QRect) :
    (∀ (pos : QPoint) (leftButton ctrl : Bool),
      SameYRange (w.onProductionMousePress pos leftButton ctrl).m_pressureSettings
        w.m_pressureSettings) ∧
    SameYRange w.onProductionMouseRelease.m_pressureSettings w.m_pressureSettings ∧
    (∀ (pos : QPoint) (angleDeltaY : ℤ),
      SameYRange (w.onProductionWheel pos angleDeltaY).m_pressureSettings
        w.m_pressureSettings) ∧
    (∀ pos : QPoint, w.m_syncPan = false →
      SameYRange (w.onProductionMouseMove normalized pos).m_pressureSettings
        w.m_pressureSettings) ∧
    (∀ pos : QPoint, w.m_syncPan = true → w.m_productionSelecting = false →
      w.m_productionDragging = true → w.m_productionPanning = true →
      (w.onProductionMouseMove normalized pos).m_pressureSettings =
        (w.panPressureView (pos.sub w.m_lastProductionMousePos).toPointF).m_pressureSettings) := by
  refine ⟨?_, ?_, ?_, ?_, ?_⟩
  · intro pos lb ctrl
    simp only [DualPlotWindow.onProductionMousePress]
    split_ifs <;> exact ⟨rfl, rfl⟩
  · simp only [DualPlotWindow.onProductionMouseRelease]
    split_ifs <;> exact ⟨rfl, rfl⟩
  · intro pos a
    simp only [DualPlotWindow.onProductionWheel]
    split_ifs <;> exact ⟨rfl, rfl⟩
  · intro pos hp
    have h1 : ∀ d, (w.panProductionView d).m_syncPan = false := fun _ => hp
    simp only [DualPlotWindow.onProductionMouseMove, h1, Bool.false_eq_true, if_false]
    split_ifs <;> exact ⟨rfl, rfl⟩
  · intro pos hp hs hd hpn
    have h1 : ∀ d, (w.panProductionView d).m_syncPan = true := fun _ => hp
    simp only [DualPlotWindow.onProductionMouseMove, hs, hd, hpn, h1, Bool.and_self, if_true,
      Bool.false_eq_true, if_false]
    rfl

/-- C16 (counterexample). With `syncPan` on, a pan drag on the pressure pane from the
pixel `(100, 100)` to `(100, 120)` replays `panProductionView` with the delta `(0, 20)`:
the production pane's Y range moves from `[0, 100]` to `[12.5, 112.5]`.  (The pan
branch of the handler does not call `QRect::normalized`; the identity is passed for
it.) -/
theorem DualPlotWindow.syncPan_moves_production_y :
    syncPanDragWindow.m_productionSettings.yMin = 0 ∧
    syncPanDragWindow.m_productionSettings.yMax = 100 ∧
    (syncPanDragWindow.onPressureMouseMove id ⟨100, 120⟩).m_productionSettings.yMin = 12.5 ∧
    (syncPanDragWindow.onPressureMouseMove id ⟨100, 120⟩).m_productionSettings.yMax = 112.5 := by
  refine ⟨rfl, rfl, ?_, ?_⟩ <;>
    norm_num [syncPanDragWindow, DualPlotWindow.onPressureMousePress,
      DualPlotWindow.onPressureMouseMove, DualPlotWindow.panPressureView,
      DualPlotWindow.panProductionView, DualPlotWindow.pixelToProductionData,
      DualPlotWindow.pixelToPressureData, idleDualPlotWindow, defaultSettings, QRect.contains,
      QRect.ofSize, QRect.left, QRect.bottom, QRect.width, QRect.height, QPoint.toPointF,
      QPoint.sub, QPointF.sub]

/-- C16 (amended). For every setting of the `syncZoom` and `syncPan` flags, a press, a
release and a wheel event handled for one pane of a `DualPlotWindow` leave the other
pane's `yMin` and `yMax` unchanged, and so does a move when `syncPan` is off.  When
`syncPan` is on, a move during a pan drag replays the pan with the same pixel delta on
the other pane: the other pane's settings become those `panProductionView`
(`panPressureView`) computes for that delta, Y range included. -/
theorem DualPlotWindow.other_pane_y_range (w : DualPlotWindow) (normalized : QRect → QRect) :
    ((∀ (pos : QPoint) (leftButton ctrl : Bool),
        SameYRange (w.onPressureMousePress pos leftButton ctrl).m_productionSettings
          w.m_productionSettings) ∧
      SameYRange w.onPressureMouseRelease.m_productionSettings w.m_productionSettings ∧
      (∀ (pos : QPoint) (angleDeltaY : ℤ),
        SameYRange (w.onPressureWheel pos angleDeltaY).m_productionSettings
          w.m_productionSettings) ∧
      (∀ pos : QPoint, w.m_syncPan = false →
        SameYRange (w.onPressureMouseMove normalized pos).m_productionSettings
          w.m_productionSettings) ∧
      (∀ pos : QPoint, w.m_syncPan = true → w.m_pressureSelecting = false →
        w.m_pressureDragging = true → w.m_pressurePanning = true →
        (w.onPressureMouseMove normalized pos).m_productionSettings =
          (w.panProductionView (pos.sub w.m_lastPressureMousePos).toPointF).m_productionSettings)) ∧
    ((∀ (pos : QPoint) (leftButton ctrl : Bool),
        SameYRange (w.onProductionMousePress pos leftButton ctrl).m_pressureSettings
          w.m_pressureSettings) ∧
      SameYRange w.onProductionMouseRelease.m_pressureSettings w.m_pressureSettings ∧
      (∀ (pos : QPoint) (angleDeltaY : ℤ),
        SameYRange (w.onProductionWheel pos angleDeltaY).m_pressureSettings
          w.m_pressureSettings) ∧
      (∀ pos : QPoint, w.m_syncPan = false →
        SameYRange (w.onProductionMouseMove normalized pos).m_pressureSettings
          w.m_pressureSettings) ∧
      (∀ pos : QPoint, w.m_syncPan = true → w.m_productionSelecting = false →
        w.m_productionDragging = true → w.m_productionPanning = true →
        (w.onProductionMouseMove normalized pos).m_pressureSettings =
          (w.panPressureView (pos.sub w.m_lastProductionMousePos).toPointF).m_pressureSettings)) :=
  ⟨DualPlotWindow.pressure_ops_production_y w normalized,
    DualPlotWindow.production_ops_pressure_y w normalized⟩

/-- C16 (amended) at a concrete input: with `syncPan` off, a pan move on the pressure
pane leaves the production Y range unchanged. -/
theorem DualPlotWindow.other_pane_y_range_witness :
    SameYRange ((idleDualPlotWindow defaultSettings).onPressureMouseMove id
      ⟨100, 120⟩).m_productionSettings (idleDualPlotWindow defaultSettings).m_productionSettings :=
  (DualPlotWindow.other_pane_y_range (idleDualPlotWindow defaultSettings) id).1.2.2.2.1
    ⟨100, 120⟩ rfl

/-! ## Pan as a shift of the range -/

theorem PlottingWidget.panViewX_eq_shiftAxis (w : PlottingWidget) (delta : QPointF) :
    ((w.panViewX delta).m_plotSettings.xMin, (w.panViewX delta).m_plotSettings.xMax) =
      shiftAxis w.m_plotSettings.xAxisType w.m_plotSettings.xMin w.m_plotSettings.xMax
        (-delta.x / (w.m_plotArea.width : ℝ)) := by
  unfold PlottingWidget.panViewX shiftAxis
  by_cases hc : w.m_plotSettings.xAxisType = AxisType.Logarithmic ∧
      w.m_plotSettings.xMin > 0 ∧ w.m_plotSettings.xMax > 0
  · simp only [hc, and_self, if_true]
  · simp only [hc, if_false, PlottingWidget.pixelToData, QPointF.sub, Prod.mk.injEq]
    constructor <;> ring

theorem PlottingWidget.panViewY_eq_shiftAxis (w : PlottingWidget) (delta : QPointF) :
    ((w.panViewY delta).m_plotSettings.yMin, (w.panViewY delta).m_plotSettings.yMax) =
      shiftAxis w.m_plotSettings.yAxisType w.m_plotSettings.yMin w.m_plotSettings.yMax
        (delta.y / (w.m_plotArea.height : ℝ)) := by
  unfold PlottingWidget.panViewY shiftAxis
  by_cases hc : w.m_plotSettings.yAxisType = AxisType.Logarithmic ∧
      w.m_plotSettings.yMin > 0 ∧ w.m_plotSettings.yMax > 0
  · simp only [hc, and_self, if_true]
  · simp only [hc, if_false, PlottingWidget.pixelToData, QPointF.sub, Prod.mk.injEq]
    constructor <;> ring

theorem shiftAxis_linear {t : AxisType} (lo hi s : ℝ) (ht : t = AxisType.Linear) :
    shiftAxis t lo hi s = (lo + s * (hi - lo), hi + s * (hi - lo)) := by
  subst ht
  simp [shiftAxis]

theorem shiftAxis_log {lo hi : ℝ} (s : ℝ) (h0 : 0 < lo) (h1 : 0 < hi) :
    shiftAxis AxisType.Logarithmic lo hi s =
      (pow10 (log10 lo + s * (log10 hi - log10 lo)),
        pow10 (log10 hi + s * (log10 hi - log10 lo))) := by
  simp [shiftAxis, h0, h1]

theorem shiftAxis_domainOk {t : AxisType} {lo hi : ℝ} (s : ℝ) (h : AxisDomainOk t lo hi) :
    AxisDomainOk t (shiftAxis t lo hi s).1 (shiftAxis t lo hi s).2 := by
  intro ht
  subst ht
  obtain ⟨h0, h1⟩ := h rfl
  rw [shiftAxis_log s h0 h1]
  exact ⟨pow10_pos _, pow10_pos _⟩

theorem shiftAxis_span {t : AxisType} {lo hi : ℝ} (s : ℝ) (h : AxisDomainOk t lo hi) :
    axisSpan t (shiftAxis t lo hi s).1 (shiftAxis t lo hi s).2 = axisSpan t lo hi := by
  cases t with
  | Linear =>
    have hne : AxisType.Linear ≠ AxisType.Logarithmic := by decide
    rw [shiftAxis_linear lo hi s rfl]
    simp only [axisSpan, hne, if_false]
    ring
  | Logarithmic =>
    obtain ⟨h0, h1⟩ := h rfl
    rw [shiftAxis_log s h0 h1]
    simp only [axisSpan, if_true, log10_pow10]
    ring

theorem shiftAxis_restore {t : AxisType} {lo hi : ℝ} (s : ℝ) (h : AxisDomainOk t lo hi) :
    shiftAxis t (shiftAxis t lo hi s).1 (shiftAxis t lo hi s).2 (-s) = (lo, hi) := by
  cases t with
  | Linear =>
    rw [shiftAxis_linear lo hi s rfl, shiftAxis_linear _ _ _ rfl]
    simp only [Prod.mk.injEq]
    constructor <;> ring
  | Logarithmic =>
    obtain ⟨h0, h1⟩ := h rfl
    rw [shiftAxis_log s h0 h1, shiftAxis_log _ (pow10_pos _) (pow10_pos _)]
    simp only [log10_pow10]
    have e1 : log10 lo + s * (log10 hi - log10 lo) +
        -s * (log10 hi + s * (log10 hi - log10 lo) - (log10 lo + s * (log10 hi - log10 lo)))
        = log10 lo := by ring
    have e2 : log10 hi + s * (log10 hi - log10 lo) +
        -s * (log10 hi + s * (log10 hi - log10 lo) - (log10 lo + s * (log10 hi - log10 lo)))
        = log10 hi := by ring
    rw [e1, e2, pow10_log10 h0, pow10_log10 h1]

theorem shiftAxis_fst_lt {t : AxisType} {lo hi s : ℝ} (h : AxisDomainOk t lo hi)
    (hlt : lo < hi) (hs : s < 0) : (shiftAxis t lo hi s).1 < lo := by
  cases t with
  | Linear =>
    rw [shiftAxis_linear lo hi s rfl]
    have : s * (hi - lo) < 0 := mul_neg_of_neg_of_pos hs (sub_pos.mpr hlt)
    show lo + s * (hi - lo) < lo
    linarith
  | Logarithmic =>
    obtain ⟨h0, h1⟩ := h rfl
    rw [shiftAxis_log s h0 h1]
    have hl := log10_lt_log10 h0 hlt
    have : s * (log10 hi - log10 lo) < 0 := mul_neg_of_neg_of_pos hs (sub_pos.mpr hl)
    calc pow10 (log10 lo + s * (log10 hi - log10 lo)) < pow10 (log10 lo) :=
          pow10_lt_pow10.mpr (by linarith)
      _ = lo := pow10_log10 h0

theorem PlottingWidget.panViewX_plotArea (w : PlottingWidget) (delta : QPointF) :
    (w.panViewX delta).m_plotArea = w.m_plotArea ∧
    (w.panViewX delta).m_plotSettings.xAxisType = w.m_plotSettings.xAxisType := by
  unfold PlottingWidget.panViewX
  simp only []
  split_ifs <;> exact ⟨rfl, rfl⟩

theorem PlottingWidget.panViewY_plotArea (w : PlottingWidget) (delta : QPointF) :
    (w.panViewY delta).m_plotArea = w.m_plotArea ∧
    (w.panViewY delta).m_plotSettings.yAxisType = w.m_plotSettings.yAxisType := by
  unfold PlottingWidget.panViewY
  simp only []
  split_ifs <;> exact ⟨rfl, rfl⟩

theorem PlottingWidget.panView_frame (w : PlottingWidget) (delta : QPointF) :
    (w.panView delta).m_plotArea = w.m_plotArea ∧
    (w.panView delta).m_plotSettings.xAxisType = w.m_plotSettings.xAxisType ∧
    (w.panView delta).m_plotSettings.yAxisType = w.m_plotSettings.yAxisType := by
  unfold PlottingWidget.panView
  obtain ⟨a1, a2⟩ := PlottingWidget.panViewX_plotArea w delta
  obtain ⟨b1, b2⟩ := PlottingWidget.panViewY_plotArea (w.panViewX delta) delta
  obtain ⟨c1, -, -⟩ := PlottingWidget.panViewX_y w delta
  obtain ⟨d1, -, -⟩ := PlottingWidget.panViewY_x (w.panViewX delta) delta
  exact ⟨b1.trans a1, d1.trans a2, b2.trans c1⟩

theorem PlottingWidget.panView_eq_shiftAxis (w : PlottingWidget) (delta : QPointF) :
    ((w.panView delta).m_plotSettings.xMin, (w.panView delta).m_plotSettings.xMax) =
      shiftAxis w.m_plotSettings.xAxisType w.m_plotSettings.xMin w.m_plotSettings.xMax
        (-delta.x / (w.m_plotArea.width : ℝ)) ∧
    ((w.panView delta).m_plotSettings.yMin, (w.panView delta).m_plotSettings.yMax) =
      shiftAxis w.m_plotSettings.yAxisType w.m_plotSettings.yMin w.m_plotSettings.yMax
        (delta.y / (w.m_plotArea.height : ℝ)) := by
  unfold PlottingWidget.panView
  obtain ⟨a1, -⟩ := PlottingWidget.panViewX_plotArea w delta
  obtain ⟨c1, c2, c3⟩ := PlottingWidget.panViewX_y w delta
  obtain ⟨-, d2, d3⟩ := PlottingWidget.panViewY_x (w.panViewX delta) delta
  constructor
  · rw [d2, d3]
    exact PlottingWidget.panViewX_eq_shiftAxis w delta
  · rw [PlottingWidget.panViewY_eq_shiftAxis, a1, c1, c2, c3]

/-- C17. Pan shifts the visible range without changing its span: for
`PlottingWidget::panView(delta)` on a plot area of width `W > 0` and height `H > 0`, a
Linear X axis gets `xMin' = xMin - delta.x/W * (xMax - xMin)` and
`xMax' = xMax - delta.x/W * (xMax - xMin)`; a Logarithmic X axis with positive bounds
gets `log10` of both bounds shifted by `-delta.x/W * (log10 xMax - log10 xMin)`; the Y
axis is shifted by `+delta.y/H` times its span (log-span under Logarithmic); the span of
each axis is unchanged.  Hence dragging right (`delta.x > 0`) lowers `xMin`, and
`panView(delta)` followed by `panView(-delta)` restores the range. -/
theorem PlottingWidget.panView_shifts_range (w : PlottingWidget) (delta : QPointF)
    (hw : 0 < w.m_plotArea.width) (_hh : 0 < w.m_plotArea.height) :
    (w.m_plotSettings.xAxisType = AxisType.Linear →
      (w.panView delta).m_plotSettings.xMin = w.m_plotSettings.xMin -
        delta.x / (w.m_plotArea.width : ℝ) * (w.m_plotSettings.xMax - w.m_plotSettings.xMin) ∧
      (w.panView delta).m_plotSettings.xMax = w.m_plotSettings.xMax -
        delta.x / (w.m_plotArea.width : ℝ) * (w.m_plotSettings.xMax - w.m_plotSettings.xMin)) ∧
    (w.m_plotSettings.xAxisType = AxisType.Logarithmic → 0 < w.m_plotSettings.xMin →
      0 < w.m_plotSettings.xMax →
      log10 (w.panView delta).m_plotSettings.xMin = log10 w.m_plotSettings.xMin -
        delta.x / (w.m_plotArea.width : ℝ) *
          (log10 w.m_plotSettings.xMax - log10 w.m_plotSettings.xMin) ∧
      log10 (w.panView delta).m_plotSettings.xMax = log10 w.m_plotSettings.xMax -
        delta.x / (w.m_plotArea.width : ℝ) *
          (log10 w.m_plotSettings.xMax - log10 w.m_plotSettings.xMin)) ∧
    (w.m_plotSettings.yAxisType = AxisType.Linear →
      (w.panView delta).m_plotSettings.yMin = w.m_plotSettings.yMin +
        delta.y / (w.m_plotArea.height : ℝ) * (w.m_plotSettings.yMax - w.m_plotSettings.yMin) ∧
      (w.panView delta).m_plotSettings.yMax = w.m_plotSettings.yMax +
        delta.y / (w.m_plotArea.height : ℝ) * (w.m_plotSettings.yMax - w.m_plotSettings.yMin)) ∧
    (w.m_plotSettings.yAxisType = AxisType.Logarithmic → 0 < w.m_plotSettings.yMin →
      0 < w.m_plotSettings.yMax →
      log10 (w.panView delta).m_plotSettings.yMin = log10 w.m_plotSettings.yMin +
        delta.y / (w.m_plotArea.height : ℝ) *
          (log10 w.m_plotSettings.yMax - log10 w.m_plotSettings.yMin) ∧
      log10 (w.panView delta).m_plotSettings.yMax = log10 w.m_plotSettings.yMax +
        delta.y / (w.m_plotArea.height : ℝ) *
          (log10 w.m_plotSettings.yMax - log10 w.m_plotSettings.yMin)) ∧
    (AxisDomainOk w.m_plotSettings.xAxisType w.m_plotSettings.xMin w.m_plotSettings.xMax →
      axisSpan w.m_plotSettings.xAxisType (w.panView delta).m_plotSettings.xMin
        (w.panView delta).m_plotSettings.xMax =
      axisSpan w.m_plotSettings.xAxisType w.m_plotSettings.xMin w.m_plotSettings.xMax) ∧
    (AxisDomainOk w.m_plotSettings.yAxisType w.m_plotSettings.yMin w.m_plotSettings.yMax →
      axisSpan w.m_plotSettings.yAxisType (w.panView delta).m_plotSettings.yMin
        (w.panView delta).m_plotSettings.yMax =
      axisSpan w.m_plotSettings.yAxisType w.m_plotSettings.yMin w.m_plotSettings.yMax) ∧
    (AxisDomainOk w.m_plotSettings.xAxisType w.m_plotSettings.xMin w.m_plotSettings.xMax →
      w.m_plotSettings.xMin < w.m_plotSettings.xMax → 0 < delta.x →
      (w.panView delta).m_plotSettings.xMin < w.m_plotSettings.xMin) ∧
    (AxisDomainOk w.m_plotSettings.xAxisType w.m_plotSettings.xMin w.m_plotSettings.xMax →
      AxisDomainOk w.m_plotSettings.yAxisType w.m_plotSettings.yMin w.m_plotSettings.yMax →
      ((w.panView delta).panView ⟨-delta.x, -delta.y⟩).m_plotSettings.xMin
        = w.m_plotSettings.xMin ∧
      ((w.panView delta).panView ⟨-delta.x, -delta.y⟩).m_plotSettings.xMax
        = w.m_plotSettings.xMax ∧
      ((w.panView delta).panView ⟨-delta.x, -delta.y⟩).m_plotSettings.yMin
        = w.m_plotSettings.yMin ∧
      ((w.panView delta).panView ⟨-delta.x, -delta.y⟩).m_plotSettings.yMax
        = w.m_plotSettings.yMax) := by
  obtain ⟨hX, hY⟩ := PlottingWidget.panView_eq_shiftAxis w delta
  have hx1 := congrArg Prod.fst hX
  have hx2 := congrArg Prod.snd hX
  have hy1 := congrArg Prod.fst hY
  have hy2 := congrArg Prod.snd hY
  simp only at hx1 hx2 hy1 hy2
  have hw0 : (0 : ℝ) < (w.m_plotArea.width : ℝ) := by exact_mod_cast hw
  refine ⟨?_, ?_, ?_, ?_, ?_, ?_, ?_, ?_⟩
  · intro ht
    rw [hx1, hx2, shiftAxis_linear _ _ _ ht]
    constructor <;> ring
  · intro ht h0 h1
    rw [hx1, hx2, ht, shiftAxis_log _ h0 h1]
    simp only [log10_pow10]
    constructor <;> ring
  · intro ht
    rw [hy1, hy2, shiftAxis_linear _ _ _ ht]
    constructor <;> rfl
  · intro ht h0 h1
    rw [hy1, hy2, ht, shiftAxis_log _ h0 h1]
    exact ⟨log10_pow10 _, log10_pow10 _⟩
  · intro hd
    rw [hx1, hx2]
    exact shiftAxis_span _ hd
  · intro hd
    rw [hy1, hy2]
    exact shiftAxis_span _ hd
  · intro hd hlt hdx
    rw [hx1]
    apply shiftAxis_fst_lt hd hlt
    have : 0 < delta.x / (w.m_plotArea.width : ℝ) := div_pos hdx hw0
    rw [neg_div]
    linarith
  · intro hdx hdy
    obtain ⟨f1, f2, f3⟩ := PlottingWidget.panView_frame w delta
    obtain ⟨gX, gY⟩ := PlottingWidget.panView_eq_shiftAxis (w.panView delta) ⟨-delta.x, -delta.y⟩
    rw [f1, f2] at gX
    rw [f1, f3] at gY
    simp only at gX gY
    have eX : - -delta.x / (w.m_plotArea.width : ℝ) = -(-delta.x / (w.m_plotArea.width : ℝ)) := by
      ring
    have eY : -delta.y / (w.m_plotArea.height : ℝ) = -(delta.y / (w.m_plotArea.height : ℝ)) := by
      ring
    rw [hx1, hx2, eX, shiftAxis_restore _ hdx] at gX
    rw [hy1, hy2, eY, shiftAxis_restore _ hdy] at gY
    exact ⟨congrArg Prod.fst gX, congrArg Prod.snd gX, congrArg Prod.fst gY,
      congrArg Prod.snd gY⟩

/-- C17 at a concrete input: the default widget panned by `(32, -16)` pixels. -/
theorem PlottingWidget.panView_shifts_range_witness :
    ((idleWidget defaultSettings).panView ⟨32, -16⟩).m_plotSettings.xMin =
      (idleWidget defaultSettings).m_plotSettings.xMin -
        (32 : ℝ) / ((idleWidget defaultSettings).m_plotArea.width : ℝ) *
          ((idleWidget defaultSettings).m_plotSettings.xMax -
            (idleWidget defaultSettings).m_plotSettings.xMin) :=
  ((PlottingWidget.panView_shifts_range (idleWidget defaultSettings) ⟨32, -16⟩ (by decide)
    (by decide)).1 rfl).1

/-! ## Per-axis zoom about the axis centre -/

theorem PlottingWidget.zoomXIn_eq_centreZoomAxis (w : PlottingWidget) :
    (w.zoomXIn.m_plotSettings.xMin, w.zoomXIn.m_plotSettings.xMax) =
      centreZoomAxis w.m_plotSettings.xAxisType w.m_plotSettings.xMin
        w.m_plotSettings.xMax (fun r => r / 1.25) ∧
    w.zoomXIn.m_plotSettings.yMin = w.m_plotSettings.yMin ∧
    w.zoomXIn.m_plotSettings.yMax = w.m_plotSettings.yMax ∧
    w.zoomXIn.m_plotSettings.xAxisType = w.m_plotSettings.xAxisType ∧
    w.zoomXIn.m_plotSettings.yAxisType = w.m_plotSettings.yAxisType := by
  unfold PlottingWidget.zoomXIn centreZoomAxis
  by_cases hc : w.m_plotSettings.xAxisType = AxisType.Logarithmic ∧
      w.m_plotSettings.xMin > 0 ∧ w.m_plotSettings.xMax > 0
  · simp only [hc, and_self, if_true]
  · simp only [hc, if_false, and_self]

theorem PlottingWidget.zoomXOut_eq_centreZoomAxis (w : PlottingWidget) :
    (w.zoomXOut.m_plotSettings.xMin, w.zoomXOut.m_plotSettings.xMax) =
      centreZoomAxis w.m_plotSettings.xAxisType w.m_plotSettings.xMin
        w.m_plotSettings.xMax (fun r => r * 1.25) ∧
    w.zoomXOut.m_plotSettings.yMin = w.m_plotSettings.yMin ∧
    w.zoomXOut.m_plotSettings.yMax = w.m_plotSettings.yMax ∧
    w.zoomXOut.m_plotSettings.xAxisType = w.m_plotSettings.xAxisType ∧
    w.zoomXOut.m_plotSettings.yAxisType = w.m_plotSettings.yAxisType := by
  unfold PlottingWidget.zoomXOut centreZoomAxis
  by_cases hc : w.m_plotSettings.xAxisType = AxisType.Logarithmic ∧
      w.m_plotSettings.xMin > 0 ∧ w.m_plotSettings.xMax > 0
  · simp only [hc, and_self, if_true]
  · simp only [hc, if_false, and_self]

theorem PlottingWidget.zoomYIn_eq_centreZoomAxis (w : PlottingWidget) :
    (w.zoomYIn.m_plotSettings.yMin, w.zoomYIn.m_plotSettings.yMax) =
      centreZoomAxis w.m_plotSettings.yAxisType w.m_plotSettings.yMin
        w.m_plotSettings.yMax (fun r => r / 1.25) ∧
    w.zoomYIn.m_plotSettings.xMin = w.m_plotSettings.xMin ∧
    w.zoomYIn.m_plotSettings.xMax = w.m_plotSettings.xMax ∧
    w.zoomYIn.m_plotSettings.xAxisType = w.m_plotSettings.xAxisType ∧
    w.zoomYIn.m_plotSettings.yAxisType = w.m_plotSettings.yAxisType := by
  unfold PlottingWidget.zoomYIn centreZoomAxis
  by_cases hc : w.m_plotSettings.yAxisType = AxisType.Logarithmic ∧
      w.m_plotSettings.yMin > 0 ∧ w.m_plotSettings.yMax > 0
  · simp only [hc, and_self, if_true]
  · simp only [hc, if_false, and_self]

theorem PlottingWidget.zoomYOut_eq_centreZoomAxis (w : PlottingWidget) :
    (w.zoomYOut.m_plotSettings.yMin, w.zoomYOut.m_plotSettings.yMax) =
      centreZoomAxis w.m_plotSettings.yAxisType w.m_plotSettings.yMin
        w.m_plotSettings.yMax (fun r => r * 1.25) ∧
    w.zoomYOut.m_plotSettings.xMin = w.m_plotSettings.xMin ∧
    w.zoomYOut.m_plotSettings.xMax = w.m_plotSettings.xMax ∧
    w.zoomYOut.m_plotSettings.xAxisType = w.m_plotSettings.xAxisType ∧
    w.zoomYOut.m_plotSettings.yAxisType = w.m_plotSettings.yAxisType := by
  unfold PlottingWidget.zoomYOut centreZoomAxis
  by_cases hc : w.m_plotSettings.yAxisType = AxisType.Logarithmic ∧
      w.m_plotSettings.yMin > 0 ∧ w.m_plotSettings.yMax > 0
  · simp only [hc, and_self, if_true]
  · simp only [hc, if_false, and_self]

theorem centreZoomAxis_linear {t : AxisType} (lo hi : ℝ) (scale : ℝ → ℝ)
    (ht : t = AxisType.Linear) :
    centreZoomAxis t lo hi scale =
      ((lo + hi) / 2 - scale (hi - lo) / 2, (lo + hi) / 2 + scale (hi - lo) / 2) := by
  subst ht
  simp [centreZoomAxis]

theorem centreZoomAxis_log {lo hi : ℝ} (scale : ℝ → ℝ) (h0 : 0 < lo) (h1 : 0 < hi) :
    centreZoomAxis AxisType.Logarithmic lo hi scale =
      (pow10 ((log10 lo + log10 hi) / 2 - scale (log10 hi - log10 lo) / 2),
        pow10 ((log10 lo + log10 hi) / 2 + scale (log10 hi - log10 lo) / 2)) := by
  simp [centreZoomAxis, h0, h1]

theorem centreZoomAxis_centre_span {t : AxisType} {lo hi : ℝ} (scale : ℝ → ℝ)
    (h : AxisDomainOk t lo hi) :
    axisCentre t (centreZoomAxis t lo hi scale).1 (centreZoomAxis t lo hi scale).2
      = axisCentre t lo hi ∧
    axisSpan t (centreZoomAxis t lo hi scale).1 (centreZoomAxis t lo hi scale).2
      = scale (axisSpan t lo hi) := by
  cases t with
  | Linear =>
    have hne : AxisType.Linear ≠ AxisType.Logarithmic := by decide
    rw [centreZoomAxis_linear lo hi scale rfl]
    simp only [axisCentre, axisSpan, hne, if_false]
    constructor <;> ring
  | Logarithmic =>
    obtain ⟨h0, h1⟩ := h rfl
    rw [centreZoomAxis_log scale h0 h1]
    simp only [axisCentre, axisSpan, if_true, log10_pow10]
    constructor <;> ring

theorem centreZoomAxis_restore {t : AxisType} {lo hi : ℝ} (h : AxisDomainOk t lo hi) :
    centreZoomAxis t (centreZoomAxis t lo hi (fun r => r / 1.25)).1
      (centreZoomAxis t lo hi (fun r => r / 1.25)).2 (fun r => r * 1.25) = (lo, hi) := by
  cases t with
  | Linear =>
    rw [centreZoomAxis_linear lo hi _ rfl, centreZoomAxis_linear _ _ _ rfl]
    simp only [Prod.mk.injEq]
    constructor <;> ring
  | Logarithmic =>
    obtain ⟨h0, h1⟩ := h rfl
    rw [centreZoomAxis_log _ h0 h1, centreZoomAxis_log _ (pow10_pos _) (pow10_pos _)]
    simp only [log10_pow10]
    have e1 : ((log10 lo + log10 hi) / 2 - (log10 hi - log10 lo) / 1.25 / 2 +
        ((log10 lo + log10 hi) / 2 + (log10 hi - log10 lo) / 1.25 / 2)) / 2 -
        ((log10 lo + log10 hi) / 2 + (log10 hi - log10 lo) / 1.25 / 2 -
          ((log10 lo + log10 hi) / 2 - (log10 hi - log10 lo) / 1.25 / 2)) * 1.25 / 2
        = log10 lo := by ring
    have e2 : ((log10 lo + log10 hi) / 2 - (log10 hi - log10 lo) / 1.25 / 2 +
        ((log10 lo + log10 hi) / 2 + (log10 hi - log10 lo) / 1.25 / 2)) / 2 +
        ((log10 lo + log10 hi) / 2 + (log10 hi - log10 lo) / 1.25 / 2 -
          ((log10 lo + log10 hi) / 2 - (log10 hi - log10 lo) / 1.25 / 2)) * 1.25 / 2
        = log10 hi := by ring
    rw [e1, e2, pow10_log10 h0, pow10_log10 h1]

/-- C18. Per-axis zoom touches only its own axis and is anchored at the axis centre:
on an X axis that is Linear, or Logarithmic with positive bounds, `zoomXIn` leaves
`yMin` and `yMax` unchanged, keeps the X centre fixed (`(xMin + xMax)/2`, or
`(log10 xMin + log10 xMax)/2` on a Logarithmic axis) and divides the X span (log-span)
by `1.25`; `zoomXOut` multiplies it by `1.25`, and `zoomXIn` followed by `zoomXOut`
restores `xMin` and `xMax`.  The same holds for `zoomYIn` / `zoomYOut` with the axes
exchanged. -/
theorem PlottingWidget.axis_zoom_about_centre (w : PlottingWidget)
    (hx : AxisDomainOk w.m_plotSettings.xAxisType w.m_plotSettings.xMin w.m_plotSettings.xMax)
    (hy : AxisDomainOk w.m_plotSettings.yAxisType w.m_plotSettings.yMin w.m_plotSettings.yMax) :
    (w.zoomXIn.m_plotSettings.yMin = w.m_plotSettings.yMin ∧
      w.zoomXIn.m_plotSettings.yMax = w.m_plotSettings.yMax ∧
      axisCentre w.m_plotSettings.xAxisType w.zoomXIn.m_plotSettings.xMin
        w.zoomXIn.m_plotSettings.xMax =
        axisCentre w.m_plotSettings.xAxisType w.m_plotSettings.xMin
          w.m_plotSettings.xMax ∧
      axisSpan w.m_plotSettings.xAxisType w.zoomXIn.m_plotSettings.xMin
        w.zoomXIn.m_plotSettings.xMax =
        axisSpan w.m_plotSettings.xAxisType w.m_plotSettings.xMin
          w.m_plotSettings.xMax / 1.25 ∧
      w.zoomXOut.m_plotSettings.yMin = w.m_plotSettings.yMin ∧
      w.zoomXOut.m_plotSettings.yMax = w.m_plotSettings.yMax ∧
      axisCentre w.m_plotSettings.xAxisType w.zoomXOut.m_plotSettings.xMin
        w.zoomXOut.m_plotSettings.xMax =
        axisCentre w.m_plotSettings.xAxisType w.m_plotSettings.xMin
          w.m_plotSettings.xMax ∧
      axisSpan w.m_plotSettings.xAxisType w.zoomXOut.m_plotSettings.xMin
        w.zoomXOut.m_plotSettings.xMax =
        axisSpan w.m_plotSettings.xAxisType w.m_plotSettings.xMin
          w.m_plotSettings.xMax * 1.25 ∧
      w.zoomXIn.zoomXOut.m_plotSettings.xMin = w.m_plotSettings.xMin ∧
      w.zoomXIn.zoomXOut.m_plotSettings.xMax = w.m_plotSettings.xMax) ∧
    (w.zoomYIn.m_plotSettings.xMin = w.m_plotSettings.xMin ∧
      w.zoomYIn.m_plotSettings.xMax = w.m_plotSettings.xMax ∧
      axisCentre w.m_plotSettings.yAxisType w.zoomYIn.m_plotSettings.yMin
        w.zoomYIn.m_plotSettings.yMax =
        axisCentre w.m_plotSettings.yAxisType w.m_plotSettings.yMin
          w.m_plotSettings.yMax ∧
      axisSpan w.m_plotSettings.yAxisType w.zoomYIn.m_plotSettings.yMin
        w.zoomYIn.m_plotSettings.yMax =
        axisSpan w.m_plotSettings.yAxisType w.m_plotSettings.yMin
          w.m_plotSettings.yMax / 1.25 ∧
      w.zoomYOut.m_plotSettings.xMin = w.m_plotSettings.xMin ∧
      w.zoomYOut.m_plotSettings.xMax = w.m_plotSettings.xMax ∧
      axisCentre w.m_plotSettings.yAxisType w.zoomYOut.m_plotSettings.yMin
        w.zoomYOut.m_plotSettings.yMax =
        axisCentre w.m_plotSettings.yAxisType w.m_plotSettings.yMin
          w.m_plotSettings.yMax ∧
      axisSpan w.m_plotSettings.yAxisType w.zoomYOut.m_plotSettings.yMin
        w.zoomYOut.m_plotSettings.yMax =
        axisSpan w.m_plotSettings.yAxisType w.m_plotSettings.yMin
          w.m_plotSettings.yMax * 1.25 ∧
      w.zoomYIn.zoomYOut.m_plotSettings.yMin = w.m_plotSettings.yMin ∧
      w.zoomYIn.zoomYOut.m_plotSettings.yMax = w.m_plotSettings.yMax) := by
  constructor
  · obtain ⟨eI, fI1, fI2, txI, tyI⟩ := PlottingWidget.zoomXIn_eq_centreZoomAxis w
    obtain ⟨eO, fO1, fO2, -, -⟩ := PlottingWidget.zoomXOut_eq_centreZoomAxis w
    obtain ⟨eBoth, -, -, -, -⟩ := PlottingWidget.zoomXOut_eq_centreZoomAxis w.zoomXIn
    have cI := centreZoomAxis_centre_span (fun r => r / 1.25) hx
    have cO := centreZoomAxis_centre_span (fun r => r * 1.25) hx
    have r := centreZoomAxis_restore hx
    rw [← eI] at cI r
    rw [← eO] at cO
    rw [txI, r] at eBoth
    exact ⟨fI1, fI2, cI.1, cI.2, fO1, fO2, cO.1, cO.2, congrArg Prod.fst eBoth,
      congrArg Prod.snd eBoth⟩
  · obtain ⟨eI, fI1, fI2, txI, tyI⟩ := PlottingWidget.zoomYIn_eq_centreZoomAxis w
    obtain ⟨eO, fO1, fO2, -, -⟩ := PlottingWidget.zoomYOut_eq_centreZoomAxis w
    obtain ⟨eBoth, -, -, -, -⟩ := PlottingWidget.zoomYOut_eq_centreZoomAxis w.zoomYIn
    have cI := centreZoomAxis_centre_span (fun r => r / 1.25) hy
    have cO := centreZoomAxis_centre_span (fun r => r * 1.25) hy
    have r := centreZoomAxis_restore hy
    rw [← eI] at cI r
    rw [← eO] at cO
    rw [tyI, r] at eBoth
    exact ⟨fI1, fI2, cI.1, cI.2, fO1, fO2, cO.1, cO.2, congrArg Prod.fst eBoth,
      congrArg Prod.snd eBoth⟩

theorem axisDomainOk_logLogSettings :
    AxisDomainOk logLogSettings.xAxisType logLogSettings.xMin logLogSettings.xMax ∧
    AxisDomainOk logLogSettings.yAxisType logLogSettings.yMin logLogSettings.yMax := by
  constructor <;> intro _ <;> norm_num [logLogSettings]

/-- C18 at a concrete input: `zoomXIn` then `zoomXOut` on the log-log widget. -/
theorem PlottingWidget.axis_zoom_about_centre_witness :
    (idleWidget logLogSettings).zoomXIn.zoomXOut.m_plotSettings.xMin
      = (idleWidget logLogSettings).m_plotSettings.xMin :=
  (PlottingWidget.axis_zoom_about_centre (idleWidget logLogSettings)
    axisDomainOk_logLogSettings.1 axisDomainOk_logLogSettings.2).1.2.2.2.2.2.2.2.2.1

/-! ## The degenerate range guard of `dataToPixel` -/

/-- Where the Logarithmic branch of `dataToPixel` is not taken, a range with
`xMax <= xMin` maps every value to the left edge, and one with `yMax <= yMin` to the
bottom edge. -/
theorem PlottingWidget.dataToPixel_degenerate_guard (w : PlottingWidget) (v : QPointF) :
    (w.m_plotSettings.xMax ≤ w.m_plotSettings.xMin →
      ¬(w.m_plotSettings.xAxisType = AxisType.Logarithmic ∧ v.x > 0 ∧ w.m_plotSettings.xMin > 0) →
      (w.dataToPixel v).x = (w.m_plotArea.left : ℝ)) ∧
    (w.m_plotSettings.yMax ≤ w.m_plotSettings.yMin →
      ¬(w.m_plotSettings.yAxisType = AxisType.Logarithmic ∧ v.y > 0 ∧ w.m_plotSettings.yMin > 0) →
      (w.dataToPixel v).y = (w.m_plotArea.bottom : ℝ)) := by
  constructor
  · intro h hc
    simp only [PlottingWidget.dataToPixel, hc, if_false, gt_iff_lt, not_lt.mpr h]
  · intro h hc
    simp only [PlottingWidget.dataToPixel, hc, if_false, gt_iff_lt, not_lt.mpr h]

theorem log10_ten : log10 10 = 1 := by
  have h := log10_zpow 1
  norm_num at h
  exact h

/-- C19 (evaluation of the code). On a Logarithmic axis with positive bounds the
Logarithmic branch of `dataToPixel` is taken before the test `xMax > xMin`: with
`xMin = 100`, `xMax = 1` (so `xMax <= xMin`) the value `x = 1` is mapped to the pixel
`240 = left + width`, not to the left edge `80`; likewise `y = 1` with `yMin = 100`,
`yMax = 1` is mapped to `49 = bottom - height`, not to the bottom edge `209`. -/
theorem PlottingWidget.dataToPixel_log_unguarded :
    invertedLogSettings.xMax ≤ invertedLogSettings.xMin ∧
    invertedLogSettings.yMax ≤ invertedLogSettings.yMin ∧
    ((idleWidget invertedLogSettings).m_plotArea.left : ℝ) = 80 ∧
    ((idleWidget invertedLogSettings).m_plotArea.bottom : ℝ) = 209 ∧
    ((idleWidget invertedLogSettings).dataToPixel ⟨1, 1⟩).x = 240 ∧
    ((idleWidget invertedLogSettings).dataToPixel ⟨1, 1⟩).y = 49 := by
  refine ⟨by norm_num [invertedLogSettings, logLogSettings],
    by norm_num [invertedLogSettings, logLogSettings],
    by norm_num [idleWidget, QRect.ofSize, QRect.left],
    by norm_num [idleWidget, QRect.ofSize, QRect.bottom], ?_, ?_⟩
  · norm_num [PlottingWidget.dataToPixel, idleWidget, invertedLogSettings, logLogSettings,
      QRect.ofSize, QRect.left, QRect.width, log10_one, log10_hundred]
  · norm_num [PlottingWidget.dataToPixel, idleWidget, invertedLogSettings, logLogSettings,
      QRect.ofSize, QRect.bottom, QRect.height, log10_one, log10_hundred]

/-! ## Decade ticks of the logarithmic axis -/

theorem intRange_neg11_neg10 : intRange (-11) (-10) = [-11, -10] := by
  decide

theorem intRange_neg11_neg11 : intRange (-11) (-10 - 1) = [-11] := by
  decide

theorem pow10_neg11 : pow10 ((-11 : ℤ) : ℝ) = 1e-11 := by
  rw [pow10_intCast]
  norm_num

theorem pow10_neg10 : pow10 ((-10 : ℤ) : ℝ) = 1e-10 := by
  rw [pow10_intCast]
  norm_num

theorem stdSort_small_ticks :
    stdSort [1e-11, 1e-10, 2 * 1e-11, 3 * 1e-11, 5 * 1e-11]
      = [1e-11, 2 * 1e-11, 3 * 1e-11, 5 * 1e-11, 1e-10] := by
  norm_num [stdSort, List.insertionSort, List.orderedInsert]

theorem stdUnique_small_ticks :
    stdUnique tickClose [1e-11, 2 * 1e-11, 3 * 1e-11, 5 * 1e-11, 1e-10] = [1e-11] := by
  norm_num [stdUnique, stdUniqueFrom, tickClose, abs_lt]

/-- C20 (counterexample). For `min = 1e-11`, `max = 1e-10` the decade `10^-10`
satisfies `min * 0.999 <= 10^-10 <= max * 1.001`, but every candidate tick lies within
`1e-10` of the first one, `1e-11`, so the de-duplication keeps only that one:
`generateOptimizedAxisLabels(1e-11, 1e-10, Logarithmic)` is `[1e-11]` and `10^-10` does
not occur in it. -/
theorem PlottingWidget.generateOptimizedAxisLabels_drops_decade :
    PlottingWidget.generateOptimizedAxisLabels 1e-11 1e-10 AxisType.Logarithmic = [1e-11] ∧
    (1e-11 : ℝ) * 0.999 ≤ (10 : ℝ) ^ (-10 : ℤ) ∧ (10 : ℝ) ^ (-10 : ℤ) ≤ (1e-10 : ℝ) * 1.001 ∧
    (10 : ℝ) ^ (-10 : ℤ) ∉
      PlottingWidget.generateOptimizedAxisLabels 1e-11 1e-10 AxisType.Logarithmic := by
  have hs : ⌊log10 1e-11⌋ = -11 := by
    rw [log10_of_zpow (-11) (by norm_num), Int.floor_intCast]
  have he : ⌈log10 1e-10⌉ = -10 := by
    rw [log10_of_zpow (-10) (by norm_num), Int.ceil_intCast]
  have hl : PlottingWidget.generateOptimizedAxisLabels 1e-11 1e-10 AxisType.Logarithmic
      = [1e-11] := by
    unfold PlottingWidget.generateOptimizedAxisLabels
    rw [if_neg (by norm_num), if_pos rfl]
    simp only []
    rw [if_neg (by norm_num), if_neg (by norm_num), hs, he, intRange_neg11_neg10,
      intRange_neg11_neg11]
    simp only [List.map_cons, List.map_nil, List.flatten_cons, List.flatten_nil,
      List.append_nil, pow10_neg11, pow10_neg10]
    have hmajor : List.filter
        (fun value : ℝ => decide (value ≥ 1e-11 * 0.999 ∧ value ≤ 1e-10 * 1.001))
        [1e-11, 1e-10] = [1e-11, 1e-10] := by
      norm_num [List.filter_cons]
    have hminor : List.filter (fun value : ℝ => decide (value > 1e-11 ∧ value < 1e-10))
        [2 * 1e-11, 3 * 1e-11, 5 * 1e-11] = [2 * 1e-11, 3 * 1e-11, 5 * 1e-11] := by
      norm_num [List.filter_cons]
    rw [hmajor, hminor, if_pos (by decide)]
    simp only [List.cons_append, List.nil_append]
    rw [stdSort_small_ticks, stdUnique_small_ticks]
  refine ⟨hl, by norm_num, by norm_num, ?_⟩
  rw [hl]
  norm_num

theorem mem_intRange {lo hi k : ℤ} : k ∈ intRange lo hi ↔ lo ≤ k ∧ k ≤ hi := by
  unfold intRange
  simp only [List.mem_map, List.mem_range]
  constructor
  · rintro ⟨n, hn, rfl⟩
    omega
  · rintro ⟨h1, h2⟩
    refine ⟨(k - lo).toNat, ?_, ?_⟩ <;> omega

theorem mem_stdUniqueFrom_or_last (eqv : ℝ → ℝ → Bool) {x : ℝ} :
    ∀ (l : List ℝ) (last : ℝ), x ∈ l → (last ≠ x → eqv last x = false) →
      (∀ y ∈ l, y ≠ x → eqv y x = false) → x ∈ stdUniqueFrom eqv last l ∨ last = x := by
  intro l
  induction l with
  | nil => intro last h; simp at h
  | cons a rest ih =>
    intro last hx hlast hall
    by_cases hl : last = x
    · exact Or.inr hl
    · left
      unfold stdUniqueFrom
      rcases List.mem_cons.mp hx with rfl | hx'
      · rw [if_neg (by simp [hlast hl])]
        exact List.mem_cons_self _ _
      · have hrest : ∀ y ∈ rest, y ≠ x → eqv y x = false :=
          fun y hy => hall y (List.mem_cons_of_mem _ hy)
        split_ifs with hc
        · rcases ih last hx' hlast hrest with h | h
          · exact h
          · exact absurd h hl
        · rcases ih a hx' (hall a (List.mem_cons_self _ _)) hrest with h | h
          · exact List.mem_cons_of_mem _ h
          · exact h ▸ List.mem_cons_self _ _

/-- An element that no other element of the list is equivalent to survives
`std::unique`. -/
theorem mem_stdUnique_of_isolated (eqv : ℝ → ℝ → Bool) {x : ℝ} {l : List ℝ} (hx : x ∈ l)
    (hall : ∀ y ∈ l, y ≠ x → eqv y x = false) : x ∈ stdUnique eqv l := by
  cases l with
  | nil => simp at hx
  | cons a rest =>
    unfold stdUnique
    rcases List.mem_cons.mp hx with rfl | hx'
    · exact List.mem_cons_self _ _
    · have hrest : ∀ y ∈ rest, y ≠ x → eqv y x = false :=
        fun y hy => hall y (List.mem_cons_of_mem _ hy)
      rcases mem_stdUniqueFrom_or_last eqv rest a hx' (hall a (List.mem_cons_self _ _)) hrest
        with h | h
      · exact List.mem_cons_of_mem _ h
      · exact h ▸ List.mem_cons_self _ _

/-- Two different ticks `m * 10^j` (`m` in `1, 2, 3, 5`) and `10^k` are at least
`10^k / 2` apart. -/
theorem tick_gap {m : ℝ} (hm : m = 1 ∨ m = 2 ∨ m = 3 ∨ m = 5) (j k : ℤ)
    (hne : m * pow10 (j : ℝ) ≠ pow10 (k : ℝ)) :
    pow10 (k : ℝ) / 2 ≤ |m * pow10 (j : ℝ) - pow10 (k : ℝ)| := by
  have hk := pow10_pos (k : ℝ)
  have hj := pow10_pos (j : ℝ)
  have hm1 : 1 ≤ m := by rcases hm with rfl | rfl | rfl | rfl <;> norm_num
  have hm5 : m ≤ 5 := by rcases hm with rfl | rfl | rfl | rfl <;> norm_num
  rcases lt_trichotomy j k with h | h | h
  · have h1 : (j : ℝ) + 1 ≤ (k : ℝ) := by exact_mod_cast h
    have h2 : pow10 (j : ℝ) * 10 ≤ pow10 (k : ℝ) := by
      rw [← pow10_one, ← pow10_add]
      exact pow10_le_pow10.mpr h1
    rw [abs_sub_comm, abs_of_nonneg (by nlinarith)]
    nlinarith
  · subst h
    have hm2 : 2 ≤ m := by
      rcases hm with rfl | rfl | rfl | rfl
      · exact absurd (one_mul _) hne
      all_goals norm_num
    rw [abs_of_nonneg (by nlinarith)]
    nlinarith
  · have h1 : (k : ℝ) + 1 ≤ (j : ℝ) := by exact_mod_cast h
    have h2 : pow10 (k : ℝ) * 10 ≤ pow10 (j : ℝ) := by
      rw [← pow10_one, ← pow10_add]
      exact pow10_le_pow10.mpr h1
    rw [abs_of_nonneg (by nlinarith)]
    nlinarith

theorem floor_log10_le_of_decade_ge {lo : ℝ} {k : ℤ} (h0 : 0 < lo)
    (hlo : lo * 0.999 ≤ pow10 (k : ℝ)) : ⌊log10 lo⌋ ≤ k := by
  by_contra hcon
  have h1 : k + 1 ≤ ⌊log10 lo⌋ := by omega
  have h2 : ((k : ℝ) + 1) ≤ log10 lo := by
    have : ((k + 1 : ℤ) : ℝ) ≤ (⌊log10 lo⌋ : ℝ) := by exact_mod_cast h1
    push_cast at this
    exact le_trans this (Int.floor_le _)
  have h3 : pow10 (k : ℝ) * 10 ≤ lo := by
    rw [← pow10_one, ← pow10_add]
    calc pow10 ((k : ℝ) + 1) ≤ pow10 (log10 lo) := pow10_le_pow10.mpr h2
      _ = lo := pow10_log10 h0
  norm_num at hlo
  linarith

theorem le_ceil_log10_of_decade_le {hi : ℝ} {k : ℤ} (h1 : 0 < hi)
    (hhi : pow10 (k : ℝ) ≤ hi * 1.001) : k ≤ ⌈log10 hi⌉ := by
  by_contra hcon
  have h2 : ⌈log10 hi⌉ + 1 ≤ k := by omega
  have h3 : log10 hi + 1 ≤ (k : ℝ) := by
    have : ((⌈log10 hi⌉ + 1 : ℤ) : ℝ) ≤ (k : ℝ) := by exact_mod_cast h2
    push_cast at this
    have := Int.le_ceil (log10 hi)
    linarith
  have h4 : hi * 10 ≤ pow10 (k : ℝ) := by
    calc hi * 10 = pow10 (log10 hi + 1) := by rw [pow10_add, pow10_one, pow10_log10 h1]
      _ ≤ pow10 (k : ℝ) := pow10_le_pow10.mpr h3
  norm_num at hhi
  linarith

theorem pow10_ge_of_ge_neg9 {k : ℤ} (hk : -9 ≤ k) : (1e-9 : ℝ) ≤ pow10 (k : ℝ) := by
  have h1 : ((-9 : ℤ) : ℝ) ≤ (k : ℝ) := by exact_mod_cast hk
  have h2 : pow10 ((-9 : ℤ) : ℝ) = 1e-9 := by
    rw [pow10_intCast]
    norm_num
  rw [← h2]
  exact pow10_le_pow10.mpr h1

/-- C20 (amended). For every `0 < min < max` and every integer `k >= -9` with
`min * 0.999 <= 10^k <= max * 1.001`, the value `10^k` occurs in the list returned by
`PlottingWidget::generateOptimizedAxisLabels(min, max, Logarithmic)`, after its sort and
its `1e-10`-tolerance de-duplication. -/
theorem PlottingWidget.generateOptimizedAxisLabels_decades (min max : ℝ) (k : ℤ)
    (h0 : 0 < min) (h : min < max) (hk : -9 ≤ k) (hlo : min * 0.999 ≤ (10 : ℝ) ^ k)
    (hhi : (10 : ℝ) ^ k ≤ max * 1.001) :
    (10 : ℝ) ^ k ∈ PlottingWidget.generateOptimizedAxisLabels min max AxisType.Logarithmic := by
  have h1 : 0 < max := lt_trans h0 h
  rw [← pow10_intCast] at hlo hhi ⊢
  have hge := pow10_ge_of_ge_neg9 hk
  unfold PlottingWidget.generateOptimizedAxisLabels
  rw [if_neg (not_le.mpr h), if_pos rfl]
  simp only []
  rw [if_neg (not_le.mpr h0), if_neg (not_le.mpr h1)]
  apply mem_stdUnique_of_isolated
  · apply mem_stdSort.mpr
    apply List.mem_append_left
    apply List.mem_filter.mpr
    refine ⟨List.mem_map.mpr ⟨k, mem_intRange.mpr
      ⟨floor_log10_le_of_decade_ge h0 hlo, le_ceil_log10_of_decade_le h1 hhi⟩, rfl⟩, ?_⟩
    simp only [ge_iff_le, decide_eq_true_eq]
    exact ⟨hlo, hhi⟩
  · intro y hy hne
    have hgap : pow10 (k : ℝ) / 2 ≤ |y - pow10 (k : ℝ)| := by
      rcases List.mem_append.mp (mem_stdSort.mp hy) with hy1 | hy1
      · obtain ⟨hy2, -⟩ := List.mem_filter.mp hy1
        obtain ⟨j, -, rfl⟩ := List.mem_map.mp hy2
        have := tick_gap (Or.inl rfl) j k (by rwa [one_mul])
        rwa [one_mul] at this
      · obtain ⟨hy2, -⟩ := List.mem_filter.mp (mem_of_mem_ite_nil hy1)
        obtain ⟨l, hl, hvl⟩ := List.mem_flatten.mp hy2
        obtain ⟨j, -, rfl⟩ := List.mem_map.mp hl
        obtain ⟨m, hm2, rfl⟩ := List.mem_map.mp hvl
        have hm : m = 1 ∨ m = 2 ∨ m = 3 ∨ m = 5 := by
          simp only [List.mem_cons, List.mem_singleton, List.not_mem_nil, or_false] at hm2
          exact Or.inr hm2
        exact tick_gap hm j k hne
    simp only [tickClose, decide_eq_false_iff_not, not_lt]
    norm_num at hge ⊢
    linarith

/-- C20 (amended) at a concrete input: the decade `10^1` of the range `[1, 100]`. -/
theorem PlottingWidget.generateOptimizedAxisLabels_decades_witness :
    (10 : ℝ) ^ (1 : ℤ) ∈ PlottingWidget.generateOptimizedAxisLabels 1 100 AxisType.Logarithmic :=
  PlottingWidget.generateOptimizedAxisLabels_decades 1 100 1 (by norm_num) (by norm_num)
    (by norm_num) (by norm_num) (by norm_num)

/-! ## The logarithmic auto-range on clamped inputs -/

/-- For positive inputs `0 < min < max` the logarithmic auto-range is not degenerate. -/
theorem calculateOptimalRange_log_lt {lo hi : ℝ} (h0 : 0 < lo) (h : lo < hi) :
    (PlottingWidget.calculateOptimalRange lo hi true).1 <
      (PlottingWidget.calculateOptimalRange lo hi true).2 := by
  rw [calculateOptimalRange_log_eq h0 h]
  exact lt_of_le_of_lt (decade_floor_le h0) (lt_of_lt_of_le h (le_decade_ceil (lt_trans h0 h)))

theorem scanSample_step (tx ty : AxisType) (b : BoundsScan) (p : Sample × Sample) :
    (scanSample tx ty b p = b ∧
      ∀ x y, p = (Sample.finite x, Sample.finite y) → ¬ InLogDomain tx ty x y) ∨
    ∃ x y, p = (Sample.finite x, Sample.finite y) ∧ InLogDomain tx ty x y ∧
      scanSample tx ty b p = ⟨min b.minX x, max b.maxX x, min b.minY y, max b.maxY y, true⟩ := by
  rcases p with ⟨sx, sy⟩
  cases sx with
  | nonFinite =>
    left
    refine ⟨rfl, ?_⟩
    intro x y h
    simp at h
  | finite x =>
    cases sy with
    | nonFinite =>
      left
      refine ⟨rfl, ?_⟩
      intro x y h
      simp at h
    | finite y =>
      by_cases h1 : tx = AxisType.Logarithmic ∧ x ≤ 0
      · left
        refine ⟨by simp only [scanSample, h1, and_self, if_true], ?_⟩
        intro x' y' h hd
        simp only [Prod.mk.injEq, Sample.finite.injEq] at h
        have := hd.1 h1.1
        rw [← h.1] at this
        linarith [h1.2]
      · by_cases h2 : ty = AxisType.Logarithmic ∧ y ≤ 0
        · left
          refine ⟨by simp only [scanSample, h1, h2, and_self, if_true, if_false], ?_⟩
          intro x' y' h hd
          simp only [Prod.mk.injEq, Sample.finite.injEq] at h
          have := hd.2 h2.1
          rw [← h.2] at this
          linarith [h2.2]
        · right
          refine ⟨x, y, rfl, ⟨?_, ?_⟩, by simp only [scanSample, h1, h2, if_false]⟩
          · intro h
            by_contra hx
            exact h1 ⟨h, not_lt.mp hx⟩
          · intro h
            by_contra hy
            exact h2 ⟨h, not_lt.mp hy⟩

/-- A list without an accepted sample leaves the running extrema as they are. -/
theorem foldl_scanSample_none (tx ty : AxisType) (l : List (Sample × Sample))
    (hn : ∀ x y, (Sample.finite x, Sample.finite y) ∈ l → ¬ InLogDomain tx ty x y) :
    ∀ b : BoundsScan, l.foldl (scanSample tx ty) b = b := by
  induction l with
  | nil => intro b; rfl
  | cons p rest ih =>
    intro b
    rw [List.foldl_cons]
    rcases scanSample_step tx ty b p with ⟨he, -⟩ | ⟨x, y, hp, hd, -⟩
    · rw [he]
      exact ih (fun x y h => hn x y (List.mem_cons_of_mem _ h)) b
    · exact absurd hd (hn x y (by rw [hp]; exact List.mem_cons_self _ _))

theorem scanCurve_eq (tx ty : AxisType) (b : BoundsScan) (c : CurveData) :
    scanCurve tx ty b c =
      if c.visible = true then (List.zip c.xData c.yData).foldl (scanSample tx ty) b else b := by
  unfold scanCurve
  cases hv : c.visible with
  | false => simp
  | true =>
    cases hx : c.xData with
    | nil => simp
    | cons x xs =>
      cases hy : c.yData with
      | nil => simp
      | cons y ys => simp

/-- Curves without an accepted sample on a visible curve leave the running extrema as
they are. -/
theorem foldl_scanCurve_none (tx ty : AxisType) (curves : List CurveData)
    (hn : ∀ c ∈ curves, c.visible = true → ∀ x y,
      (Sample.finite x, Sample.finite y) ∈ List.zip c.xData c.yData → ¬ InLogDomain tx ty x y) :
    ∀ b : BoundsScan, curves.foldl (scanCurve tx ty) b = b := by
  induction curves with
  | nil => intro b; rfl
  | cons c rest ih =>
    intro b
    rw [List.foldl_cons]
    have hs : scanCurve tx ty b c = b := by
      rw [scanCurve_eq]
      split_ifs with hv
      · exact foldl_scanSample_none tx ty _ (hn c (List.mem_cons_self _ _) hv) b
      · rfl
    rw [hs]
    exact ih (fun c' hc' => hn c' (List.mem_cons_of_mem _ hc')) b

/-- The curve loop reads the visible curves only. -/
theorem foldl_scanCurve_filter (tx ty : AxisType) (curves : List CurveData) :
    ∀ b : BoundsScan, curves.foldl (scanCurve tx ty) b =
      (curves.filter (fun c => c.visible)).foldl (scanCurve tx ty) b := by
  induction curves with
  | nil => intro b; rfl
  | cons c rest ih =>
    intro b
    cases hv : c.visible with
    | false =>
      have hs : scanCurve tx ty b c = b := by
        rw [scanCurve_eq, if_neg (by simp [hv])]
      rw [List.foldl_cons, hs, List.filter_cons_of_neg (by simp [hv])]
      exact ih b
    | true =>
      rw [List.foldl_cons, List.filter_cons_of_pos (by simp [hv]), List.foldl_cons]
      exact ih _

/-- The settings `calculateDataBounds` leaves are a function of the previous settings
and of the visible curves. -/
theorem PlottingWidget.calculateDataBounds_settings (w : PlottingWidget) :
    w.calculateDataBounds.m_plotSettings =
      let s := w.m_plotSettings
      let b := scanCurves s.xAxisType s.yAxisType (w.m_curves.filter (fun c => c.visible))
      if b.hasValidData = true ∧ b.minX < b.maxX ∧ b.minY < b.maxY then
        { s with
          xMin := (PlottingWidget.calculateOptimalRange b.minX b.maxX
            (decide (s.xAxisType = AxisType.Logarithmic))).1,
          xMax := (PlottingWidget.calculateOptimalRange b.minX b.maxX
            (decide (s.xAxisType = AxisType.Logarithmic))).2,
          yMin := (PlottingWidget.calculateOptimalRange b.minY b.maxY
            (decide (s.yAxisType = AxisType.Logarithmic))).1,
          yMax := (PlottingWidget.calculateOptimalRange b.minY b.maxY
            (decide (s.yAxisType = AxisType.Logarithmic))).2 }
      else s := by
  have hf : scanCurves w.m_plotSettings.xAxisType w.m_plotSettings.yAxisType
      (w.m_curves.filter (fun c => c.visible)) =
      scanCurves w.m_plotSettings.xAxisType w.m_plotSettings.yAxisType w.m_curves :=
    (foldl_scanCurve_filter _ _ _ _).symm
  simp only [hf]
  unfold PlottingWidget.calculateDataBounds
  cases hc : w.m_curves with
  | nil => simp [scanCurves]
  | cons c rest =>
    simp only [List.isEmpty_cons, Bool.false_eq_true, if_false]
    split_ifs <;> rfl

theorem scanCurves_of_no_valid_sample (w : PlottingWidget)
    (h : ∀ x y, ¬ w.IsValidSample x y) :
    scanCurves w.m_plotSettings.xAxisType w.m_plotSettings.yAxisType w.m_curves =
      ⟨1e10, -1e10, 1e10, -1e10, false⟩ := by
  unfold scanCurves
  apply foldl_scanCurve_none
  intro c hc hv x y hm hd
  exact h x y ⟨c, hc, hv, hm, hd⟩

/-- C27. `calculateDataBounds` (the auto-fit of `resetToFit`) without valid data changes
nothing: with an empty curve list, or when no visible curve has a sample that is finite
and strictly positive on every Logarithmic axis, the widget, and with it `xMin`, `xMax`,
`yMin`, `yMax`, is left as it was; and the settings it leaves depend on the visible
curves only: two widgets with the same settings and the same visible curves get the
same settings, whatever their invisible curves hold. -/
theorem PlottingWidget.calculateDataBounds_without_valid_data (w : PlottingWidget) :
    (w.m_curves = [] → w.calculateDataBounds = w) ∧
    ((∀ x y, ¬ w.IsValidSample x y) → w.calculateDataBounds = w) ∧
    (∀ w' : PlottingWidget, w'.m_plotSettings = w.m_plotSettings →
      w'.m_curves.filter (fun c => c.visible) = w.m_curves.filter (fun c => c.visible) →
      w'.calculateDataBounds.m_plotSettings = w.calculateDataBounds.m_plotSettings) := by
  refine ⟨?_, ?_, ?_⟩
  · intro h
    simp [PlottingWidget.calculateDataBounds, h]
  · intro h
    have hb := scanCurves_of_no_valid_sample w h
    unfold PlottingWidget.calculateDataBounds
    simp only [hb]
    simp
  · intro w' hs hc
    rw [PlottingWidget.calculateDataBounds_settings, PlottingWidget.calculateDataBounds_settings,
      hs, hc]

/-- C27 at a concrete input: a widget whose visible curve has no index with two finite
values and whose invisible curve holds finite data keeps its state. -/
theorem PlottingWidget.calculateDataBounds_without_valid_data_witness :
    (∀ x y, ¬ noDataWidget.IsValidSample x y) ∧ noDataWidget.calculateDataBounds = noDataWidget := by
  have h : ∀ x y, ¬ noDataWidget.IsValidSample x y := by
    rintro x y ⟨c, hc, hv, hm, -⟩
    simp only [noDataWidget, idleWidget, List.mem_cons, List.mem_singleton, List.not_mem_nil,
      or_false] at hc
    rcases hc with rfl | rfl
    · simp [curveOf] at hm
    · simp at hv
  exact ⟨h, (PlottingWidget.calculateDataBounds_without_valid_data noDataWidget).2.1 h⟩

/-! ## The auto-fit shows the data -/

/-- The axis kinds of the pair of settings, and the two curve lists: the part of the
state the bounds computations leave alone. -/
theorem DualPlotWindow.calculatePressureBounds_frame (w : DualPlotWindow) :
    w.calculatePressureBounds.m_pressureCurves = w.m_pressureCurves ∧
    w.calculatePressureBounds.m_productionCurves = w.m_productionCurves ∧
    w.calculatePressureBounds.m_pressureSettings.xAxisType = w.m_pressureSettings.xAxisType ∧
    w.calculatePressureBounds.m_pressureSettings.yAxisType = w.m_pressureSettings.yAxisType ∧
    w.calculatePressureBounds.m_productionSettings = w.m_productionSettings := by
  unfold DualPlotWindow.calculatePressureBounds
  simp only []
  split_ifs <;> exact ⟨rfl, rfl, rfl, rfl, rfl⟩

theorem DualPlotWindow.calculateProductionBounds_frame (w : DualPlotWindow) :
    w.calculateProductionBounds.m_pressureCurves = w.m_pressureCurves ∧
    w.calculateProductionBounds.m_productionCurves = w.m_productionCurves ∧
    w.calculateProductionBounds.m_productionSettings.xAxisType =
      w.m_productionSettings.xAxisType ∧
    w.calculateProductionBounds.m_productionSettings.yAxisType =
      w.m_productionSettings.yAxisType ∧
    w.calculateProductionBounds.m_pressureSettings = w.m_pressureSettings := by
  unfold DualPlotWindow.calculateProductionBounds
  simp only []
  split_ifs <;> exact ⟨rfl, rfl, rfl, rfl, rfl⟩

theorem DualPlotWindow.synchronizeXAxis_frame (w : DualPlotWindow) :
    w.synchronizeXAxis.m_pressureCurves = w.m_pressureCurves ∧
    w.synchronizeXAxis.m_productionCurves = w.m_productionCurves ∧
    w.synchronizeXAxis.m_pressureSettings.xAxisType = w.m_pressureSettings.xAxisType ∧
    w.synchronizeXAxis.m_pressureSettings.yAxisType = w.m_pressureSettings.yAxisType ∧
    w.synchronizeXAxis.m_productionSettings.xAxisType = w.m_productionSettings.xAxisType ∧
    w.synchronizeXAxis.m_productionSettings.yAxisType = w.m_productionSettings.yAxisType := by
  unfold DualPlotWindow.synchronizeXAxis
  simp only []
  split_ifs <;> exact ⟨rfl, rfl, rfl, rfl, rfl, rfl⟩

theorem DualPlotWindow.addPressureCurve_nil (w : DualPlotWindow) (c : CurveData)
    (h : w.m_pressureCurves = []) :
    (w.addPressureCurve c).m_pressureCurves = [c] ∧
    (w.addPressureCurve c).m_pressureSettings.xAxisType = c.xAxisType ∧
    (w.addPressureCurve c).m_pressureSettings.yAxisType = c.yAxisType := by
  obtain ⟨s1, -, s3, s4, -, -⟩ := DualPlotWindow.synchronizeXAxis_frame
    (DualPlotWindow.calculatePressureBounds
      { w with
        m_pressureCurves := w.m_pressureCurves ++ [c],
        m_pressureSettings :=
          { w.m_pressureSettings with xAxisType := c.xAxisType, yAxisType := c.yAxisType } })
  obtain ⟨b1, -, b3, b4, -⟩ := DualPlotWindow.calculatePressureBounds_frame
    { w with
      m_pressureCurves := w.m_pressureCurves ++ [c],
      m_pressureSettings :=
        { w.m_pressureSettings with xAxisType := c.xAxisType, yAxisType := c.yAxisType } }
  unfold DualPlotWindow.addPressureCurve
  simp only [h, List.head?_nil]
  rw [h] at s1 s3 s4 b1 b3 b4
  exact ⟨s1.trans b1, s3.trans b3, s4.trans b4⟩

theorem DualPlotWindow.addPressureCurve_cons (w : DualPlotWindow) (c first : CurveData)
    (tail : List CurveData) (h : w.m_pressureCurves = first :: tail) :
    (w.addPressureCurve c).m_pressureCurves =
      first :: (tail ++ [{ c with xAxisType := first.xAxisType, yAxisType := first.yAxisType }]) ∧
    (w.addPressureCurve c).m_pressureSettings.xAxisType = first.xAxisType ∧
    (w.addPressureCurve c).m_pressureSettings.yAxisType = first.yAxisType := by
  obtain ⟨s1, -, s3, s4, -, -⟩ := DualPlotWindow.synchronizeXAxis_frame
    (DualPlotWindow.calculatePressureBounds
      { w with
        m_pressureCurves := w.m_pressureCurves ++
          [{ c with xAxisType := first.xAxisType, yAxisType := first.yAxisType }],
        m_pressureSettings :=
          { w.m_pressureSettings with
            xAxisType := first.xAxisType, yAxisType := first.yAxisType } })
  obtain ⟨b1, -, b3, b4, -⟩ := DualPlotWindow.calculatePressureBounds_frame
    { w with
      m_pressureCurves := w.m_pressureCurves ++
        [{ c with xAxisType := first.xAxisType, yAxisType := first.yAxisType }],
      m_pressureSettings :=
        { w.m_pressureSettings with
          xAxisType := first.xAxisType, yAxisType := first.yAxisType } }
  unfold DualPlotWindow.addPressureCurve
  simp only [h, List.head?_cons]
  rw [h] at s1 s3 s4 b1 b3 b4
  exact ⟨(s1.trans b1).trans (List.cons_append _ _ _), s3.trans b3, s4.trans b4⟩

theorem DualPlotWindow.addProductionCurve_nil (w : DualPlotWindow) (c : CurveData)
    (h : w.m_productionCurves = []) :
    (w.addProductionCurve c).m_productionCurves = [c] ∧
    (w.addProductionCurve c).m_productionSettings.xAxisType = c.xAxisType ∧
    (w.addProductionCurve c).m_productionSettings.yAxisType = c.yAxisType := by
  obtain ⟨-, s2, -, -, s5, s6⟩ := DualPlotWindow.synchronizeXAxis_frame
    (DualPlotWindow.calculateProductionBounds
      { w with
        m_productionCurves := w.m_productionCurves ++ [c],
        m_productionSettings :=
          { w.m_productionSettings with xAxisType := c.xAxisType, yAxisType := c.yAxisType } })
  obtain ⟨-, b2, b3, b4, -⟩ := DualPlotWindow.calculateProductionBounds_frame
    { w with
      m_productionCurves := w.m_productionCurves ++ [c],
      m_productionSettings :=
        { w.m_productionSettings with xAxisType := c.xAxisType, yAxisType := c.yAxisType } }
  unfold DualPlotWindow.addProductionCurve
  simp only [h, List.head?_nil]
  rw [h] at s2 s5 s6 b2 b3 b4
  exact ⟨s2.trans b2, s5.trans b3, s6.trans b4⟩

theorem DualPlotWindow.addProductionCurve_cons (w : DualPlotWindow) (c first : CurveData)
    (tail : List CurveData) (h : w.m_productionCurves = first :: tail) :
    (w.addProductionCurve c).m_productionCurves =
      first :: (tail ++ [{ c with xAxisType := first.xAxisType, yAxisType := first.yAxisType }]) ∧
    (w.addProductionCurve c).m_productionSettings.xAxisType = first.xAxisType ∧
    (w.addProductionCurve c).m_productionSettings.yAxisType = first.yAxisType := by
  obtain ⟨-, s2, -, -, s5, s6⟩ := DualPlotWindow.synchronizeXAxis_frame
    (DualPlotWindow.calculateProductionBounds
      { w with
        m_productionCurves := w.m_productionCurves ++
          [{ c with xAxisType := first.xAxisType, yAxisType := first.yAxisType }],
        m_productionSettings :=
          { w.m_productionSettings with
            xAxisType := first.xAxisType, yAxisType := first.yAxisType } })
  obtain ⟨-, b2, b3, b4, -⟩ := DualPlotWindow.calculateProductionBounds_frame
    { w with
      m_productionCurves := w.m_productionCurves ++
        [{ c with xAxisType := first.xAxisType, yAxisType := first.yAxisType }],
      m_productionSettings :=
        { w.m_productionSettings with
          xAxisType := first.xAxisType, yAxisType := first.yAxisType } }
  unfold DualPlotWindow.addProductionCurve
  simp only [h, List.head?_cons]
  rw [h] at s2 s5 s6 b2 b3 b4
  exact ⟨(s2.trans b2).trans (List.cons_append _ _ _), s5.trans b3, s6.trans b4⟩

theorem DualPlotWindow.foldl_addPressureCurve (w0 : DualPlotWindow)
    (h0 : w0.m_pressureCurves = []) (first : CurveData) (rest : List CurveData) :
    ∃ tail : List CurveData,
      ((first :: rest).foldl DualPlotWindow.addPressureCurve w0).m_pressureCurves
        = first :: tail ∧
      tail.length = rest.length ∧
      (∀ c ∈ tail, c.xAxisType = first.xAxisType ∧ c.yAxisType = first.yAxisType) ∧
      ((first :: rest).foldl DualPlotWindow.addPressureCurve w0).m_pressureSettings.xAxisType
        = first.xAxisType ∧
      ((first :: rest).foldl DualPlotWindow.addPressureCurve w0).m_pressureSettings.yAxisType
        = first.yAxisType := by
  induction rest using List.reverseRecOn with
  | nil =>
    obtain ⟨a, b, c⟩ := DualPlotWindow.addPressureCurve_nil w0 first h0
    exact ⟨[], a, rfl, by simp, b, c⟩
  | append_singleton l c ih =>
    obtain ⟨tail, e1, e2, e3, e4, e5⟩ := ih
    have hf : (first :: (l ++ [c])).foldl DualPlotWindow.addPressureCurve w0 =
        ((first :: l).foldl DualPlotWindow.addPressureCurve w0).addPressureCurve c := by
      rw [← List.cons_append, List.foldl_append]
      rfl
    rw [hf]
    obtain ⟨a, b, d⟩ := DualPlotWindow.addPressureCurve_cons _ c first tail e1
    refine ⟨tail ++ [{ c with xAxisType := first.xAxisType, yAxisType := first.yAxisType }],
      a, by simp [e2], ?_, b, d⟩
    intro c' hc'
    rcases List.mem_append.mp hc' with h | h
    · exact e3 c' h
    · rw [List.mem_singleton] at h
      rw [h]
      exact ⟨rfl, rfl⟩

theorem DualPlotWindow.foldl_addProductionCurve (w0 : DualPlotWindow)
    (h0 : w0.m_productionCurves = []) (first : CurveData) (rest : List CurveData) :
    ∃ tail : List CurveData,
      ((first :: rest).foldl DualPlotWindow.addProductionCurve w0).m_productionCurves
        = first :: tail ∧
      tail.length = rest.length ∧
      (∀ c ∈ tail, c.xAxisType = first.xAxisType ∧ c.yAxisType = first.yAxisType) ∧
      ((first :: rest).foldl DualPlotWindow.addProductionCurve w0).m_productionSettings.xAxisType
        = first.xAxisType ∧
      ((first :: rest).foldl DualPlotWindow.addProductionCurve w0).m_productionSettings.yAxisType
        = first.yAxisType := by
  induction rest using List.reverseRecOn with
  | nil =>
    obtain ⟨a, b, c⟩ := DualPlotWindow.addProductionCurve_nil w0 first h0
    exact ⟨[], a, rfl, by simp, b, c⟩
  | append_singleton l c ih =>
    obtain ⟨tail, e1, e2, e3, e4, e5⟩ := ih
    have hf : (first :: (l ++ [c])).foldl DualPlotWindow.addProductionCurve w0 =
        ((first :: l).foldl DualPlotWindow.addProductionCurve w0).addProductionCurve c := by
      rw [← List.cons_append, List.foldl_append]
      rfl
    rw [hf]
    obtain ⟨a, b, d⟩ := DualPlotWindow.addProductionCurve_cons _ c first tail e1
    refine ⟨tail ++ [{ c with xAxisType := first.xAxisType, yAxisType := first.yAxisType }],
      a, by simp [e2], ?_, b, d⟩
    intro c' hc'
    rcases List.mem_append.mp hc' with h | h
    · exact e3 c' h
    · rw [List.mem_singleton] at h
      rw [h]
      exact ⟨rfl, rfl⟩

/-- C26. All curves of a pane of the dual window share the first curve's axis kinds:
after the calls `addPressureCurve(first)`, `addPressureCurve(c)` for each `c` of `rest`
on a new `DualPlotWindow`, the pane stores one curve per call, the first of them is
`first` as it was given, every stored pressure curve has the `xAxisType` and
`yAxisType` of `first`, and the pressure pane's settings have them too; the same holds
for `addProductionCurve` and the production pane. -/
theorem DualPlotWindow.pane_curves_share_first_axis_kinds (first : CurveData)
    (rest : List CurveData) :
    (((first :: rest).foldl DualPlotWindow.addPressureCurve
        DualPlotWindow.constructed).m_pressureCurves.length = rest.length + 1 ∧
      ((first :: rest).foldl DualPlotWindow.addPressureCurve
        DualPlotWindow.constructed).m_pressureCurves.head? = some first ∧
      (∀ c ∈ ((first :: rest).foldl DualPlotWindow.addPressureCurve
          DualPlotWindow.constructed).m_pressureCurves,
        c.xAxisType = first.xAxisType ∧ c.yAxisType = first.yAxisType) ∧
      ((first :: rest).foldl DualPlotWindow.addPressureCurve
        DualPlotWindow.constructed).m_pressureSettings.xAxisType = first.xAxisType ∧
      ((first :: rest).foldl DualPlotWindow.addPressureCurve
        DualPlotWindow.constructed).m_pressureSettings.yAxisType = first.yAxisType) ∧
    (((first :: rest).foldl DualPlotWindow.addProductionCurve
        DualPlotWindow.constructed).m_productionCurves.length = rest.length + 1 ∧
      ((first :: rest).foldl DualPlotWindow.addProductionCurve
        DualPlotWindow.constructed).m_productionCurves.head? = some first ∧
      (∀ c ∈ ((first :: rest).foldl DualPlotWindow.addProductionCurve
          DualPlotWindow.constructed).m_productionCurves,
        c.xAxisType = first.xAxisType ∧ c.yAxisType = first.yAxisType) ∧
      ((first :: rest).foldl DualPlotWindow.addProductionCurve
        DualPlotWindow.constructed).m_productionSettings.xAxisType = first.xAxisType ∧
      ((first :: rest).foldl DualPlotWindow.addProductionCurve
        DualPlotWindow.constructed).m_productionSettings.yAxisType = first.yAxisType) := by
  obtain ⟨t1, a1, a2, a3, a4, a5⟩ :=
    DualPlotWindow.foldl_addPressureCurve DualPlotWindow.constructed rfl first rest
  obtain ⟨t2, b1, b2, b3, b4, b5⟩ :=
    DualPlotWindow.foldl_addProductionCurve DualPlotWindow.constructed rfl first rest
  refine ⟨⟨?_, ?_, ?_, a4, a5⟩, ⟨?_, ?_, ?_, b4, b5⟩⟩
  · rw [a1, List.length_cons, a2]
  · rw [a1, List.head?_cons]
  · intro c hc
    rw [a1] at hc
    rcases List.mem_cons.mp hc with h | h
    · rw [h]
      exact ⟨rfl, rfl⟩
    · exact a3 c h
  · rw [b1, List.length_cons, b2]
  · rw [b1, List.head?_cons]
  · intro c hc
    rw [b1] at hc
    rcases List.mem_cons.mp hc with h | h
    · rw [h]
      exact ⟨rfl, rfl⟩
    · exact b3 c h

/-! ## The pan drag of the move handler -/

theorem shiftAxis_zero (t : AxisType) (lo hi : ℝ) : shiftAxis t lo hi 0 = (lo, hi) := by
  unfold shiftAxis
  split_ifs with h
  · rw [zero_mul, add_zero, add_zero, pow10_log10 h.2.1, pow10_log10 h.2.2]
  · rw [zero_mul, add_zero, add_zero]

/-- A pan by the zero displacement leaves the ranges as they are. -/
theorem PlottingWidget.panView_zero (w : PlottingWidget) :
    (w.panView ⟨0, 0⟩).m_plotSettings.xMin = w.m_plotSettings.xMin ∧
    (w.panView ⟨0, 0⟩).m_plotSettings.xMax = w.m_plotSettings.xMax ∧
    (w.panView ⟨0, 0⟩).m_plotSettings.yMin = w.m_plotSettings.yMin ∧
    (w.panView ⟨0, 0⟩).m_plotSettings.yMax = w.m_plotSettings.yMax := by
  obtain ⟨hx, hy⟩ := PlottingWidget.panView_eq_shiftAxis w ⟨0, 0⟩
  simp only [neg_zero, zero_div, shiftAxis_zero, Prod.mk.injEq] at hx hy
  exact ⟨hx.1, hx.2, hy.1, hy.2⟩

theorem PlotWindow.panView_zero_delta (w : PlotWindow) :
    (w.panView ⟨0, 0⟩).m_plotSettings.xMin = w.m_plotSettings.xMin ∧
    (w.panView ⟨0, 0⟩).m_plotSettings.xMax = w.m_plotSettings.xMax ∧
    (w.panView ⟨0, 0⟩).m_plotSettings.yMin = w.m_plotSettings.yMin ∧
    (w.panView ⟨0, 0⟩).m_plotSettings.yMax = w.m_plotSettings.yMax := by
  simp [PlotWindow.panView, QPointF.sub]

/-- During a pan drag the move handler of `PlottingWidget` stores the new position in
`m_lastMousePos` before it computes `delta = plotPos - m_lastMousePos`: `panView`
receives the zero displacement and the ranges stay as they are, wherever the pointer
went. -/
theorem PlottingWidget.mouseMoveEvent_pan_drag (normalized : QRect → QRect)
    (w : PlottingWidget) (p : QPoint) (h1 : w.m_isDraggingLegend = false)
    (h2 : w.m_isSelecting = false) (h3 : w.m_isDragging = true) (h4 : w.m_isPanning = true) :
    w.mouseMoveEvent normalized p =
      { ({ w with m_lastMousePos := p } : PlottingWidget).panView ⟨0, 0⟩ with
        m_lastMousePos := p } ∧
    (w.mouseMoveEvent normalized p).m_plotSettings.xMin = w.m_plotSettings.xMin ∧
    (w.mouseMoveEvent normalized p).m_plotSettings.xMax = w.m_plotSettings.xMax ∧
    (w.mouseMoveEvent normalized p).m_plotSettings.yMin = w.m_plotSettings.yMin ∧
    (w.mouseMoveEvent normalized p).m_plotSettings.yMax = w.m_plotSettings.yMax := by
  have he : w.mouseMoveEvent normalized p =
      { ({ w with m_lastMousePos := p } : PlottingWidget).panView ⟨0, 0⟩ with
        m_lastMousePos := p } := by
    simp [PlottingWidget.mouseMoveEvent, h1, h2, h3, h4, QPoint.sub, QPoint.toPointF]
  obtain ⟨z1, z2, z3, z4⟩ :=
    PlottingWidget.panView_zero ({ w with m_lastMousePos := p } : PlottingWidget)
  rw [he]
  exact ⟨rfl, z1, z2, z3, z4⟩

/-- The move handler of `PlotWindow` during a pan drag: the same order of statements,
the same zero displacement. -/
theorem PlotWindow.move_during_pan_drag (normalized : QRect → QRect)
    (w : PlotWindow) (p : QPoint) (h1 : w.m_isDraggingLegend = false)
    (h2 : w.m_isSelecting = false) (h3 : w.m_isDragging = true) (h4 : w.m_isPanning = true) :
    w.mouseMoveEvent normalized p =
      { ({ w with m_lastMousePos := p } : PlotWindow).panView ⟨0, 0⟩ with
        m_lastMousePos := p } ∧
    (w.mouseMoveEvent normalized p).m_plotSettings.xMin = w.m_plotSettings.xMin ∧
    (w.mouseMoveEvent normalized p).m_plotSettings.xMax = w.m_plotSettings.xMax ∧
    (w.mouseMoveEvent normalized p).m_plotSettings.yMin = w.m_plotSettings.yMin ∧
    (w.mouseMoveEvent normalized p).m_plotSettings.yMax = w.m_plotSettings.yMax := by
  have he : w.mouseMoveEvent normalized p =
      { ({ w with m_lastMousePos := p } : PlotWindow).panView ⟨0, 0⟩ with
        m_lastMousePos := p } := by
    simp [PlotWindow.mouseMoveEvent, h1, h2, h3, h4, QPoint.sub, QPoint.toPointF]
  obtain ⟨z1, z2, z3, z4⟩ :=
    PlotWindow.panView_zero_delta ({ w with m_lastMousePos := p } : PlotWindow)
  rw [he]
  exact ⟨rfl, z1, z2, z3, z4⟩

theorem panDragWidget_state :
    panDragWidget.m_isDraggingLegend = false ∧ panDragWidget.m_isSelecting = false ∧
    panDragWidget.m_isDragging = true ∧ panDragWidget.m_isPanning = true ∧
    panDragWidget.m_lastMousePos = ⟨100, 100⟩ ∧
    panDragWidget.m_plotSettings = defaultSettings ∧
    panDragWidget.m_plotArea = QRect.ofSize 80 50 160 160 := by
  refine ⟨?_, ?_, ?_, ?_, ?_, ?_, ?_⟩ <;>
    simp [panDragWidget, PlottingWidget.mousePressEvent, idleWidget, QRect.contains,
      QRect.ofSize]

/-- C28 (evaluation of the code). On the default Linear range `[0, 100]` with a plot
area 160 pixels wide, a pan drag is under way with the last recorded position
`q = (100, 100)` and the pointer moves to `p = (120, 100)`.  `panView` with
`delta = p - q = (20, 0)` would move `xMin` to `-20 / 160 * 100 = -12.5`; the move
handlers of `PlottingWidget` and of `PlotWindow` leave `xMin = 0` and `xMax = 100`. -/
theorem PlottingWidget.mouseMoveEvent_pan_delta_zero :
    panDragWidget.m_isDraggingLegend = false ∧ panDragWidget.m_isSelecting = false ∧
    panDragWidget.m_isDragging = true ∧ panDragWidget.m_isPanning = true ∧
    panDragWidget.m_lastMousePos = ⟨100, 100⟩ ∧
    (panDragWidget.panView
      (QPoint.sub ⟨120, 100⟩ ⟨100, 100⟩).toPointF).m_plotSettings.xMin = -12.5 ∧
    (panDragWidget.mouseMoveEvent id ⟨120, 100⟩).m_plotSettings.xMin = 0 ∧
    (panDragWidget.mouseMoveEvent id ⟨120, 100⟩).m_plotSettings.xMax = 100 ∧
    (panDragPlotWindow.panView
      (QPoint.sub ⟨120, 100⟩ ⟨100, 100⟩).toPointF).m_plotSettings.xMin = -12.5 ∧
    (panDragPlotWindow.mouseMoveEvent id ⟨120, 100⟩).m_plotSettings.xMin = 0 ∧
    (panDragPlotWindow.mouseMoveEvent id ⟨120, 100⟩).m_plotSettings.xMax = 100 := by
  obtain ⟨s1, s2, s3, s4, s5, s6, s7⟩ := panDragWidget_state
  obtain ⟨-, m1, m2, -, -⟩ :=
    PlottingWidget.mouseMoveEvent_pan_drag id panDragWidget ⟨120, 100⟩ s1 s2 s3 s4
  obtain ⟨-, n1, n2, -, -⟩ :=
    PlotWindow.move_during_pan_drag id panDragPlotWindow ⟨120, 100⟩ rfl rfl rfl rfl
  have hlin : AxisType.Linear ≠ AxisType.Logarithmic := by decide
  refine ⟨s1, s2, s3, s4, s5, ?_, ?_, ?_, ?_, ?_, ?_⟩
  · have hx := (PlottingWidget.panView_eq_shiftAxis panDragWidget
      (QPoint.sub ⟨120, 100⟩ ⟨100, 100⟩).toPointF).1
    rw [s6, s7] at hx
    have h1 := congrArg Prod.fst hx
    simp only [shiftAxis, defaultSettings, hlin, false_and, if_false, QRect.ofSize,
      QRect.width] at h1
    rw [h1]
    norm_num [QPoint.sub, QPoint.toPointF]
  · rw [m1, s6]
    rfl
  · rw [m2, s6]
    rfl
  · simp only [PlotWindow.panView, PlotWindow.pixelToData, panDragPlotWindow, idlePlotWindow,
      defaultSettings, hlin, false_and, if_false, QPoint.sub, QPoint.toPointF, QPointF.sub,
      QRect.ofSize, QRect.width, QRect.left]
    norm_num
  · rw [n1]
    rfl
  · rw [n2]
    rfl

/-! ## The legend box -/

/-- C22 (evaluation of the code). On a `PlotWindow` with the plot area
`QRect(80, 50, 160, 160)` (right edge `239`) and one visible curve, a legend drag from
the pixel `(180, 70)` to the pixel `(380, 70)` accumulates the offset `(200, 0)`; with
`fm.height() = 14` and a label 30 pixels wide, `drawLegend` then places the legend box at
`QRect(339, 60, 90, 34)`, to the right of the plot area: the box is not contained
in it. -/
theorem PlotWindow.drawLegend_leaves_plot_area :
    (legendDragPlotWindow.mouseMoveEvent id ⟨380, 70⟩).m_legendOffset = ⟨200, 0⟩ ∧
    ((legendDragPlotWindow.mouseMoveEvent id ⟨380, 70⟩).drawLegend 14
      (fun _ => 30)).m_plotArea = QRect.ofSize 80 50 160 160 ∧
    ((legendDragPlotWindow.mouseMoveEvent id ⟨380, 70⟩).drawLegend 14
      (fun _ => 30)).m_legendArea = QRect.ofSize 339 60 90 34 ∧
    ¬ QRect.Within
      ((legendDragPlotWindow.mouseMoveEvent id ⟨380, 70⟩).drawLegend 14
        (fun _ => 30)).m_legendArea
      ((legendDragPlotWindow.mouseMoveEvent id ⟨380, 70⟩).drawLegend 14
        (fun _ => 30)).m_plotArea := by
  have h1 : (legendDragPlotWindow.mouseMoveEvent id ⟨380, 70⟩).m_legendOffset = ⟨200, 0⟩ := by
    simp [PlotWindow.mouseMoveEvent, legendDragPlotWindow, idlePlotWindow, QPoint.sub,
      QPoint.add]
  have h2 : ((legendDragPlotWindow.mouseMoveEvent id ⟨380, 70⟩).drawLegend 14
      (fun _ => 30)).m_plotArea = QRect.ofSize 80 50 160 160 := by
    simp [PlotWindow.drawLegend, PlotWindow.mouseMoveEvent, legendDragPlotWindow,
      idlePlotWindow, visibleCurveCount, curveOf]
  have h3 : ((legendDragPlotWindow.mouseMoveEvent id ⟨380, 70⟩).drawLegend 14
      (fun _ => 30)).m_legendArea = QRect.ofSize 339 60 90 34 := by
    simp [PlotWindow.drawLegend, PlotWindow.mouseMoveEvent, legendDragPlotWindow,
      idlePlotWindow, visibleCurveCount, legendTextWidth, curveOf, QPoint.sub, QPoint.add,
      QRect.ofSize, QRect.right, QRect.top]
  refine ⟨h1, h2, h3, ?_⟩
  rw [h2, h3]
  simp [QRect.Within, QRect.ofSize, QRect.left, QRect.right, QRect.top, QRect.bottom]

/-- The clamp of `PlottingWidget::drawLegend` keeps the legend box within the plot area
whenever the box, with its 10 pixel inset on each side, fits into the plot area. -/
theorem PlottingWidget.drawLegend_within (fmHeight : ℤ) (textAdvance : CurveData → ℤ)
    (w : PlottingWidget) (hv : visibleCurveCount w.m_curves ≠ 0)
    (hw : (legendTextWidth 50 textAdvance w.m_curves + 20) + 20 ≤
      w.m_plotArea.right - w.m_plotArea.left)
    (hh : (visibleCurveCount w.m_curves * (fmHeight + 4) + 20) + 20 ≤
      w.m_plotArea.bottom - w.m_plotArea.top) :
    QRect.Within (w.drawLegend fmHeight textAdvance).m_legendArea
      (w.drawLegend fmHeight textAdvance).m_plotArea := by
  have hne : w.m_curves.isEmpty = false := by
    cases hc : w.m_curves with
    | nil => rw [hc] at hv; exact absurd rfl hv
    | cons a l => rfl
  simp only [PlottingWidget.drawLegend, hne, Bool.false_eq_true, if_false, hv, QRect.Within,
    QRect.ofSize, QRect.left, QRect.right, QRect.top, QRect.bottom]
  simp only [QRect.left, QRect.right, QRect.top, QRect.bottom] at hw hh
  omega

/-- A label wider than the plot area: on the plot area `QRect(80, 50, 160, 160)` a
label 200 pixels wide gives a legend box 270 pixels wide, which the clamp of
`PlottingWidget::drawLegend` puts at the left inset; its right edge `359` lies beyond
the right edge `239` of the plot area. -/
theorem PlottingWidget.drawLegend_wide_label :
    (legendWidget.drawLegend 14 (fun _ => 200)).m_legendArea = QRect.ofSize 90 60 270 38 ∧
    ¬ QRect.Within (legendWidget.drawLegend 14 (fun _ => 200)).m_legendArea
      (legendWidget.drawLegend 14 (fun _ => 200)).m_plotArea := by
  have h2 : (legendWidget.drawLegend 14 (fun _ => 200)).m_plotArea
      = QRect.ofSize 80 50 160 160 := by
    simp [PlottingWidget.drawLegend, legendWidget, idleWidget, visibleCurveCount, curveOf]
  have h3 : (legendWidget.drawLegend 14 (fun _ => 200)).m_legendArea
      = QRect.ofSize 90 60 270 38 := by
    simp [PlottingWidget.drawLegend, legendWidget, idleWidget, visibleCurveCount,
      legendTextWidth, curveOf, QRect.ofSize, QRect.right, QRect.top, QRect.left,
      QRect.bottom]
  refine ⟨h3, ?_⟩
  rw [h2, h3]
  simp [QRect.Within, QRect.ofSize, QRect.left, QRect.right, QRect.top, QRect.bottom]

/-! ## Samples outside the logarithmic domain in the painters of `PlotWindow` -/

theorem PlotWindow.dataToPixel_zero_fifty :
    (idlePlotWindow logXSettings).dataToPixel ⟨0, 50⟩ = ⟨80 - 160 / 99, 129⟩ := by
  have hlin : AxisType.Linear ≠ AxisType.Logarithmic := by decide
  simp only [PlotWindow.dataToPixel, idlePlotWindow, logXSettings, defaultSettings,
    QRect.ofSize, QRect.left, QRect.width, QRect.bottom, QRect.height, hlin, false_and,
    if_false, gt_iff_lt, lt_self_iff_false, and_false]
  norm_num

theorem PlotWindow.dataToPixel_ten_fifty :
    (idlePlotWindow logXSettings).dataToPixel ⟨10, 50⟩ = ⟨160, 129⟩ := by
  have hlin : AxisType.Linear ≠ AxisType.Logarithmic := by decide
  have h10 : (0 : ℝ) < 10 := by norm_num
  have h1 : (0 : ℝ) < 1 := by norm_num
  simp only [PlotWindow.dataToPixel, idlePlotWindow, logXSettings, defaultSettings,
    QRect.ofSize, QRect.left, QRect.width, QRect.bottom, QRect.height, hlin, false_and,
    if_false, gt_iff_lt, h10, h1, and_self, if_true, log10_ten, log10_one, log10_hundred]
  norm_num

theorem logStepCurve_samples :
    logStepCurve.xData = [Sample.finite 0, Sample.finite 10] ∧
    logStepCurve.yData = [Sample.finite 50, Sample.finite 50] := by
  norm_num [logStepCurve, PlottingWidget.createStepProductionCurve, stepRow]

theorem nearPlotArea_zero_fifty :
    nearPlotArea (QRect.ofSize 80 50 160 160) ⟨80 - 160 / 99, 129⟩ = true := by
  norm_num [nearPlotArea, QRect.ofSize, QRect.left, QRect.right, QRect.top, QRect.bottom]

theorem nearPlotArea_ten_fifty :
    nearPlotArea (QRect.ofSize 80 50 160 160) ⟨160, 129⟩ = true := by
  norm_num [nearPlotArea, QRect.ofSize, QRect.left, QRect.right, QRect.top, QRect.bottom]

/-- C25 (evaluation of the code). On a `PlotWindow` with a Logarithmic X axis showing
`[1, 100]` (plot area `QRect(80, 50, 160, 160)`), the sample `(0, 50)` is outside the
logarithmic domain.  `PlotWindow::dataToPixel` maps it by the linear formula to the
substitute position `(80 - 160 / 99, 129)`, and both `PlotWindow::drawCurve` (on the
Normal curve `(0, 50), (10, 50)`) and `PlotWindow::drawStepCurve` (on the Step curve
with the same samples) draw the line from that position to `(160, 129)`; the painters
of `PlottingWidget` skip the sample and draw no line for the same curves. -/
theorem PlotWindow.log_domain_sample_drawn :
    (idlePlotWindow logXSettings).m_plotSettings.xAxisType = AxisType.Logarithmic ∧
    (idlePlotWindow logXSettings).dataToPixel ⟨0, 50⟩ = ⟨80 - 160 / 99, 129⟩ ∧
    ((idlePlotWindow logXSettings).drawCurve qRoundPoint zeroStartCurve).lines =
      [(⟨80 - 160 / 99, 129⟩, ⟨160, 129⟩)] ∧
    ((idlePlotWindow logXSettings).drawStepCurve qRoundPoint logStepCurve).lines =
      [(⟨80 - 160 / 99, 129⟩, ⟨160, 129⟩)] ∧
    ((idleWidget logXSettings).drawCurve qRoundPoint zeroStartCurve).lines = [] ∧
    ((idleWidget logXSettings).drawStepCurve qRoundPoint logStepCurve).lines = [] := by
  obtain ⟨sx, sy⟩ := logStepCurve_samples
  have ha : (idlePlotWindow logXSettings).m_plotArea = QRect.ofSize 80 50 160 160 := rfl
  refine ⟨rfl, PlotWindow.dataToPixel_zero_fifty, ?_, ?_, ?_, ?_⟩
  · simp [PlotWindow.drawCurve, zeroStartCurve, curveOf, PlotWindow.curvePoint,
      PlotWindow.dataToPixel_zero_fifty, PlotWindow.dataToPixel_ten_fifty, ha,
      nearPlotArea_zero_fifty, nearPlotArea_ten_fifty]
  · unfold PlotWindow.drawStepCurve
    rw [sx, sy]
    simp [PlotWindow.stepSegments, PlotWindow.stepPair,
      PlotWindow.dataToPixel_zero_fifty, PlotWindow.dataToPixel_ten_fifty]
  · have hx : (idleWidget logXSettings).m_plotSettings.xAxisType = AxisType.Logarithmic := rfl
    have hz : List.zip zeroStartCurve.xData zeroStartCurve.yData =
        [(Sample.finite 0, Sample.finite 50), (Sample.finite 10, Sample.finite 50)] := by
      simp [zeroStartCurve, curveOf]
    have h0 : (idleWidget logXSettings).curvePoint (Sample.finite 0, Sample.finite 50) = none := by
      simp [PlottingWidget.curvePoint, hx]
    have hlen : ¬ (List.filterMap (idleWidget logXSettings).curvePoint
        [(Sample.finite 10, Sample.finite 50)]).length > 1 :=
      not_lt.mpr (List.length_filterMap_le _ _)
    unfold PlottingWidget.drawCurve
    rw [if_neg (by simp [zeroStartCurve, curveOf]), if_neg (by simp [zeroStartCurve, curveOf])]
    simp only [hz, List.filterMap_cons_none h0]
    rw [if_neg hlen]
  · have hx : (idleWidget logXSettings).m_plotSettings.xAxisType = AxisType.Logarithmic := rfl
    unfold PlottingWidget.drawStepCurve
    rw [sx, sy]
    simp [PlottingWidget.stepSegments, PlottingWidget.stepPair, hx]

/-! ## The polyline of a Normal curve -/

/-- The first element a `filterMap` keeps comes from the first index whose element is
kept. -/
theorem head?_filterMap_index {α β : Type} (f : α → Option β) (l : List α) (d : β)
    (h : (l.filterMap f).head? = some d) :
    ∃ j : ℕ, (l[j]?).bind f = some d ∧ ∀ k : ℕ, k < j → (l[k]?).bind f = none := by
  induction l with
  | nil => simp at h
  | cons q r ih =>
    cases hq : f q with
    | none =>
      rw [List.filterMap_cons_none hq] at h
      obtain ⟨j, hj, hk⟩ := ih h
      refine ⟨j + 1, by simpa using hj, ?_⟩
      intro k hkj
      cases k with
      | zero => simpa using hq
      | succ k => simpa using hk k (by omega)
    | some e =>
      rw [List.filterMap_cons_some hq, List.head?_cons] at h
      refine ⟨0, ?_, fun k hk => absurd hk (Nat.not_lt_zero k)⟩
      rw [← h]
      simpa using hq

/-- Two neighbours in the list a `filterMap` keeps come from two indices `i < j` of the
source list between which no element is kept. -/
theorem zip_tail_filterMap_index {α β : Type} (f : α → Option β) (l : List α) (a b : β)
    (h : (a, b) ∈ List.zip (l.filterMap f) (l.filterMap f).tail) :
    ∃ i j : ℕ, i < j ∧ (l[i]?).bind f = some a ∧ (l[j]?).bind f = some b ∧
      ∀ k : ℕ, i < k → k < j → (l[k]?).bind f = none := by
  induction l with
  | nil => simp at h
  | cons p rest ih =>
    cases hp : f p with
    | none =>
      rw [List.filterMap_cons_none hp] at h
      obtain ⟨i, j, hij, hi, hj, hk⟩ := ih h
      refine ⟨i + 1, j + 1, by omega, by simpa using hi, by simpa using hj, ?_⟩
      intro k h1 h2
      cases k with
      | zero => omega
      | succ k => simpa using hk k (by omega) (by omega)
    | some c =>
      rw [List.filterMap_cons_some hp, List.tail_cons] at h
      cases hg : List.filterMap f rest with
      | nil =>
        rw [hg] at h
        simp at h
      | cons d g =>
        rw [hg, List.zip_cons_cons, List.mem_cons] at h
        rcases h with h | h
        · obtain ⟨rfl, rfl⟩ := Prod.mk.inj h
          obtain ⟨j, hj, hk⟩ := head?_filterMap_index f rest b (by rw [hg, List.head?_cons])
          refine ⟨0, j + 1, by omega, by simpa using hp, by simpa using hj, ?_⟩
          intro k h1 h2
          cases k with
          | zero => omega
          | succ k => simpa using hk k (by omega)
        · have h' : (a, b) ∈ List.zip (List.filterMap f rest) (List.filterMap f rest).tail := by
            rw [hg, List.tail_cons]
            exact h
          obtain ⟨i, j, hij, hi, hj, hk⟩ := ih h'
          refine ⟨i + 1, j + 1, by omega, by simpa using hi, by simpa using hj, ?_⟩
          intro k h1 h2
          cases k with
          | zero => omega
          | succ k => simpa using hk k (by omega) (by omega)

/-- A pixel point the point loop of `drawCurve` appends is the image of a sample with
finite coordinates, strictly positive on every Logarithmic axis. -/
theorem PlottingWidget.curvePoint_some (w : PlottingWidget) (p : Sample × Sample)
    (a : QPointF) (h : w.curvePoint p = some a) :
    ∃ x y, p = (Sample.finite x, Sample.finite y) ∧
      InLogDomain w.m_plotSettings.xAxisType w.m_plotSettings.yAxisType x y ∧
      a = w.dataToPixel ⟨x, y⟩ := by
  rcases p with ⟨sx, sy⟩
  cases sx with
  | nonFinite => simp [PlottingWidget.curvePoint] at h
  | finite x =>
    cases sy with
    | nonFinite => simp [PlottingWidget.curvePoint] at h
    | finite y =>
      simp only [PlottingWidget.curvePoint] at h
      split_ifs at h with h1 h2 h3
      refine ⟨x, y, rfl, ⟨?_, ?_⟩, (Option.some.inj h).symm⟩
      · intro ht
        by_contra hx
        exact h1 ⟨ht, not_lt.mp hx⟩
      · intro ht
        by_contra hy
        exact h2 ⟨ht, not_lt.mp hy⟩

/-- A sample that is not finite, or not positive on a Logarithmic axis, is skipped by the
point loop of `drawCurve`. -/
theorem PlottingWidget.curvePoint_invalid (w : PlottingWidget) (p : Sample × Sample)
    (h : ∀ x y, p = (Sample.finite x, Sample.finite y) →
      ¬ InLogDomain w.m_plotSettings.xAxisType w.m_plotSettings.yAxisType x y) :
    w.curvePoint p = none := by
  cases hc : w.curvePoint p with
  | none => rfl
  | some a =>
    obtain ⟨x, y, hp, hd, -⟩ := PlottingWidget.curvePoint_some w p a hc
    exact absurd hd (h x y hp)

theorem PlottingWidget.dataToPixel_origin :
    (idleWidget defaultSettings).dataToPixel ⟨0, 0⟩ = ⟨80, 209⟩ := by
  have hlin : AxisType.Linear ≠ AxisType.Logarithmic := by decide
  simp only [PlottingWidget.dataToPixel, idleWidget, defaultSettings, QRect.ofSize, QRect.left,
    QRect.width, QRect.bottom, QRect.height, hlin, false_and, if_false]
  norm_num

theorem PlottingWidget.dataToPixel_hundred :
    (idleWidget defaultSettings).dataToPixel ⟨100, 100⟩ = ⟨240, 49⟩ := by
  have hlin : AxisType.Linear ≠ AxisType.Logarithmic := by decide
  simp only [PlottingWidget.dataToPixel, idleWidget, defaultSettings, QRect.ofSize, QRect.left,
    QRect.width, QRect.bottom, QRect.height, hlin, false_and, if_false]
  norm_num

theorem curvePoints_gapCurve :
    (List.zip gapCurve.xData gapCurve.yData).filterMap (idleWidget defaultSettings).curvePoint =
      [⟨80, 209⟩, ⟨240, 49⟩] := by
  have hlin : AxisType.Linear ≠ AxisType.Logarithmic := by decide
  have hx : (idleWidget defaultSettings).m_plotSettings.xAxisType = AxisType.Linear := rfl
  have hy : (idleWidget defaultSettings).m_plotSettings.yAxisType = AxisType.Linear := rfl
  have ha : (idleWidget defaultSettings).m_plotArea = QRect.ofSize 80 50 160 160 := rfl
  have hz : List.zip gapCurve.xData gapCurve.yData =
      [(Sample.finite 0, Sample.finite 0), (Sample.finite 50, Sample.nonFinite),
        (Sample.finite 100, Sample.finite 100)] := by
    simp [gapCurve, curveOf]
  have n0 : nearPlotArea (QRect.ofSize 80 50 160 160) ⟨80, 209⟩ = true := by
    norm_num [nearPlotArea, QRect.ofSize, QRect.left, QRect.right, QRect.top, QRect.bottom]
  have n2 : nearPlotArea (QRect.ofSize 80 50 160 160) ⟨240, 49⟩ = true := by
    norm_num [nearPlotArea, QRect.ofSize, QRect.left, QRect.right, QRect.top, QRect.bottom]
  have c0 : (idleWidget defaultSettings).curvePoint (Sample.finite 0, Sample.finite 0) =
      some ⟨80, 209⟩ := by
    simp [PlottingWidget.curvePoint, hx, hy, ha, PlottingWidget.dataToPixel_origin, n0]
  have c1 : (idleWidget defaultSettings).curvePoint (Sample.finite 50, Sample.nonFinite) =
      none := rfl
  have c2 : (idleWidget defaultSettings).curvePoint (Sample.finite 100, Sample.finite 100) =
      some ⟨240, 49⟩ := by
    simp [PlottingWidget.curvePoint, hx, hy, ha, PlottingWidget.dataToPixel_hundred, n2]
  rw [hz, List.filterMap_cons_some c0, List.filterMap_cons_none c1,
    List.filterMap_cons_some c2, List.filterMap_nil]

/-- C23 (counterexample). On the default Linear range, the Normal curve
`x = [0, 50, 100]`, `y = [0, NaN, 100]` has the invalid sample `1` between the valid
samples `0` and `2`, whose pixel points are `(80, 209)` and `(240, 49)`; `drawCurve`
draws the one line from `(80, 209)` to `(240, 49)`, a segment between the samples `0`
and `2` across the skipped sample. -/
theorem PlottingWidget.drawCurve_bridges_gap :
    (List.zip gapCurve.xData gapCurve.yData)[1]? = some (Sample.finite 50, Sample.nonFinite) ∧
    (idleWidget defaultSettings).dataToPixel ⟨0, 0⟩ = ⟨80, 209⟩ ∧
    (idleWidget defaultSettings).dataToPixel ⟨100, 100⟩ = ⟨240, 49⟩ ∧
    ((idleWidget defaultSettings).drawCurve qRoundPoint gapCurve).lines =
      [(⟨80, 209⟩, ⟨240, 49⟩)] := by
  refine ⟨by simp [gapCurve, curveOf], PlottingWidget.dataToPixel_origin,
    PlottingWidget.dataToPixel_hundred, ?_⟩
  unfold PlottingWidget.drawCurve
  rw [if_neg (by simp [gapCurve, curveOf]), if_neg (by simp [gapCurve, curveOf])]
  simp only [curvePoints_gapCurve]
  simp

/-- The lines of a Normal curve are the pairs of neighbours in the list of accepted
pixel points. -/
theorem PlottingWidget.drawCurve_lines_eq (toPoint : QPointF → QPoint) (w : PlottingWidget)
    (curve : CurveData) (hN : curve.drawType = CurveType.Normal) :
    (w.drawCurve toPoint curve).lines =
      List.zip ((List.zip curve.xData curve.yData).filterMap w.curvePoint)
        ((List.zip curve.xData curve.yData).filterMap w.curvePoint).tail := by
  have hs : ¬ curve.drawType = CurveType.Step := by
    rw [hN]
    decide
  unfold PlottingWidget.drawCurve
  rw [if_neg hs]
  by_cases h1 : (curve.xData.isEmpty || curve.yData.isEmpty) = true
  · have hz : List.zip curve.xData curve.yData = [] := by
      rcases (Bool.or_eq_true _ _).mp h1 with h | h
      · rw [List.isEmpty_iff.mp h, List.zip_nil_left]
      · rw [List.isEmpty_iff.mp h, List.zip_nil_right]
    rw [if_pos h1, hz]
    rfl
  · rw [if_neg h1]
    simp only []
    by_cases h2 : ((List.zip curve.xData curve.yData).filterMap w.curvePoint).length > 1
    · rw [if_pos h2]
    · rw [if_neg h2]
      symm
      apply List.eq_nil_of_length_eq_zero
      rw [List.length_zip, List.length_tail]
      omega

/-- C23 (amended). For a Normal curve, every line `drawCurve` draws joins the pixel
points of two samples `i < j` that are both finite and strictly positive on every
Logarithmic axis, and every sample between them was skipped by the point loop (as
invalid, or as mapped farther than 50 pixels from the plot area): the polyline joins
the accepted samples in source order and is not broken at a skipped sample.  With `m`
accepted samples `m - 1` lines are drawn, and a sample that is not finite, or not
positive on a Logarithmic axis, is never accepted. -/
theorem PlottingWidget.drawCurve_segments (toPoint : QPointF → QPoint) (w : PlottingWidget)
    (curve : CurveData) (hN : curve.drawType = CurveType.Normal) :
    (∀ a b, (a, b) ∈ (w.drawCurve toPoint curve).lines →
      ∃ (i j : ℕ) (xi yi xj yj : ℝ), i < j ∧
        (List.zip curve.xData curve.yData)[i]? = some (Sample.finite xi, Sample.finite yi) ∧
        (List.zip curve.xData curve.yData)[j]? = some (Sample.finite xj, Sample.finite yj) ∧
        InLogDomain w.m_plotSettings.xAxisType w.m_plotSettings.yAxisType xi yi ∧
        InLogDomain w.m_plotSettings.xAxisType w.m_plotSettings.yAxisType xj yj ∧
        a = w.dataToPixel ⟨xi, yi⟩ ∧ b = w.dataToPixel ⟨xj, yj⟩ ∧
        ∀ k : ℕ, i < k → k < j →
          ((List.zip curve.xData curve.yData)[k]?).bind w.curvePoint = none) ∧
    (w.drawCurve toPoint curve).lines.length =
      ((List.zip curve.xData curve.yData).filterMap w.curvePoint).length - 1 ∧
    (∀ p : Sample × Sample,
      (∀ x y, p = (Sample.finite x, Sample.finite y) →
        ¬ InLogDomain w.m_plotSettings.xAxisType w.m_plotSettings.yAxisType x y) →
      w.curvePoint p = none) := by
  have hl := PlottingWidget.drawCurve_lines_eq toPoint w curve hN
  refine ⟨?_, ?_, PlottingWidget.curvePoint_invalid w⟩
  · intro a b hab
    rw [hl] at hab
    obtain ⟨i, j, hij, hi, hj, hk⟩ := zip_tail_filterMap_index w.curvePoint _ a b hab
    obtain ⟨pi, hpi, hfi⟩ := Option.bind_eq_some.mp hi
    obtain ⟨pj, hpj, hfj⟩ := Option.bind_eq_some.mp hj
    obtain ⟨xi, yi, rfl, di, ei⟩ := PlottingWidget.curvePoint_some w pi a hfi
    obtain ⟨xj, yj, rfl, dj, ej⟩ := PlottingWidget.curvePoint_some w pj b hfj
    exact ⟨i, j, xi, yi, xj, yj, hij, hpi, hpj, di, dj, ei, ej, hk⟩
  · rw [hl, List.length_zip, List.length_tail]
    omega

/-- C23 (amended) at a concrete input: the curve `x = [0, 50, 100]`, `y = [0, NaN, 100]`
has two accepted samples and one line. -/
theorem PlottingWidget.drawCurve_segments_witness :
    gapCurve.drawType = CurveType.Normal ∧
    ((idleWidget defaultSettings).drawCurve qRoundPoint gapCurve).lines.length =
      ((List.zip gapCurve.xData gapCurve.yData).filterMap
        (idleWidget defaultSettings).curvePoint).length - 1 :=
  ⟨rfl, (PlottingWidget.drawCurve_segments qRoundPoint (idleWidget defaultSettings) gapCurve
    rfl).2.1⟩

/-! ## The primitives of a Step curve -/

theorem PlottingWidget.stepPair_connectors (w : PlottingWidget) (p0 p1 : Sample × Sample)
    (rest : List (Sample × Sample)) :
    (w.stepPair p0 p1 rest).2.length ≤ 1 ∧
      (rest.length < 2 → (w.stepPair p0 p1 rest).2 = []) := by
  unfold PlottingWidget.stepPair
  split
  · split_ifs
    · exact ⟨Nat.zero_le _, fun _ => rfl⟩
    · exact ⟨Nat.zero_le _, fun _ => rfl⟩
    · simp only []
      split
      · split_ifs
        · exact ⟨Nat.zero_le _, fun _ => rfl⟩
        · exact ⟨Nat.zero_le _, fun _ => rfl⟩
        · refine ⟨le_refl _, fun h => ?_⟩
          simp only [List.length_cons] at h
          omega
      · exact ⟨Nat.zero_le _, fun _ => rfl⟩
  · exact ⟨Nat.zero_le _, fun _ => rfl⟩

theorem PlottingWidget.stepPair_lines (w : PlottingWidget) (p0 p1 : Sample × Sample)
    (rest : List (Sample × Sample)) :
    (w.stepPair p0 p1 rest).1.length ≤ 1 ∧
    (∀ line ∈ (w.stepPair p0 p1 rest).1, ∃ x0 y0 x1 y1 : ℝ,
      p0 = (Sample.finite x0, Sample.finite y0) ∧ p1 = (Sample.finite x1, Sample.finite y1) ∧
      line = (w.dataToPixel ⟨x0, y0⟩, w.dataToPixel ⟨x1, y1⟩)) := by
  unfold PlottingWidget.stepPair
  split
  · rename_i x0 y0 x1 y1
    split_ifs
    · exact ⟨Nat.zero_le _, fun line h => by simp at h⟩
    · exact ⟨Nat.zero_le _, fun line h => by simp at h⟩
    · refine ⟨le_refl _, fun line h => ?_⟩
      simp only [List.mem_singleton] at h
      exact ⟨x0, y0, x1, y1, rfl, rfl, h⟩
  · exact ⟨Nat.zero_le _, fun line h => by simp at h⟩

theorem PlottingWidget.stepPair_lines_valid (w : PlottingWidget) (x0 y0 x1 y1 : ℝ)
    (rest : List (Sample × Sample))
    (h0 : InLogDomain w.m_plotSettings.xAxisType w.m_plotSettings.yAxisType x0 y0)
    (h1 : InLogDomain w.m_plotSettings.xAxisType w.m_plotSettings.yAxisType x1 y1) :
    (w.stepPair (Sample.finite x0, Sample.finite y0) (Sample.finite x1, Sample.finite y1)
      rest).1 = [(w.dataToPixel ⟨x0, y0⟩, w.dataToPixel ⟨x1, y1⟩)] := by
  have c1 : ¬ (w.m_plotSettings.xAxisType = AxisType.Logarithmic ∧ (x0 ≤ 0 ∨ x1 ≤ 0)) := by
    rintro ⟨ht, h | h⟩
    · exact absurd (h0.1 ht) (not_lt.mpr h)
    · exact absurd (h1.1 ht) (not_lt.mpr h)
  have c2 : ¬ (w.m_plotSettings.yAxisType = AxisType.Logarithmic ∧ (y0 ≤ 0 ∨ y1 ≤ 0)) := by
    rintro ⟨ht, h | h⟩
    · exact absurd (h0.2 ht) (not_lt.mpr h)
    · exact absurd (h1.2 ht) (not_lt.mpr h)
  simp only [PlottingWidget.stepPair, c1, c2, if_false]

theorem PlottingWidget.stepMarker_spec (toPoint : QPointF → QPoint) (w : PlottingWidget)
    (p : Sample × Sample) :
    (w.stepMarker toPoint p).length ≤ 1 ∧
    (∀ m ∈ w.stepMarker toPoint p, ∃ x y : ℝ,
      p = (Sample.finite x, Sample.finite y) ∧ m = w.dataToPixel ⟨x, y⟩) := by
  unfold PlottingWidget.stepMarker
  split
  · rename_i x y
    simp only []
    split_ifs
    · exact ⟨Nat.zero_le _, fun m h => by simp at h⟩
    · exact ⟨Nat.zero_le _, fun m h => by simp at h⟩
    · refine ⟨le_refl _, fun m h => ?_⟩
      simp only [List.mem_singleton] at h
      exact ⟨x, y, rfl, h⟩
    · exact ⟨Nat.zero_le _, fun m h => by simp at h⟩
  · exact ⟨Nat.zero_le _, fun m h => by simp at h⟩

theorem PlottingWidget.stepSegments_cons (w : PlottingWidget) (p0 p1 : Sample × Sample)
    (rest : List (Sample × Sample)) :
    w.stepSegments (p0 :: p1 :: rest) =
      ((w.stepPair p0 p1 rest).1 ++ (w.stepSegments rest).1,
        (w.stepPair p0 p1 rest).2 ++ (w.stepSegments rest).2) := rfl

theorem PlottingWidget.stepMarkers_cons (toPoint : QPointF → QPoint) (w : PlottingWidget)
    (p0 p1 : Sample × Sample) (rest : List (Sample × Sample)) :
    w.stepMarkers toPoint (p0 :: p1 :: rest) =
      w.stepMarker toPoint p0 ++ w.stepMarkers toPoint rest := rfl

theorem list_of_length_two_mul_succ {α : Type} (n : ℕ) (s : List α)
    (h : s.length = 2 * (n + 1)) :
    ∃ p0 p1 rest, s = p0 :: p1 :: rest ∧ rest.length = 2 * n := by
  match s, h with
  | p0 :: p1 :: rest, h =>
    refine ⟨p0, p1, rest, rfl, ?_⟩
    simp only [List.length_cons] at h
    omega

/-- The first loop of `drawStepCurve` on `2n` samples: at most `n` horizontal segments,
at most `n - 1` connectors, every segment joins the samples `2i` and `2i + 1` of one
pair, and every pair of accepted samples gives its segment. -/
theorem PlottingWidget.stepSegments_counts (w : PlottingWidget) :
    ∀ (n : ℕ) (s : List (Sample × Sample)), s.length = 2 * n →
      (w.stepSegments s).1.length ≤ n ∧
      (w.stepSegments s).2.length ≤ n - 1 ∧
      (∀ line ∈ (w.stepSegments s).1, ∃ (i : ℕ) (x0 y0 x1 y1 : ℝ), i < n ∧
        s[2 * i]? = some (Sample.finite x0, Sample.finite y0) ∧
        s[2 * i + 1]? = some (Sample.finite x1, Sample.finite y1) ∧
        line = (w.dataToPixel ⟨x0, y0⟩, w.dataToPixel ⟨x1, y1⟩)) ∧
      ((∀ p ∈ s, ∃ x y : ℝ, p = (Sample.finite x, Sample.finite y) ∧
          InLogDomain w.m_plotSettings.xAxisType w.m_plotSettings.yAxisType x y) →
        (w.stepSegments s).1.length = n) := by
  intro n
  induction n with
  | zero =>
    intro s hs
    have h0 : s = [] := List.eq_nil_of_length_eq_zero (by simpa using hs)
    subst h0
    exact ⟨le_refl _, le_refl _, fun line h => by simp [PlottingWidget.stepSegments] at h,
      fun _ => rfl⟩
  | succ n ih =>
    intro s hs
    obtain ⟨p0, p1, rest, rfl, hr⟩ := list_of_length_two_mul_succ n s hs
    obtain ⟨i1, i2, i3, i4⟩ := ih rest hr
    obtain ⟨l1, l2⟩ := PlottingWidget.stepPair_lines w p0 p1 rest
    obtain ⟨c1, c2⟩ := PlottingWidget.stepPair_connectors w p0 p1 rest
    rw [PlottingWidget.stepSegments_cons]
    refine ⟨?_, ?_, ?_, ?_⟩
    · simp only [List.length_append]
      omega
    · simp only [List.length_append]
      by_cases hn : n = 0
      · have hc := c2 (by omega)
        rw [hc]
        simp only [List.length_nil]
        omega
      · omega
    · intro line hl
      rcases List.mem_append.mp hl with h | h
      · obtain ⟨x0, y0, x1, y1, e0, e1, el⟩ := l2 line h
        exact ⟨0, x0, y0, x1, y1, by omega, by simp [e0], by simp [e1], el⟩
      · obtain ⟨i, x0, y0, x1, y1, hi, e0, e1, el⟩ := i3 line h
        refine ⟨i + 1, x0, y0, x1, y1, by omega, ?_, ?_, el⟩
        · have : 2 * (i + 1) = 2 * i + 1 + 1 := by ring
          rw [this, List.getElem?_cons_succ, List.getElem?_cons_succ]
          exact e0
        · have : 2 * (i + 1) + 1 = 2 * i + 1 + 1 + 1 := by ring
          rw [this, List.getElem?_cons_succ, List.getElem?_cons_succ]
          exact e1
    · intro hv
      obtain ⟨x0, y0, e0, d0⟩ := hv p0 (List.mem_cons_self _ _)
      obtain ⟨x1, y1, e1, d1⟩ := hv p1 (List.mem_cons_of_mem _ (List.mem_cons_self _ _))
      have hrest := i4 (fun p hp => hv p (List.mem_cons_of_mem _ (List.mem_cons_of_mem _ hp)))
      rw [e0, e1, PlottingWidget.stepPair_lines_valid w x0 y0 x1 y1 rest d0 d1]
      simp only [List.length_append, List.length_singleton, hrest]
      omega

/-- The second loop of `drawStepCurve` on `2n` samples: at most `n` markers, each at the
pixel point of a sample with an even index. -/
theorem PlottingWidget.stepMarkers_counts (toPoint : QPointF → QPoint) (w : PlottingWidget) :
    ∀ (n : ℕ) (s : List (Sample × Sample)), s.length = 2 * n →
      (w.stepMarkers toPoint s).length ≤ n ∧
      (∀ m ∈ w.stepMarkers toPoint s, ∃ (i : ℕ) (x y : ℝ), i < n ∧
        s[2 * i]? = some (Sample.finite x, Sample.finite y) ∧ m = w.dataToPixel ⟨x, y⟩) := by
  intro n
  induction n with
  | zero =>
    intro s hs
    have h0 : s = [] := List.eq_nil_of_length_eq_zero (by simpa using hs)
    subst h0
    exact ⟨le_refl _, fun m h => by simp [PlottingWidget.stepMarkers] at h⟩
  | succ n ih =>
    intro s hs
    obtain ⟨p0, p1, rest, rfl, hr⟩ := list_of_length_two_mul_succ n s hs
    obtain ⟨i1, i2⟩ := ih rest hr
    obtain ⟨m1, m2⟩ := PlottingWidget.stepMarker_spec toPoint w p0
    rw [PlottingWidget.stepMarkers_cons]
    refine ⟨?_, ?_⟩
    · simp only [List.length_append]
      omega
    · intro m hm
      rcases List.mem_append.mp hm with h | h
      · obtain ⟨x, y, e, em⟩ := m2 m h
        exact ⟨0, x, y, by omega, by simp [e], em⟩
      · obtain ⟨i, x, y, hi, e, em⟩ := i2 m h
        refine ⟨i + 1, x, y, by omega, ?_, em⟩
        have : 2 * (i + 1) = 2 * i + 1 + 1 := by ring
        rw [this, List.getElem?_cons_succ, List.getElem?_cons_succ]
        exact e

/-- C24 (counterexample). The Step curve `createStepProductionCurve` builds from one
table row has the `2n = 2` samples `(0, 50)`, `(10, 50)`.  On a Logarithmic X axis its
first sample is outside the domain, the pair `(0, 1)` is skipped, and `drawStepCurve`
(also when reached through `drawCurve`) draws no horizontal segment, not `n = 1`. -/
theorem PlottingWidget.drawStepCurve_skips_pair :
    logStepCurve.drawType = CurveType.Step ∧
    logStepCurve.xData = [Sample.finite 0, Sample.finite 10] ∧
    logStepCurve.yData = [Sample.finite 50, Sample.finite 50] ∧
    (idleWidget logXSettings).m_plotSettings.xAxisType = AxisType.Logarithmic ∧
    ((idleWidget logXSettings).drawStepCurve qRoundPoint logStepCurve).lines = [] ∧
    ((idleWidget logXSettings).drawCurve qRoundPoint logStepCurve).lines = [] := by
  obtain ⟨sx, sy⟩ := logStepCurve_samples
  have hx : (idleWidget logXSettings).m_plotSettings.xAxisType = AxisType.Logarithmic := rfl
  have hl : ((idleWidget logXSettings).drawStepCurve qRoundPoint logStepCurve).lines = [] := by
    unfold PlottingWidget.drawStepCurve
    rw [sx, sy]
    simp [PlottingWidget.stepSegments, PlottingWidget.stepPair, hx]
  have hd : logStepCurve.drawType = CurveType.Step := rfl
  refine ⟨hd, sx, sy, hx, hl, ?_⟩
  unfold PlottingWidget.drawCurve
  rw [if_pos hd]
  exact hl

/-- C24 (amended). For a Step curve with `2n` samples (`n >= 1`), `drawStepCurve` draws
at most `n` horizontal segments, each joining the samples `2i` and `2i + 1` of one
pair, at most `n - 1` vertical connectors and at most `n` markers, each marker at a
sample with an even index; when every sample is finite and strictly positive on every
Logarithmic axis, exactly `n` horizontal segments are drawn. -/
theorem PlottingWidget.drawStepCurve_counts (toPoint : QPointF → QPoint) (w : PlottingWidget)
    (curve : CurveData) (n : ℕ) (hn : 1 ≤ n) (hx : curve.xData.length = 2 * n)
    (hy : curve.yData.length = 2 * n) :
    (w.drawStepCurve toPoint curve).lines.length ≤ n ∧
    (w.drawStepCurve toPoint curve).connectors.length ≤ n - 1 ∧
    (w.drawStepCurve toPoint curve).ellipses.length ≤ n ∧
    (∀ line ∈ (w.drawStepCurve toPoint curve).lines,
      ∃ (i : ℕ) (x0 y0 x1 y1 : ℝ), i < n ∧
        curve.xData[2 * i]? = some (Sample.finite x0) ∧
        curve.yData[2 * i]? = some (Sample.finite y0) ∧
        curve.xData[2 * i + 1]? = some (Sample.finite x1) ∧
        curve.yData[2 * i + 1]? = some (Sample.finite y1) ∧
        line = (w.dataToPixel ⟨x0, y0⟩, w.dataToPixel ⟨x1, y1⟩)) ∧
    (∀ m ∈ (w.drawStepCurve toPoint curve).ellipses,
      ∃ (i : ℕ) (x y : ℝ), i < n ∧
        curve.xData[2 * i]? = some (Sample.finite x) ∧
        curve.yData[2 * i]? = some (Sample.finite y) ∧ m = w.dataToPixel ⟨x, y⟩) ∧
    ((∀ i : ℕ, i < 2 * n → ∃ x y : ℝ,
        curve.xData[i]? = some (Sample.finite x) ∧ curve.yData[i]? = some (Sample.finite y) ∧
        InLogDomain w.m_plotSettings.xAxisType w.m_plotSettings.yAxisType x y) →
      (w.drawStepCurve toPoint curve).lines.length = n) := by
  have hlen : (List.zip curve.xData curve.yData).length = 2 * n := by
    rw [List.length_zip, hx, hy, Nat.min_self]
  have hne : (curve.xData.isEmpty || curve.yData.isEmpty) = false := by
    have h1 : curve.xData.isEmpty = false := by
      cases hc : curve.xData with
      | nil => rw [hc] at hx; simp at hx; omega
      | cons a l => rfl
    have h2 : curve.yData.isEmpty = false := by
      cases hc : curve.yData with
      | nil => rw [hc] at hy; simp at hy; omega
      | cons a l => rfl
    rw [h1, h2]
    rfl
  obtain ⟨s1, s2, s3, s4⟩ := PlottingWidget.stepSegments_counts w n _ hlen
  obtain ⟨m1, m2⟩ := PlottingWidget.stepMarkers_counts toPoint w n _ hlen
  have hd : w.drawStepCurve toPoint curve =
      { lines := (w.stepSegments (List.zip curve.xData curve.yData)).1,
        connectors := (w.stepSegments (List.zip curve.xData curve.yData)).2,
        ellipses := w.stepMarkers toPoint (List.zip curve.xData curve.yData) } := by
    unfold PlottingWidget.drawStepCurve
    rw [hne]
    rfl
  rw [hd]
  refine ⟨s1, s2, m1, ?_, ?_, ?_⟩
  · intro line hl
    obtain ⟨i, x0, y0, x1, y1, hi, e0, e1, el⟩ := s3 line hl
    obtain ⟨a0, b0⟩ := List.getElem?_zip_eq_some.mp e0
    obtain ⟨a1, b1⟩ := List.getElem?_zip_eq_some.mp e1
    exact ⟨i, x0, y0, x1, y1, hi, a0, b0, a1, b1, el⟩
  · intro m hm
    obtain ⟨i, x, y, hi, e, em⟩ := m2 m hm
    obtain ⟨a, b⟩ := List.getElem?_zip_eq_some.mp e
    exact ⟨i, x, y, hi, a, b, em⟩
  · intro hv
    apply s4
    intro p hp
    obtain ⟨i, hi⟩ := List.mem_iff_getElem?.mp hp
    have hlt : i < 2 * n := by
      have := (List.getElem?_eq_some_iff.mp hi).1
      omega
    obtain ⟨x, y, ex, ey, hd⟩ := hv i hlt
    obtain ⟨a, b⟩ := List.getElem?_zip_eq_some.mp hi
    rw [ex] at a
    rw [ey] at b
    refine ⟨x, y, ?_, hd⟩
    exact Prod.ext (Option.some.inj a).symm (Option.some.inj b).symm

/-- C24 (amended) at a concrete input: on Linear axes the Step curve with the `2`
samples `(0, 50)`, `(10, 50)` is drawn with exactly one horizontal segment. -/
theorem PlottingWidget.drawStepCurve_counts_witness :
    logStepCurve.xData.length = 2 * 1 ∧ logStepCurve.yData.length = 2 * 1 ∧
    ((idleWidget defaultSettings).drawStepCurve qRoundPoint logStepCurve).lines.length = 1 := by
  obtain ⟨sx, sy⟩ := logStepCurve_samples
  have hx : logStepCurve.xData.length = 2 * 1 := by rw [sx]; rfl
  have hy : logStepCurve.yData.length = 2 * 1 := by rw [sy]; rfl
  refine ⟨hx, hy, (PlottingWidget.drawStepCurve_counts qRoundPoint (idleWidget defaultSettings)
    logStepCurve 1 (le_refl 1) hx hy).2.2.2.2.2 ?_⟩
  intro i hi
  have hd : ∀ x y : ℝ, InLogDomain (idleWidget defaultSettings).m_plotSettings.xAxisType
      (idleWidget defaultSettings).m_plotSettings.yAxisType x y := by
    intro x y
    constructor <;> intro h <;> exact absurd h (by decide)
  rw [sx, sy]
  interval_cases i
  · exact ⟨0, 50, rfl, rfl, hd 0 50⟩
  · exact ⟨10, 50, rfl, rfl, hd 10 50⟩

/-! ## Linear ticks of the standalone window -/

end
